import Mathlib

/-!
# Sensorless six-step BLDC commutation driver (`src/driver.c`)

A shallow embedding of the commutation engine of `driver.c`: the phase-output
table, the duty-cycle helpers, the phase switching routine `comm_switch`, the
control-surface commands, the state machine `BLDC_Update` and the back-EMF
sampler `BLDC_Step`.

Conventions of the embedding.

* All file-scope and function-static variables of `driver.c` are the fields of
  one record `Driver`; every C function is a function `Driver → Driver`.
* `uint16_t` / `uint8_t` values are natural numbers, reduced `% 65536` /
  `% 256` wherever the C arithmetic can leave the range.  `int` is the 16-bit
  `int` of the STM8 target: a conversion to `int` goes through `toInt16`.
* Calls into the PWM, GPIO, timer and UART collaborators are recorded, in
  program order, in the trace `Driver.hw`.
* `TIM2_PWM_PD` and the table included from `model.h` are not part of the
  sources; the table is a parameter `OL_Timing` of `BLDC_Update`.
-/

namespace BLDC

/-! ## Types -/

/-- Enumerates the PWM state of each channel (`BLDC_PWM_STATE_t`). -/
inductive BLDC_PWM_STATE_t
  | DC_OUTP_OFF
  | DC_OUTP_HI
  | DC_OUTP_LO
  | DC_OUTP_FLOAT_R
  | DC_OUTP_FLOAT_F
  | DC_NONE
  deriving DecidableEq, Repr

open BLDC_PWM_STATE_t

/-- One commutation step: the states of the three phases (`BLDC_COMM_STEP_t`). -/
structure BLDC_COMM_STEP_t where
  phA : BLDC_PWM_STATE_t
  phB : BLDC_PWM_STATE_t
  phC : BLDC_PWM_STATE_t
  deriving DecidableEq, Repr

/-- Motor running-cycle state machine (`BLDC_STATE_T`). -/
inductive BLDC_STATE_T
  | BLDC_OFF
  | BLDC_RAMPUP
  | BLDC_ON
  deriving DecidableEq, Repr

open BLDC_STATE_T

/-- The messages handed to `uart_print` by the driver. -/
inductive UartMsg
  | STOP
  | OFF_RAMP_MINUS
  | OFF_RAMP_PLUS
  | THR_OFF_RAMP
  deriving DecidableEq, Repr

/-- The calls the driver makes into its hardware collaborators. -/
inductive HwOp
  | PWM_PhA_Disable
  | PWM_PhB_Disable
  | PWM_PhC_Disable
  | PWM_PhA_HB_DISABLE
  | PWM_PhB_HB_DISABLE
  | PWM_PhC_HB_DISABLE
  | PWM_PhA_OUTP_LO
  | PWM_PhB_OUTP_LO
  | PWM_PhC_OUTP_LO
  | PWM_PhA_HB_ENABLE
  | PWM_PhB_HB_ENABLE
  | PWM_PhC_HB_ENABLE
  | PWM_PhA_Enable (dc : Nat)
  | PWM_PhB_Enable (dc : Nat)
  | PWM_PhC_Enable (dc : Nat)
  | GPIOC_ODR_clear (bit : Nat)
  | GPIOG_ODR_clear (bit : Nat)
  | GPIOG_ODR_set (bit : Nat)
  | TIM1_CtrlPWMOutputs_DISABLE
  | TIM3_setup (u16period : Nat)
  | uart_print (msg : UartMsg)
  deriving DecidableEq, Repr

/-- A four-slot sample buffer (`uint16_t x[4]`). -/
structure Samples4 where
  s0 : Nat
  s1 : Nat
  s2 : Nat
  s3 : Nat
  deriving DecidableEq, Repr

/-- The variables of `driver.c`: globals, file statics and function statics. -/
structure Driver where
  _ADC_Global : Nat
  Back_EMF_15304560 : Samples4
  Back_EMF_Falling_4 : Samples4
  Back_EMF_Falling_Int_PhX : Int
  BLDC_OL_comm_tm : Nat
  global_uDC : Nat
  Vsystem : Nat
  Vbatt : Nat
  BLDC_State : BLDC_STATE_T
  Manual_Mode : Int
  Ramp_Step_Tm : Nat
  Table_value : Nat
  vsys_fault_bucket : Int
  fault_arming_time : Nat
  prev_bldc_step : Nat
  bldc_step_modul : Nat
  comm_step : Nat
  Log_Level : Nat
  hw : List HwOp
  deriving DecidableEq, Repr

/-! ## Constants -/

def DC_HALF_REF : Nat := 0x01FD

def V_SHUTDOWN_THR : Nat := 0x02c0

/-- Modelled from the spec: `TIM2_PWM_PD` is defined in a header that is not
among the sources.  The spec bounds DutyCycle by the PWM period and `driver.c`
fixes its value in comments: the precision is `1/TIM2_PWM_PD = 0.4%` per count
and `PWM_DC_IDLE` (12%) is `0x1E`, so the period is 250 counts. -/
def TIM2_PWM_PD : Nat := 250

def PWM_100PCNT : Nat := TIM2_PWM_PD

def PWM_0PCNT : Nat := 0

/-- The macro `PWM_X_PCNT(_PCNT_)`, `_PCNT_ * PWM_100PCNT / 100`, for a whole
percentage; the quotient is truncated when it is stored in a `uint16_t`. -/
def PWM_X_PCNT (pcnt : Nat) : Nat := pcnt * PWM_100PCNT / 100

def PWM_DC_RAMPUP : Nat := PWM_X_PCNT 14

def PWM_DC_IDLE : Nat := PWM_X_PCNT 12

def TIM3_RATE_MODULUS : Nat := 4

def BLDC_OL_TM_LO_SPD : Nat := 0x1000

def BLDC_OL_TM_HI_SPD : Nat := 0x03C0

def LUDICROUS_SPEED : Nat := 0x006F

def BLDC_OL_TM_MANUAL_HI_LIM : Nat := LUDICROUS_SPEED

def BLDC_ONE_RAMP_UNIT : Nat := 2

/-- The local constant `FAULT_BUCKET_INI` of `BLDC_Update`. -/
def FAULT_BUCKET_INI : Int := 128

/-- The local constant `RAMP_TIME` of `BLDC_Update`. -/
def RAMP_TIME : Nat := 1

/-- The local constant `N_CSTEPS` of `BLDC_Step`. -/
def N_CSTEPS : Nat := 6

/-- The table that defines the trapezoidal waveform in six steps. -/
def Commutation_Steps : List BLDC_COMM_STEP_t :=
  [ ⟨DC_OUTP_HI, DC_OUTP_LO, DC_OUTP_FLOAT_F⟩,
    ⟨DC_OUTP_HI, DC_OUTP_FLOAT_R, DC_OUTP_LO⟩,
    ⟨DC_OUTP_FLOAT_F, DC_OUTP_HI, DC_OUTP_LO⟩,
    ⟨DC_OUTP_LO, DC_OUTP_HI, DC_OUTP_FLOAT_R⟩,
    ⟨DC_OUTP_LO, DC_OUTP_FLOAT_F, DC_OUTP_HI⟩,
    ⟨DC_OUTP_FLOAT_R, DC_OUTP_LO, DC_OUTP_HI⟩ ]

/-- The read `Commutation_Steps[i]`.  The table has six entries; an index
outside it (which the C code never produces) reads as three `DC_NONE`. -/
def Commutation_Steps_at (i : Nat) : BLDC_COMM_STEP_t :=
  Commutation_Steps.getD i ⟨DC_NONE, DC_NONE, DC_NONE⟩

/-- The data of the disabled (`#if 0`) branch of `OL_Timing`, kept in
`driver.c` as the old table; indexed by PWM duty-cycle counts. -/
def OL_Timing_old : List Nat :=
  [ 0x0000, 0x0000, 0x0000, 0x0000, 0x0000, 0x0000, 0x0000, 0x0000, 0x0000,
    0x0CC0, 0x0BC0, 0x09E0, 0x0900, 0x0880, 0x0800, 0x0780, 0x0700, 0x0670,
    0x0640, 0x05E1, 0x0560, 0x04F0, 0x04C0, 0x0490, 0x0460, 0x0430, 0x03F0,
    0x03E0, 0x03D0, 0x03C0, 0x03AC, 0x038B, 0x036B, 0x0350, 0x0333, 0x031C,
    0x0302, 0x02F8, 0x02E0, 0x02C9, 0x02B7, 0x02b0, 0x029B, 0x0288, 0x0279,
    0x0271, 0x0260, 0x0253, 0x0245, 0x023A, 0x022F, 0x0225, 0x021A, 0x0210,
    0x0205, 0x01FC, 0x01F6, 0x01EA, 0x01E2, 0x01DA, 0x01D7, 0x01D2, 0x01C4,
    0x01BF, 0x01BA, 0x01B5, 0x01A8, 0x01A2, 0x019C, 0x0197, 0x0191, 0x018C,
    0x0187, 0x0181, 0x017C, 0x0179, 0x0178, 0x0177, 0x0176, 0x0175, 0x0174,
    0x0173, 0x0172, 0x0171, 0x0170 ]

/-! ## Machine arithmetic -/

/-- The value of a 16-bit pattern read as the 16-bit `int` of the target. -/
def toInt16 (n : Nat) : Int :=
  if n % 65536 < 32768 then ((n % 65536 : Nat) : Int) else ((n % 65536 : Nat) : Int) - 65536

/-- The 16-bit pattern of an integer (conversion to `uint16_t`). -/
def toU16 (i : Int) : Nat := (i % 65536).toNat

/-- The element `OL_Timing[i]` of a `uint16_t` table. -/
def OL_Timing_at (OL_Timing : List Nat) (i : Nat) : Nat :=
  OL_Timing.getD i 0 % 65536

/-- The macro `OL_TIMING_TBL_SIZE`. -/
def OL_TIMING_TBL_SIZE (OL_Timing : List Nat) : Nat := OL_Timing.length

/-- The macro `GET_BACK_EMF_ADC()`, `_ADC_Global - DC_HALF_REF` in unsigned
16-bit arithmetic. -/
def GET_BACK_EMF_ADC (d : Driver) : Nat :=
  (d._ADC_Global + 65536 - DC_HALF_REF) % 65536

/-- The macro `GET_ADC()`. -/
def GET_ADC (d : Driver) : Nat := d._ADC_Global

/-- Record one call into a hardware collaborator. -/
def emit (op : HwOp) (d : Driver) : Driver :=
  { d with hw := d.hw ++ [op] }

/-- The state at power-up: every static is zero, no call has been made. -/
def power_up : Driver :=
  { _ADC_Global := 0
    Back_EMF_15304560 := ⟨0, 0, 0, 0⟩
    Back_EMF_Falling_4 := ⟨0, 0, 0, 0⟩
    Back_EMF_Falling_Int_PhX := 0
    BLDC_OL_comm_tm := 0
    global_uDC := 0
    Vsystem := 0
    Vbatt := 0
    BLDC_State := BLDC_OFF
    Manual_Mode := 0
    Ramp_Step_Tm := 0
    Table_value := 0
    vsys_fault_bucket := 0
    fault_arming_time := 0
    prev_bldc_step := 0
    bldc_step_modul := 0
    comm_step := 0
    Log_Level := 0
    hw := [] }

/-! ## Duty-cycle helpers -/

def set_dutycycle (global_dutycycle : Nat) (d : Driver) : Driver :=
  { d with global_uDC := global_dutycycle % 65536 }

def inc_dutycycle (d : Driver) : Driver :=
  if d.global_uDC < 0xFFFE then { d with global_uDC := (d.global_uDC + 1) % 65536 } else d

def dec_dutycycle (d : Driver) : Driver :=
  if d.global_uDC > 0 then { d with global_uDC := (d.global_uDC + 65536 - 1) % 65536 } else d

/-- The ADC interrupt handler `bemf_samp_get`: latch the conversion result
`sample` delivered by the ADC. -/
def bemf_samp_get (sample : Nat) (d : Driver) : Driver :=
  { d with _ADC_Global := sample % 65536 }

/-! ## Phase switching -/

/-- The calls `comm_switch` makes, in program order, when it leaves a sector
whose phase states are `prev` for one whose phase states are `next`, the duty
cycle being `uDC`. -/
def comm_switch_ops (prev next : BLDC_COMM_STEP_t) (uDC : Nat) : List HwOp :=
  -- grab the phases states of previous sector
  let prev_A := prev.phA
  let prev_B := prev.phB
  let prev_C := prev.phC
  let state0 := next.phA
  let state1 := next.phB
  let state2 := next.phC
  -- disable PWM of the previous driving phase
  (if DC_OUTP_HI = prev_A ∧ (DC_OUTP_FLOAT_R = state0 ∨ DC_OUTP_FLOAT_F = state0)
    then [HwOp.PWM_PhA_Disable] else [])
  ++ (if DC_OUTP_HI = prev_B ∧ (DC_OUTP_FLOAT_R = state1 ∨ DC_OUTP_FLOAT_F = state1)
    then [HwOp.PWM_PhB_Disable] else [])
  ++ (if DC_OUTP_HI = prev_C ∧ (DC_OUTP_FLOAT_R = state2 ∨ DC_OUTP_FLOAT_F = state2)
    then [HwOp.PWM_PhC_Disable] else [])
  -- deassert /SD of the phase that floats
  ++ (if DC_OUTP_FLOAT_R = state0 ∨ DC_OUTP_FLOAT_F = state0 then [HwOp.PWM_PhA_HB_DISABLE]
    else if DC_OUTP_FLOAT_R = state1 ∨ DC_OUTP_FLOAT_F = state1 then [HwOp.PWM_PhB_HB_DISABLE]
    else if DC_OUTP_FLOAT_R = state2 ∨ DC_OUTP_FLOAT_F = state2 then [HwOp.PWM_PhC_HB_DISABLE]
    else [])
  -- the non-PWMd phase: output low, IR2104 enabled
  ++ (if DC_OUTP_LO = state0 then [HwOp.PWM_PhA_OUTP_LO, HwOp.PWM_PhA_HB_ENABLE]
    else if DC_OUTP_LO = state1 then [HwOp.PWM_PhB_OUTP_LO, HwOp.PWM_PhB_HB_ENABLE]
    else if DC_OUTP_LO = state2 then [HwOp.PWM_PhC_OUTP_LO, HwOp.PWM_PhC_HB_ENABLE]
    else [])
  -- reconfig and re-enable PWM of the driving channels
  ++ (if DC_OUTP_HI = state0 then [HwOp.PWM_PhA_Enable uDC, HwOp.PWM_PhA_HB_ENABLE] else [])
  ++ (if DC_OUTP_HI = state1 then [HwOp.PWM_PhB_Enable uDC, HwOp.PWM_PhB_HB_ENABLE] else [])
  ++ (if DC_OUTP_HI = state2
    then [HwOp.PWM_PhC_Enable uDC, HwOp.GPIOG_ODR_set 1, HwOp.PWM_PhC_HB_ENABLE] else [])

/-- The routine `comm_switch`: move the outputs from the remembered previous
sector to sector `bldc_step`.  Its only writes are the function static
`prev_bldc_step` and the hardware calls of `comm_switch_ops`. -/
def comm_switch (bldc_step : Nat) (d : Driver) : Driver :=
  { d with
    prev_bldc_step := bldc_step
    hw := d.hw ++ comm_switch_ops (Commutation_Steps_at d.prev_bldc_step)
      (Commutation_Steps_at bldc_step) d.global_uDC }

/-! ## Control surface -/

def BLDC_Stop (d : Driver) : Driver :=
  -- kill the driver signals
  let d := emit HwOp.PWM_PhA_HB_DISABLE (emit HwOp.PWM_PhA_Disable d)
  let d := emit HwOp.PWM_PhB_HB_DISABLE (emit HwOp.PWM_PhB_Disable d)
  let d := emit HwOp.PWM_PhC_HB_DISABLE (emit HwOp.PWM_PhC_Disable d)
  let d :=
    if BLDC_OFF ≠ d.BLDC_State then
      let d := { d with Log_Level := 0 }
      let d := emit (HwOp.uart_print UartMsg.STOP) d
      { d with Back_EMF_Falling_4 := d.Back_EMF_15304560 }
    else d
  let d := { d with BLDC_State := BLDC_OFF }
  set_dutycycle PWM_0PCNT d

/-- The command `BLDC_PWMDC_Plus`: the new state and the returned value. -/
def BLDC_PWMDC_Plus (d : Driver) : Driver × Nat :=
  if BLDC_OFF = d.BLDC_State then
    let d := emit (HwOp.uart_print UartMsg.OFF_RAMP_MINUS) d
    ({ d with BLDC_State := BLDC_RAMPUP }, 0)
  else
    let d := if BLDC_ON = d.BLDC_State then inc_dutycycle d else d
    (d, d.global_uDC)

/-- The command `BLDC_PWMDC_Minus`: the new state and the returned value. -/
def BLDC_PWMDC_Minus (d : Driver) : Driver × Nat :=
  if BLDC_OFF = d.BLDC_State then
    let d := emit (HwOp.uart_print UartMsg.OFF_RAMP_MINUS) d
    ({ d with BLDC_State := BLDC_RAMPUP }, 0)
  else
    let d := if BLDC_ON = d.BLDC_State then dec_dutycycle d else d
    (d, d.global_uDC)

/-- The command `BLDC_PWMDC_Set(dc)`, `dc` a `uint16_t`. -/
def BLDC_PWMDC_Set (dc : Nat) (d : Driver) : Driver :=
  let d := if dc < 0x10 then BLDC_Stop d else d
  -- if presently OFF, then capture the commanded throttle value
  let d :=
    if BLDC_OFF = d.BLDC_State then
      if dc > 10 then
        emit (HwOp.uart_print UartMsg.THR_OFF_RAMP) { d with BLDC_State := BLDC_RAMPUP }
      else d
    else d
  if BLDC_ON = d.BLDC_State then
    if dc > 0x1d then
      if d.global_uDC < dc then inc_dutycycle d
      else if d.global_uDC > dc then dec_dutycycle d
      else d
    else d
  else d

def BLDC_Spd_dec (d : Driver) : Driver :=
  let d :=
    if BLDC_OFF = d.BLDC_State then
      emit (HwOp.uart_print UartMsg.OFF_RAMP_MINUS) { d with BLDC_State := BLDC_RAMPUP }
    else d
  let d :=
    if BLDC_ON = d.BLDC_State ∧ d.BLDC_OL_comm_tm < 0xFFFF then
      { d with Manual_Mode := 1, BLDC_OL_comm_tm := (d.BLDC_OL_comm_tm + 1) % 65536 }
    else d
  { d with Log_Level := 255 }

def BLDC_Spd_inc (d : Driver) : Driver :=
  let d := { d with Log_Level := 1 }
  let d :=
    if BLDC_OFF = d.BLDC_State then
      let d := { d with BLDC_State := BLDC_RAMPUP }
      let d := emit (HwOp.uart_print UartMsg.OFF_RAMP_PLUS) d
      { d with Log_Level := 0xFF }
    else d
  if BLDC_ON = d.BLDC_State ∧ d.BLDC_OL_comm_tm > BLDC_OL_TM_MANUAL_HI_LIM then
    { d with Manual_Mode := 1, BLDC_OL_comm_tm := (d.BLDC_OL_comm_tm + 65536 - 1) % 65536 }
  else d

/-! ## The commutation state machine -/

/-- The leaky-bucket step of the `BLDC_ON` case: decrement (floor 0) when the
system voltage has sagged, refill (ceiling `FAULT_BUCKET_INI`) otherwise. -/
def fault_bucket_step (d : Driver) : Driver :=
  if d.Vsystem < V_SHUTDOWN_THR then
    if d.vsys_fault_bucket > 0 then { d with vsys_fault_bucket := d.vsys_fault_bucket - 1 }
    else d
  else
    if d.vsys_fault_bucket < FAULT_BUCKET_INI then
      { d with vsys_fault_bucket := d.vsys_fault_bucket + 1 }
    else d

/-- The first half of the `BLDC_ON` case: the moving average of the system
voltage, the leaky bucket, and the fault check that zeroes the duty cycle. -/
def fault_check (d : Driver) : Driver :=
  let d := { d with Vsystem := (d.Vbatt / 2 + d.Vsystem / 2) % 65536 }
  -- check system voltage ... is motor stalled?
  let d := fault_bucket_step d
  -- finally, check if fault is set
  if 0 = d.vsys_fault_bucket then set_dutycycle PWM_0PCNT d else d

/-- The second half of the `BLDC_ON` case: the table-driven timing correction. -/
def timing_correction (OL_Timing : List Nat) (d : Driver) : Driver :=
  if 0 = d.Manual_Mode ∧ d.global_uDC < OL_TIMING_TBL_SIZE OL_Timing then
    let d := { d with Table_value := OL_Timing_at OL_Timing d.global_uDC }
    let error : Int := toInt16 (d.Table_value + 65536 - d.BLDC_OL_comm_tm)
    let step : Int := if error > 0 then 1 else if error < 0 then -1 else 0
    if d.Table_value ≠ 0 then
      { d with BLDC_OL_comm_tm := toU16 ((d.BLDC_OL_comm_tm : Int) + step) }
    else d
  else d

/-- The state machine `BLDC_Update`, called from the update interrupt.
`OL_Timing` is the timing table included from `model.h`. -/
def BLDC_Update (OL_Timing : List Nat) (d : Driver) : Driver :=
  let d :=
    match d.BLDC_State with
    | BLDC_OFF =>
      -- reset commutation timer and ramp-up counters ready for ramp-up
      { d with
        BLDC_OL_comm_tm := BLDC_OL_TM_LO_SPD
        vsys_fault_bucket := FAULT_BUCKET_INI
        fault_arming_time := RAMP_TIME }
    | BLDC_ON => timing_correction OL_Timing (fault_check d)
    | BLDC_RAMPUP =>
      let d := set_dutycycle PWM_DC_RAMPUP d
      if d.BLDC_OL_comm_tm > BLDC_OL_TM_HI_SPD then
        { d with BLDC_OL_comm_tm := (d.BLDC_OL_comm_tm + 65536 - BLDC_ONE_RAMP_UNIT) % 65536 }
      else
        let d := { d with BLDC_State := BLDC_ON }
        let d := { d with Vsystem := d.Vbatt }
        let d := { d with Manual_Mode := 0 }
        let d := set_dutycycle PWM_DC_IDLE d
        { d with Log_Level := 16 }
  -- update the timer for the OL commutation switch time
  emit (HwOp.TIM3_setup d.BLDC_OL_comm_tm) d

/-! ## The back-EMF sampler -/

/-- The qualification made at the fourth tick of a sector on the phase-A state
`prev_A` of the sector being left. -/
def qualify_samples (prev_A : BLDC_PWM_STATE_t) (d : Driver) : Driver :=
  if DC_OUTP_FLOAT_R = prev_A then d
  else if DC_OUTP_FLOAT_F = prev_A then
    let d := { d with Back_EMF_Falling_4 := d.Back_EMF_15304560 }
    -- sum the pre-ZCP and post-ZCP measurements
    { d with
      Back_EMF_Falling_Int_PhX :=
        toInt16 ((d.Back_EMF_Falling_4.s1 + d.Back_EMF_Falling_4.s2) % 65536) }
  else if DC_OUTP_HI = prev_A then
    -- if phase was driven pwm, then use the measurement as vbat
    { d with Vbatt := GET_ADC d }
  else d

/-- The sampler `BLDC_Step`, called from the sub-sector timer interrupt. -/
def BLDC_Step (d : Driver) : Driver :=
  if BLDC_OFF ≠ d.BLDC_State then
    -- grab the state of previous sector (before advancing the 6-step sequence)
    let prev_A := (Commutation_Steps_at d.comm_step).phA
    let index := d.bldc_step_modul % TIM3_RATE_MODULUS
    let d :=
      if index = 0 then
        { d with Back_EMF_15304560 := { d.Back_EMF_15304560 with s0 := GET_BACK_EMF_ADC d } }
      else if index = 1 then
        { d with Back_EMF_15304560 := { d.Back_EMF_15304560 with s1 := GET_BACK_EMF_ADC d } }
      else if index = 2 then
        { d with Back_EMF_15304560 := { d.Back_EMF_15304560 with s2 := GET_BACK_EMF_ADC d } }
      else if index = 3 then
        let d :=
          { d with Back_EMF_15304560 := { d.Back_EMF_15304560 with s3 := GET_BACK_EMF_ADC d } }
        let d := qualify_samples prev_A d
        let d := comm_switch (d.comm_step % 256) d
        { d with comm_step := (d.comm_step + 1) % N_CSTEPS }
      else d
    -- can allow rollover as modulus is power of 2
    { d with bldc_step_modul := (d.bldc_step_modul + 1) % 256 }
  else
    -- motor drive output is not active
    let d := emit (HwOp.GPIOC_ODR_clear 5) d
    let d := emit (HwOp.GPIOC_ODR_clear 7) d
    let d := emit (HwOp.GPIOG_ODR_clear 1) d
    emit HwOp.TIM1_CtrlPWMOutputs_DISABLE d

/-! ## Executions -/

/-- The entry points of the driver, as they are invoked by the interrupt
handlers and by the background task. -/
inductive Event
  | Adc (sample : Nat)
  | Step
  | Update
  | Stop
  | PWMDC_Plus
  | PWMDC_Minus
  | PWMDC_Set (dc : Nat)
  | Spd_dec
  | Spd_inc
  deriving DecidableEq, Repr

/-- The effect of one entry point on the driver's variables. -/
def Event.apply (OL_Timing : List Nat) (e : Event) (d : Driver) : Driver :=
  match e with
  | Event.Adc sample => bemf_samp_get sample d
  | Event.Step => BLDC_Step d
  | Event.Update => BLDC_Update OL_Timing d
  | Event.Stop => BLDC_Stop d
  | Event.PWMDC_Plus => (BLDC_PWMDC_Plus d).1
  | Event.PWMDC_Minus => (BLDC_PWMDC_Minus d).1
  | Event.PWMDC_Set dc => BLDC_PWMDC_Set (dc % 65536) d
  | Event.Spd_dec => BLDC_Spd_dec d
  | Event.Spd_inc => BLDC_Spd_inc d

/-- Run a sequence of entry points, first to last. -/
def run (OL_Timing : List Nat) (es : List Event) (d : Driver) : Driver :=
  es.foldl (fun acc e => Event.apply OL_Timing e acc) d

/-- One sub-sector tick per element of `samples`: the ADC interrupt latches
the sample, then the timer interrupt runs `BLDC_Step`. -/
def BLDC_Step_ticks (samples : List Nat) (d : Driver) : Driver :=
  samples.foldl (fun acc a => BLDC_Step (bemf_samp_get a acc)) d

/-- One state-machine update per element of `vbatts`: the sampler has left
the battery-voltage estimate `Vbatt` at that value when `BLDC_Update` runs. -/
def BLDC_Update_run (OL_Timing : List Nat) (vbatts : List Nat) (d : Driver) : Driver :=
  vbatts.foldl (fun acc v => BLDC_Update OL_Timing { acc with Vbatt := v % 65536 }) d

/-! ## Vocabulary of the properties -/

/-- The three phase states of a commutation step. -/
def phases (c : BLDC_COMM_STEP_t) : List BLDC_PWM_STATE_t := [c.phA, c.phB, c.phC]

/-- A phase state is floating when it is the rising or the falling float. -/
def is_floating (p : BLDC_PWM_STATE_t) : Bool :=
  p = DC_OUTP_FLOAT_R || p = DC_OUTP_FLOAT_F

/-- A running driver (state On) with the given period, duty cycle, fault
bucket and voltages; every other variable as at power-up. -/
def on_state (comm_tm uDC : Nat) (bucket : Int) (vbatt vsystem : Nat) : Driver :=
  { power_up with
    BLDC_State := BLDC_ON
    BLDC_OL_comm_tm := comm_tm
    global_uDC := uDC
    vsys_fault_bucket := bucket
    Vbatt := vbatt
    Vsystem := vsystem }

/-- A driver in the ramp (state RampUp) with the given period. -/
def rampup_state (comm_tm : Nat) : Driver :=
  { power_up with BLDC_State := BLDC_RAMPUP, BLDC_OL_comm_tm := comm_tm }

/-- A running driver in the middle of a sector, shortly before the 8-bit tick
counter rolls over. -/
def stepping_state : Driver :=
  { power_up with BLDC_State := BLDC_ON, bldc_step_modul := 254, comm_step := 5 }

/-- The number of updates of the run `BLDC_Update_run OL_Timing vbatts d` that
computed a system voltage below the shutdown threshold. -/
def low_count (OL_Timing : List Nat) : List Nat → Driver → Nat
  | [], _ => 0
  | v :: vs, d =>
    (if (BLDC_Update OL_Timing { d with Vbatt := v % 65536 }).Vsystem < V_SHUTDOWN_THR
      then 1 else 0)
    + low_count OL_Timing vs (BLDC_Update OL_Timing { d with Vbatt := v % 65536 })

/-- The entry points that cannot raise a duty cycle of 0 while the motor is
On: everything but a stop, the duty-plus command and a commanded duty outside
`0x10 .. 0x1d` (below it the command stops the motor, above it the command
tracks the commanded value). -/
def Event.no_duty_raise : Event → Bool
  | Event.Stop => false
  | Event.PWMDC_Plus => false
  | Event.PWMDC_Set dc => decide (0x10 ≤ dc ∧ dc ≤ 0x1d)
  | _ => true

/-- A running driver right after the update in which the fault bucket
reached 0: the duty cycle has just been forced to 0. -/
def faulted_state : Driver :=
  BLDC_Update OL_Timing_old (on_state 0x3AC 30 1 0x3FF 0x100)

/-- The hardware call is a re-arm of the sub-sector timer. -/
def is_timer_rearm : HwOp → Bool
  | HwOp.TIM3_setup _ => true
  | _ => false

/-- The step of the switching sequence a hardware call of `comm_switch`
belongs to, the target sector having the phase states `next`: 0 for a PWM
channel disable, 1 for the half-bridge deassert of a floating phase, 2 for
the output-low and the half-bridge enable of the driven-low phase, 3 for the
PWM enable (and the half-bridge enable that follows it) of a driven-high
phase. -/
def op_stage (next : BLDC_COMM_STEP_t) : HwOp → Nat
  | HwOp.PWM_PhA_Disable => 0
  | HwOp.PWM_PhB_Disable => 0
  | HwOp.PWM_PhC_Disable => 0
  | HwOp.PWM_PhA_HB_DISABLE => 1
  | HwOp.PWM_PhB_HB_DISABLE => 1
  | HwOp.PWM_PhC_HB_DISABLE => 1
  | HwOp.PWM_PhA_OUTP_LO => 2
  | HwOp.PWM_PhB_OUTP_LO => 2
  | HwOp.PWM_PhC_OUTP_LO => 2
  | HwOp.PWM_PhA_HB_ENABLE => if next.phA = DC_OUTP_LO then 2 else 3
  | HwOp.PWM_PhB_HB_ENABLE => if next.phB = DC_OUTP_LO then 2 else 3
  | HwOp.PWM_PhC_HB_ENABLE => if next.phC = DC_OUTP_LO then 2 else 3
  | _ => 3

/-- A running driver whose switching engine remembers sector `prev`, with
duty cycle `uDC`. -/
def switching_state (prev uDC : Nat) : Driver :=
  { power_up with BLDC_State := BLDC_ON, prev_bldc_step := prev, global_uDC := uDC }

/-- The invariant of the duty cycle over the executions of the driver: it is
0 whenever the motor is Off, and it never exceeds the guard `0xFFFE` of
`inc_dutycycle`. -/
def duty_invariant (d : Driver) : Prop :=
  (d.BLDC_State = BLDC_OFF → d.global_uDC = 0) ∧ d.global_uDC ≤ 0xFFFE

/-- The entry points that take the driver from power-up into state On and
then raise the duty cycle: an Off update, the start command, 1569 updates of
the ramp, and `n` duty-plus commands. -/
def start_then_plus (n : Nat) : List Event :=
  [Event.Update, Event.Spd_inc] ++ List.replicate 1569 Event.Update
    ++ List.replicate n Event.PWMDC_Plus

/-- The three motor phases. -/
inductive Phase
  | A
  | B
  | C
  deriving DecidableEq, Repr

/-- The state of phase `X` in a commutation step. -/
def phase_state (c : BLDC_COMM_STEP_t) : Phase → BLDC_PWM_STATE_t
  | Phase.A => c.phA
  | Phase.B => c.phB
  | Phase.C => c.phC

/-- The kinds of calls `comm_switch` makes on a phase. -/
inductive OpKind
  | pwm_disable
  | hb_deassert
  | outp_lo
  | hb_enable
  | pwm_enable
  deriving DecidableEq, Repr

/-- The kind and the phase of a hardware call on a phase (the duty cycle of a
PWM enable is left out); `none` for the other calls. -/
def op_kind : HwOp → Option (OpKind × Phase)
  | HwOp.PWM_PhA_Disable => some (OpKind.pwm_disable, Phase.A)
  | HwOp.PWM_PhB_Disable => some (OpKind.pwm_disable, Phase.B)
  | HwOp.PWM_PhC_Disable => some (OpKind.pwm_disable, Phase.C)
  | HwOp.PWM_PhA_HB_DISABLE => some (OpKind.hb_deassert, Phase.A)
  | HwOp.PWM_PhB_HB_DISABLE => some (OpKind.hb_deassert, Phase.B)
  | HwOp.PWM_PhC_HB_DISABLE => some (OpKind.hb_deassert, Phase.C)
  | HwOp.PWM_PhA_OUTP_LO => some (OpKind.outp_lo, Phase.A)
  | HwOp.PWM_PhB_OUTP_LO => some (OpKind.outp_lo, Phase.B)
  | HwOp.PWM_PhC_OUTP_LO => some (OpKind.outp_lo, Phase.C)
  | HwOp.PWM_PhA_HB_ENABLE => some (OpKind.hb_enable, Phase.A)
  | HwOp.PWM_PhB_HB_ENABLE => some (OpKind.hb_enable, Phase.B)
  | HwOp.PWM_PhC_HB_ENABLE => some (OpKind.hb_enable, Phase.C)
  | HwOp.PWM_PhA_Enable _ => some (OpKind.pwm_enable, Phase.A)
  | HwOp.PWM_PhB_Enable _ => some (OpKind.pwm_enable, Phase.B)
  | HwOp.PWM_PhC_Enable _ => some (OpKind.pwm_enable, Phase.C)
  | _ => none

/-- How many calls of kind `k` on phase `X` a list of hardware calls holds. -/
def op_count (k : OpKind) (X : Phase) (ops : List HwOp) : Nat :=
  (ops.map op_kind).count (some (k, X))

/-- How many calls of kind `k`, on any phase, a list of hardware calls holds. -/
def kind_count (k : OpKind) (ops : List HwOp) : Nat :=
  op_count k Phase.A ops + op_count k Phase.B ops + op_count k Phase.C ops

/-- A PWM enable carries the duty cycle `u`; true of every other call. -/
def op_duty_ok (u : Nat) : HwOp → Bool
  | HwOp.PWM_PhA_Enable dc => dc == u
  | HwOp.PWM_PhB_Enable dc => dc == u
  | HwOp.PWM_PhC_Enable dc => dc == u
  | _ => true

/-- The hardware calls made between the state `before` and the state `after`
of one operation. -/
def emitted (before after : Driver) : List HwOp :=
  after.hw.drop before.hw.length

/-- A running driver at the last tick of a sector: the switching engine has
left the outputs in sector 1, the sampler's sector variable is 2, the tick
counter is at index 3, the ADC holds 600 and the working buffer the three
samples of the sector. -/
def last_tick_state : Driver :=
  { power_up with
    BLDC_State := BLDC_ON
    prev_bldc_step := 1
    comm_step := 2
    bldc_step_modul := 3
    _ADC_Global := 600
    Back_EMF_15304560 := ⟨91, 92, 93, 0⟩ }


/-- A driver in the ramp with the duty cycle of the ramp, the manual-mode
flag set and a part-filled fault bucket. -/
def ramping_state : Driver :=
  { power_up with
    BLDC_State := BLDC_RAMPUP
    BLDC_OL_comm_tm := 0x0800
    global_uDC := 35
    Manual_Mode := 1
    vsys_fault_bucket := 100 }

/-- A running driver at the first tick of a sector, with `comm_step` at 2
(phase A floating-falling in the table). -/
def falling_sector_state : Driver :=
  { power_up with BLDC_State := BLDC_ON, prev_bldc_step := 1, comm_step := 2 }

/-- The fault detector does not trip in the run `BLDC_Update_run OL_Timing
vbatts d`: after each of its updates the fault bucket is not 0. -/
def not_tripping (OL_Timing : List Nat) : List Nat → Driver → Bool
  | [], _ => true
  | v :: vs, d =>
    decide ((BLDC_Update OL_Timing { d with Vbatt := v % 65536 }).vsys_fault_bucket ≠ 0)
      && not_tripping OL_Timing vs (BLDC_Update OL_Timing { d with Vbatt := v % 65536 })

/-- The relation between the sampler's sector and the sector the switching
engine remembers: both 0, as at power-up until the first switch, or the sector
is the cyclic successor of the remembered one. -/
def sector_invariant (d : Driver) : Prop :=
  (d.comm_step = 0 ∧ d.prev_bldc_step = 0) ∨
    (d.prev_bldc_step < 6 ∧ d.comm_step = (d.prev_bldc_step + 1) % 6)

/-! ## The table accesses, with their bounds checked

The functions that index a table, written again with every access checked:
`none` is an access outside the table.  `comm_switch` reads
`Commutation_Steps` at the remembered sector and at its argument, `BLDC_Step`
at the sampler's sector, and the `BLDC_ON` case of `BLDC_Update` reads the
timing table at the duty cycle. -/

/-- The routine `comm_switch` with both reads of `Commutation_Steps` checked. -/
def comm_switch_checked (bldc_step : Nat) (d : Driver) : Option Driver :=
  match Commutation_Steps[d.prev_bldc_step]?, Commutation_Steps[bldc_step]? with
  | some prev, some next =>
    some { d with
      prev_bldc_step := bldc_step
      hw := d.hw ++ comm_switch_ops prev next d.global_uDC }
  | _, _ => none

/-- The timing correction of the `BLDC_ON` case with the read of the timing
table checked. -/
def timing_correction_checked (OL_Timing : List Nat) (d : Driver) : Option Driver :=
  if 0 = d.Manual_Mode ∧ d.global_uDC < OL_TIMING_TBL_SIZE OL_Timing then
    match OL_Timing[d.global_uDC]? with
    | some entry =>
      let d := { d with Table_value := entry % 65536 }
      let error : Int := toInt16 (d.Table_value + 65536 - d.BLDC_OL_comm_tm)
      let step : Int := if error > 0 then 1 else if error < 0 then -1 else 0
      if d.Table_value ≠ 0 then
        some { d with BLDC_OL_comm_tm := toU16 ((d.BLDC_OL_comm_tm : Int) + step) }
      else some d
    | none => none
  else some d

/-- The state machine `BLDC_Update` with the read of the timing table
checked; the cases `BLDC_OFF` and `BLDC_RAMPUP` read no table. -/
def BLDC_Update_checked (OL_Timing : List Nat) (d : Driver) : Option Driver :=
  match d.BLDC_State with
  | BLDC_ON =>
    match timing_correction_checked OL_Timing (fault_check d) with
    | some d => some (emit (HwOp.TIM3_setup d.BLDC_OL_comm_tm) d)
    | none => none
  | _ => some (BLDC_Update OL_Timing d)

/-- The sampler `BLDC_Step` with the read of `Commutation_Steps` and the call
of `comm_switch` checked; the branch for state Off reads no table. -/
def BLDC_Step_checked (d : Driver) : Option Driver :=
  if BLDC_OFF ≠ d.BLDC_State then
    match Commutation_Steps[d.comm_step]? with
    | some sector =>
      let prev_A := sector.phA
      let index := d.bldc_step_modul % TIM3_RATE_MODULUS
      let r : Option Driver :=
        if index = 0 then
          some { d with
            Back_EMF_15304560 := { d.Back_EMF_15304560 with s0 := GET_BACK_EMF_ADC d } }
        else if index = 1 then
          some { d with
            Back_EMF_15304560 := { d.Back_EMF_15304560 with s1 := GET_BACK_EMF_ADC d } }
        else if index = 2 then
          some { d with
            Back_EMF_15304560 := { d.Back_EMF_15304560 with s2 := GET_BACK_EMF_ADC d } }
        else if index = 3 then
          let d :=
            { d with Back_EMF_15304560 := { d.Back_EMF_15304560 with s3 := GET_BACK_EMF_ADC d } }
          let d := qualify_samples prev_A d
          match comm_switch_checked (d.comm_step % 256) d with
          | some d => some { d with comm_step := (d.comm_step + 1) % N_CSTEPS }
          | none => none
        else some d
      match r with
      | some d => some { d with bldc_step_modul := (d.bldc_step_modul + 1) % 256 }
      | none => none
    | none => none
  else some (BLDC_Step d)

/-- Modelled from the spec: the timing table `OL_Timing` is included from
`model.h`, which is not among the sources.  The comment above the table in
`driver.c` gives its index range and its curve: "Indexed by PWM duty cycle
counts (i.e. 0-250)", `y = ( 4000 * EXP( -t/25 ) ) + 150`.  This is that
table: 251 entries, entry `t` being the value of the curve at `t` truncated
to an integer; the entry at index 0 is `4000 + 150 = 4150` exactly. -/
def OL_Timing_model : List Nat :=
  [ 4150, 3993, 3842, 3697, 3558, 3424, 3296, 3173, 3054, 2940, 2831, 2726,
    2625, 2528, 2434, 2345, 2259, 2176, 2097, 2020, 1947, 1876, 1809, 1744,
    1681, 1621, 1563, 1508, 1455, 1403, 1354, 1307, 1262, 1218, 1176, 1136,
    1097, 1060, 1024, 990, 957, 925, 895, 866, 838, 811, 785, 760,
    736, 713, 691, 670, 649, 630, 611, 593, 575, 559, 543, 527,
    512, 498, 484, 471, 459, 447, 435, 424, 413, 403, 393, 383,
    374, 365, 357, 349, 341, 333, 326, 319, 313, 306, 300, 294,
    288, 283, 278, 273, 268, 263, 259, 255, 250, 246, 243, 239,
    235, 232, 229, 226, 223, 220, 217, 214, 212, 209, 207, 205,
    203, 201, 199, 197, 195, 193, 191, 190, 188, 187, 185, 184,
    182, 181, 180, 179, 178, 176, 175, 174, 173, 172, 172, 171,
    170, 169, 168, 168, 167, 166, 166, 165, 164, 164, 163, 163,
    162, 162, 161, 161, 160, 160, 159, 159, 159, 158, 158, 158,
    157, 157, 157, 156, 156, 156, 156, 155, 155, 155, 155, 155,
    154, 154, 154, 154, 154, 153, 153, 153, 153, 153, 153, 153,
    152, 152, 152, 152, 152, 152, 152, 152, 152, 152, 152, 151,
    151, 151, 151, 151, 151, 151, 151, 151, 151, 151, 151, 151,
    151, 151, 151, 151, 150, 150, 150, 150, 150, 150, 150, 150,
    150, 150, 150, 150, 150, 150, 150, 150, 150, 150, 150, 150,
    150, 150, 150, 150, 150, 150, 150, 150, 150, 150, 150, 150,
    150, 150, 150, 150, 150, 150, 150, 150, 150, 150, 150 ]

/-- The driver after a regular start, with the duty cycle raised to 251 by
the duty-plus command, at the last update before the fault detector trips:
an Off update, the start command, the 1569 updates of the ramp, 221 duty-plus
commands, and 127 updates that find the battery-voltage estimate at 0. -/
def tripping_state : Driver :=
  run OL_Timing_model (start_then_plus 221 ++ List.replicate 127 Event.Update) power_up

/-- The driver after a regular start at the idle duty cycle, once 128 updates
have found the battery-voltage estimate at 0: the fault detector has tripped. -/
def tripped_state : Driver :=
  run OL_Timing_old (start_then_plus 0 ++ List.replicate 128 Event.Update) power_up

/-! # Theorems -/

/-! ## Projections of the primitive operations -/

/-- The variables after `emit`: only the trace grows. -/
theorem emit_proj (op : HwOp) (d : Driver) :
    (emit op d)._ADC_Global = d._ADC_Global ∧
    (emit op d).Back_EMF_15304560 = d.Back_EMF_15304560 ∧
    (emit op d).Back_EMF_Falling_4 = d.Back_EMF_Falling_4 ∧
    (emit op d).Back_EMF_Falling_Int_PhX = d.Back_EMF_Falling_Int_PhX ∧
    (emit op d).BLDC_OL_comm_tm = d.BLDC_OL_comm_tm ∧
    (emit op d).global_uDC = d.global_uDC ∧
    (emit op d).Vsystem = d.Vsystem ∧
    (emit op d).Vbatt = d.Vbatt ∧
    (emit op d).BLDC_State = d.BLDC_State ∧
    (emit op d).Manual_Mode = d.Manual_Mode ∧
    (emit op d).Ramp_Step_Tm = d.Ramp_Step_Tm ∧
    (emit op d).Table_value = d.Table_value ∧
    (emit op d).vsys_fault_bucket = d.vsys_fault_bucket ∧
    (emit op d).fault_arming_time = d.fault_arming_time ∧
    (emit op d).prev_bldc_step = d.prev_bldc_step ∧
    (emit op d).bldc_step_modul = d.bldc_step_modul ∧
    (emit op d).comm_step = d.comm_step ∧
    (emit op d).Log_Level = d.Log_Level ∧
    (emit op d).hw = d.hw ++ [op] := by
  exact ⟨rfl, rfl, rfl, rfl, rfl, rfl, rfl, rfl, rfl, rfl, rfl, rfl, rfl, rfl, rfl, rfl, rfl, rfl, rfl⟩

/-- The variables after `set_dutycycle`. -/
theorem set_dutycycle_proj (v : Nat) (d : Driver) :
    (set_dutycycle v d)._ADC_Global = d._ADC_Global ∧
    (set_dutycycle v d).Back_EMF_15304560 = d.Back_EMF_15304560 ∧
    (set_dutycycle v d).Back_EMF_Falling_4 = d.Back_EMF_Falling_4 ∧
    (set_dutycycle v d).Back_EMF_Falling_Int_PhX = d.Back_EMF_Falling_Int_PhX ∧
    (set_dutycycle v d).BLDC_OL_comm_tm = d.BLDC_OL_comm_tm ∧
    (set_dutycycle v d).global_uDC = v % 65536 ∧
    (set_dutycycle v d).Vsystem = d.Vsystem ∧
    (set_dutycycle v d).Vbatt = d.Vbatt ∧
    (set_dutycycle v d).BLDC_State = d.BLDC_State ∧
    (set_dutycycle v d).Manual_Mode = d.Manual_Mode ∧
    (set_dutycycle v d).Ramp_Step_Tm = d.Ramp_Step_Tm ∧
    (set_dutycycle v d).Table_value = d.Table_value ∧
    (set_dutycycle v d).vsys_fault_bucket = d.vsys_fault_bucket ∧
    (set_dutycycle v d).fault_arming_time = d.fault_arming_time ∧
    (set_dutycycle v d).prev_bldc_step = d.prev_bldc_step ∧
    (set_dutycycle v d).bldc_step_modul = d.bldc_step_modul ∧
    (set_dutycycle v d).comm_step = d.comm_step ∧
    (set_dutycycle v d).Log_Level = d.Log_Level ∧
    (set_dutycycle v d).hw = d.hw := by
  exact ⟨rfl, rfl, rfl, rfl, rfl, rfl, rfl, rfl, rfl, rfl, rfl, rfl, rfl, rfl, rfl, rfl, rfl, rfl, rfl⟩

/-- The variables after `bemf_samp_get`. -/
theorem bemf_samp_get_proj (v : Nat) (d : Driver) :
    (bemf_samp_get v d)._ADC_Global = v % 65536 ∧
    (bemf_samp_get v d).Back_EMF_15304560 = d.Back_EMF_15304560 ∧
    (bemf_samp_get v d).Back_EMF_Falling_4 = d.Back_EMF_Falling_4 ∧
    (bemf_samp_get v d).Back_EMF_Falling_Int_PhX = d.Back_EMF_Falling_Int_PhX ∧
    (bemf_samp_get v d).BLDC_OL_comm_tm = d.BLDC_OL_comm_tm ∧
    (bemf_samp_get v d).global_uDC = d.global_uDC ∧
    (bemf_samp_get v d).Vsystem = d.Vsystem ∧
    (bemf_samp_get v d).Vbatt = d.Vbatt ∧
    (bemf_samp_get v d).BLDC_State = d.BLDC_State ∧
    (bemf_samp_get v d).Manual_Mode = d.Manual_Mode ∧
    (bemf_samp_get v d).Ramp_Step_Tm = d.Ramp_Step_Tm ∧
    (bemf_samp_get v d).Table_value = d.Table_value ∧
    (bemf_samp_get v d).vsys_fault_bucket = d.vsys_fault_bucket ∧
    (bemf_samp_get v d).fault_arming_time = d.fault_arming_time ∧
    (bemf_samp_get v d).prev_bldc_step = d.prev_bldc_step ∧
    (bemf_samp_get v d).bldc_step_modul = d.bldc_step_modul ∧
    (bemf_samp_get v d).comm_step = d.comm_step ∧
    (bemf_samp_get v d).Log_Level = d.Log_Level ∧
    (bemf_samp_get v d).hw = d.hw := by
  exact ⟨rfl, rfl, rfl, rfl, rfl, rfl, rfl, rfl, rfl, rfl, rfl, rfl, rfl, rfl, rfl, rfl, rfl, rfl, rfl⟩

/-- The variables after `inc_dutycycle`. -/
theorem inc_dutycycle_proj (d : Driver) :
    (inc_dutycycle d)._ADC_Global = d._ADC_Global ∧
    (inc_dutycycle d).Back_EMF_15304560 = d.Back_EMF_15304560 ∧
    (inc_dutycycle d).Back_EMF_Falling_4 = d.Back_EMF_Falling_4 ∧
    (inc_dutycycle d).Back_EMF_Falling_Int_PhX = d.Back_EMF_Falling_Int_PhX ∧
    (inc_dutycycle d).BLDC_OL_comm_tm = d.BLDC_OL_comm_tm ∧
    (inc_dutycycle d).global_uDC = (if d.global_uDC < 0xFFFE then (d.global_uDC + 1) % 65536 else d.global_uDC) ∧
    (inc_dutycycle d).Vsystem = d.Vsystem ∧
    (inc_dutycycle d).Vbatt = d.Vbatt ∧
    (inc_dutycycle d).BLDC_State = d.BLDC_State ∧
    (inc_dutycycle d).Manual_Mode = d.Manual_Mode ∧
    (inc_dutycycle d).Ramp_Step_Tm = d.Ramp_Step_Tm ∧
    (inc_dutycycle d).Table_value = d.Table_value ∧
    (inc_dutycycle d).vsys_fault_bucket = d.vsys_fault_bucket ∧
    (inc_dutycycle d).fault_arming_time = d.fault_arming_time ∧
    (inc_dutycycle d).prev_bldc_step = d.prev_bldc_step ∧
    (inc_dutycycle d).bldc_step_modul = d.bldc_step_modul ∧
    (inc_dutycycle d).comm_step = d.comm_step ∧
    (inc_dutycycle d).Log_Level = d.Log_Level ∧
    (inc_dutycycle d).hw = d.hw := by
  unfold inc_dutycycle
  split_ifs <;> exact ⟨rfl, rfl, rfl, rfl, rfl, rfl, rfl, rfl, rfl, rfl, rfl, rfl, rfl, rfl, rfl, rfl, rfl, rfl, rfl⟩

/-- The variables after `dec_dutycycle`. -/
theorem dec_dutycycle_proj (d : Driver) :
    (dec_dutycycle d)._ADC_Global = d._ADC_Global ∧
    (dec_dutycycle d).Back_EMF_15304560 = d.Back_EMF_15304560 ∧
    (dec_dutycycle d).Back_EMF_Falling_4 = d.Back_EMF_Falling_4 ∧
    (dec_dutycycle d).Back_EMF_Falling_Int_PhX = d.Back_EMF_Falling_Int_PhX ∧
    (dec_dutycycle d).BLDC_OL_comm_tm = d.BLDC_OL_comm_tm ∧
    (dec_dutycycle d).global_uDC = (if d.global_uDC > 0 then (d.global_uDC + 65536 - 1) % 65536 else d.global_uDC) ∧
    (dec_dutycycle d).Vsystem = d.Vsystem ∧
    (dec_dutycycle d).Vbatt = d.Vbatt ∧
    (dec_dutycycle d).BLDC_State = d.BLDC_State ∧
    (dec_dutycycle d).Manual_Mode = d.Manual_Mode ∧
    (dec_dutycycle d).Ramp_Step_Tm = d.Ramp_Step_Tm ∧
    (dec_dutycycle d).Table_value = d.Table_value ∧
    (dec_dutycycle d).vsys_fault_bucket = d.vsys_fault_bucket ∧
    (dec_dutycycle d).fault_arming_time = d.fault_arming_time ∧
    (dec_dutycycle d).prev_bldc_step = d.prev_bldc_step ∧
    (dec_dutycycle d).bldc_step_modul = d.bldc_step_modul ∧
    (dec_dutycycle d).comm_step = d.comm_step ∧
    (dec_dutycycle d).Log_Level = d.Log_Level ∧
    (dec_dutycycle d).hw = d.hw := by
  unfold dec_dutycycle
  split_ifs <;> exact ⟨rfl, rfl, rfl, rfl, rfl, rfl, rfl, rfl, rfl, rfl, rfl, rfl, rfl, rfl, rfl, rfl, rfl, rfl, rfl⟩

/-- The variables after `comm_switch`: the remembered sector and the trace. -/
theorem comm_switch_proj (b : Nat) (d : Driver) :
    (comm_switch b d)._ADC_Global = d._ADC_Global ∧
    (comm_switch b d).Back_EMF_15304560 = d.Back_EMF_15304560 ∧
    (comm_switch b d).Back_EMF_Falling_4 = d.Back_EMF_Falling_4 ∧
    (comm_switch b d).Back_EMF_Falling_Int_PhX = d.Back_EMF_Falling_Int_PhX ∧
    (comm_switch b d).BLDC_OL_comm_tm = d.BLDC_OL_comm_tm ∧
    (comm_switch b d).global_uDC = d.global_uDC ∧
    (comm_switch b d).Vsystem = d.Vsystem ∧
    (comm_switch b d).Vbatt = d.Vbatt ∧
    (comm_switch b d).BLDC_State = d.BLDC_State ∧
    (comm_switch b d).Manual_Mode = d.Manual_Mode ∧
    (comm_switch b d).Ramp_Step_Tm = d.Ramp_Step_Tm ∧
    (comm_switch b d).Table_value = d.Table_value ∧
    (comm_switch b d).vsys_fault_bucket = d.vsys_fault_bucket ∧
    (comm_switch b d).fault_arming_time = d.fault_arming_time ∧
    (comm_switch b d).prev_bldc_step = b ∧
    (comm_switch b d).bldc_step_modul = d.bldc_step_modul ∧
    (comm_switch b d).comm_step = d.comm_step ∧
    (comm_switch b d).Log_Level = d.Log_Level ∧
    (comm_switch b d).hw = d.hw ++ comm_switch_ops (Commutation_Steps_at d.prev_bldc_step)
      (Commutation_Steps_at b) d.global_uDC := by
  exact ⟨rfl, rfl, rfl, rfl, rfl, rfl, rfl, rfl, rfl, rfl, rfl, rfl, rfl, rfl, rfl, rfl, rfl, rfl, rfl⟩

/-- The variables `qualify_samples` leaves alone. -/
theorem qualify_samples_proj (p : BLDC_PWM_STATE_t) (d : Driver) :
    (qualify_samples p d)._ADC_Global = d._ADC_Global ∧
    (qualify_samples p d).Back_EMF_15304560 = d.Back_EMF_15304560 ∧
    (qualify_samples p d).BLDC_OL_comm_tm = d.BLDC_OL_comm_tm ∧
    (qualify_samples p d).global_uDC = d.global_uDC ∧
    (qualify_samples p d).Vsystem = d.Vsystem ∧
    (qualify_samples p d).BLDC_State = d.BLDC_State ∧
    (qualify_samples p d).Manual_Mode = d.Manual_Mode ∧
    (qualify_samples p d).Ramp_Step_Tm = d.Ramp_Step_Tm ∧
    (qualify_samples p d).Table_value = d.Table_value ∧
    (qualify_samples p d).vsys_fault_bucket = d.vsys_fault_bucket ∧
    (qualify_samples p d).fault_arming_time = d.fault_arming_time ∧
    (qualify_samples p d).prev_bldc_step = d.prev_bldc_step ∧
    (qualify_samples p d).bldc_step_modul = d.bldc_step_modul ∧
    (qualify_samples p d).comm_step = d.comm_step ∧
    (qualify_samples p d).Log_Level = d.Log_Level ∧
    (qualify_samples p d).hw = d.hw := by
  unfold qualify_samples
  split_ifs <;> exact ⟨rfl, rfl, rfl, rfl, rfl, rfl, rfl, rfl, rfl, rfl, rfl, rfl, rfl, rfl, rfl, rfl⟩

/-- The variables `fault_bucket_step` leaves alone. -/
theorem fault_bucket_step_proj (d : Driver) :
    (fault_bucket_step d)._ADC_Global = d._ADC_Global ∧
    (fault_bucket_step d).Back_EMF_15304560 = d.Back_EMF_15304560 ∧
    (fault_bucket_step d).Back_EMF_Falling_4 = d.Back_EMF_Falling_4 ∧
    (fault_bucket_step d).Back_EMF_Falling_Int_PhX = d.Back_EMF_Falling_Int_PhX ∧
    (fault_bucket_step d).BLDC_OL_comm_tm = d.BLDC_OL_comm_tm ∧
    (fault_bucket_step d).global_uDC = d.global_uDC ∧
    (fault_bucket_step d).Vsystem = d.Vsystem ∧
    (fault_bucket_step d).Vbatt = d.Vbatt ∧
    (fault_bucket_step d).BLDC_State = d.BLDC_State ∧
    (fault_bucket_step d).Manual_Mode = d.Manual_Mode ∧
    (fault_bucket_step d).Ramp_Step_Tm = d.Ramp_Step_Tm ∧
    (fault_bucket_step d).Table_value = d.Table_value ∧
    (fault_bucket_step d).fault_arming_time = d.fault_arming_time ∧
    (fault_bucket_step d).prev_bldc_step = d.prev_bldc_step ∧
    (fault_bucket_step d).bldc_step_modul = d.bldc_step_modul ∧
    (fault_bucket_step d).comm_step = d.comm_step ∧
    (fault_bucket_step d).Log_Level = d.Log_Level ∧
    (fault_bucket_step d).hw = d.hw := by
  unfold fault_bucket_step
  split_ifs <;> exact ⟨rfl, rfl, rfl, rfl, rfl, rfl, rfl, rfl, rfl, rfl, rfl, rfl, rfl, rfl, rfl, rfl, rfl, rfl⟩

/-- The variables `timing_correction` leaves alone. -/
theorem timing_correction_proj (T : List Nat) (d : Driver) :
    (timing_correction T d)._ADC_Global = d._ADC_Global ∧
    (timing_correction T d).Back_EMF_15304560 = d.Back_EMF_15304560 ∧
    (timing_correction T d).Back_EMF_Falling_4 = d.Back_EMF_Falling_4 ∧
    (timing_correction T d).Back_EMF_Falling_Int_PhX = d.Back_EMF_Falling_Int_PhX ∧
    (timing_correction T d).global_uDC = d.global_uDC ∧
    (timing_correction T d).Vsystem = d.Vsystem ∧
    (timing_correction T d).Vbatt = d.Vbatt ∧
    (timing_correction T d).BLDC_State = d.BLDC_State ∧
    (timing_correction T d).Manual_Mode = d.Manual_Mode ∧
    (timing_correction T d).Ramp_Step_Tm = d.Ramp_Step_Tm ∧
    (timing_correction T d).vsys_fault_bucket = d.vsys_fault_bucket ∧
    (timing_correction T d).fault_arming_time = d.fault_arming_time ∧
    (timing_correction T d).prev_bldc_step = d.prev_bldc_step ∧
    (timing_correction T d).bldc_step_modul = d.bldc_step_modul ∧
    (timing_correction T d).comm_step = d.comm_step ∧
    (timing_correction T d).Log_Level = d.Log_Level ∧
    (timing_correction T d).hw = d.hw := by
  unfold timing_correction
  simp only
  split_ifs <;> exact ⟨rfl, rfl, rfl, rfl, rfl, rfl, rfl, rfl, rfl, rfl, rfl, rfl, rfl, rfl, rfl, rfl, rfl⟩

/-- The variables `fault_check` leaves alone. -/
theorem fault_check_proj (d : Driver) :
    (fault_check d)._ADC_Global = d._ADC_Global ∧
    (fault_check d).Back_EMF_15304560 = d.Back_EMF_15304560 ∧
    (fault_check d).Back_EMF_Falling_4 = d.Back_EMF_Falling_4 ∧
    (fault_check d).Back_EMF_Falling_Int_PhX = d.Back_EMF_Falling_Int_PhX ∧
    (fault_check d).BLDC_OL_comm_tm = d.BLDC_OL_comm_tm ∧
    (fault_check d).Vbatt = d.Vbatt ∧
    (fault_check d).BLDC_State = d.BLDC_State ∧
    (fault_check d).Manual_Mode = d.Manual_Mode ∧
    (fault_check d).Ramp_Step_Tm = d.Ramp_Step_Tm ∧
    (fault_check d).Table_value = d.Table_value ∧
    (fault_check d).fault_arming_time = d.fault_arming_time ∧
    (fault_check d).prev_bldc_step = d.prev_bldc_step ∧
    (fault_check d).bldc_step_modul = d.bldc_step_modul ∧
    (fault_check d).comm_step = d.comm_step ∧
    (fault_check d).Log_Level = d.Log_Level ∧
    (fault_check d).hw = d.hw := by
  unfold fault_check
  simp only [set_dutycycle_proj, fault_bucket_step_proj, apply_ite Driver._ADC_Global, apply_ite Driver.Back_EMF_15304560, apply_ite Driver.Back_EMF_Falling_4, apply_ite Driver.Back_EMF_Falling_Int_PhX, apply_ite Driver.BLDC_OL_comm_tm, apply_ite Driver.global_uDC, apply_ite Driver.Vsystem, apply_ite Driver.Vbatt, apply_ite Driver.BLDC_State, apply_ite Driver.Manual_Mode, apply_ite Driver.Ramp_Step_Tm, apply_ite Driver.Table_value, apply_ite Driver.vsys_fault_bucket, apply_ite Driver.fault_arming_time, apply_ite Driver.prev_bldc_step, apply_ite Driver.bldc_step_modul, apply_ite Driver.comm_step, apply_ite Driver.Log_Level, apply_ite Driver.hw,
    ite_self, and_self]

/-! ## The sampler: run state, tick counter and sector -/

/-- One call of `BLDC_Step` never writes the run state, the duty cycle, the
commutation period, the manual-mode flag or the fault bucket. -/
theorem BLDC_Step_keeps (d : Driver) :
    (BLDC_Step d).BLDC_State = d.BLDC_State ∧
    (BLDC_Step d).global_uDC = d.global_uDC ∧
    (BLDC_Step d).BLDC_OL_comm_tm = d.BLDC_OL_comm_tm ∧
    (BLDC_Step d).Manual_Mode = d.Manual_Mode ∧
    (BLDC_Step d).vsys_fault_bucket = d.vsys_fault_bucket := by
  unfold BLDC_Step
  simp only [emit_proj, comm_switch_proj, qualify_samples_proj,
    apply_ite Driver.BLDC_State, apply_ite Driver.global_uDC, apply_ite Driver.BLDC_OL_comm_tm,
    apply_ite Driver.Manual_Mode, apply_ite Driver.vsys_fault_bucket, ite_self, and_self]

/-- One call of `BLDC_Step` while the motor is not Off: the tick counter is
incremented modulo 256 and the sector advances exactly on tick index 3. -/
theorem BLDC_Step_on (d : Driver) (h : d.BLDC_State ≠ BLDC_OFF) :
    (BLDC_Step d).bldc_step_modul = (d.bldc_step_modul + 1) % 256 ∧
    (BLDC_Step d).comm_step =
      if d.bldc_step_modul % 4 = 3 then (d.comm_step + 1) % 6 else d.comm_step := by
  have h' : BLDC_OFF ≠ d.BLDC_State := fun e => h e.symm
  have hlt : d.bldc_step_modul % 4 < 4 := Nat.mod_lt _ (by decide)
  unfold BLDC_Step
  simp only [h', ne_eq, not_false_eq_true, if_true, TIM3_RATE_MODULUS, N_CSTEPS,
    comm_switch_proj, qualify_samples_proj,
    apply_ite Driver.bldc_step_modul, apply_ite Driver.comm_step, ite_self, true_and]
  split_ifs <;> first | rfl | omega

/-- A run of sub-sector ticks while the motor is not Off: the sector has
advanced once for every tick of index 3 in the run. -/
theorem BLDC_Step_ticks_on (samples : List Nat) (d : Driver) (h : d.BLDC_State ≠ BLDC_OFF) :
    (BLDC_Step_ticks samples d).BLDC_State = d.BLDC_State ∧
    (BLDC_Step_ticks samples d).bldc_step_modul % 4 = (d.bldc_step_modul + samples.length) % 4 ∧
    (BLDC_Step_ticks samples d).comm_step % 6 =
      (d.comm_step + (d.bldc_step_modul % 4 + samples.length) / 4) % 6 ∧
    (d.comm_step < 6 → (BLDC_Step_ticks samples d).comm_step < 6) := by
  induction samples generalizing d with
  | nil => simp [BLDC_Step_ticks]
  | cons a as ih =>
    have hk := (BLDC_Step_keeps (bemf_samp_get a d)).1
    have hs := BLDC_Step_on (bemf_samp_get a d) h
    have e1 : (bemf_samp_get a d).BLDC_State = d.BLDC_State := rfl
    have e2 : (bemf_samp_get a d).bldc_step_modul = d.bldc_step_modul := rfl
    have e3 : (bemf_samp_get a d).comm_step = d.comm_step := rfl
    rw [e1] at hk
    rw [e2, e3] at hs
    have key := ih (BLDC_Step (bemf_samp_get a d)) (by rw [hk]; exact h)
    have e : BLDC_Step_ticks (a :: as) d = BLDC_Step_ticks as (BLDC_Step (bemf_samp_get a d)) := rfl
    rw [hk, hs.1, hs.2] at key
    rw [e]
    simp only [List.length_cons]
    refine ⟨key.1, ?_, ?_, ?_⟩
    · rw [key.2.1]; omega
    · rw [key.2.2.1]; split_ifs <;> omega
    · intro hlt
      apply key.2.2.2
      split_ifs
      · exact Nat.mod_lt _ (by decide)
      · exact hlt

/-! ## The phase-output table -/

/-- C1: for every sector `s` in 0..5 the entry `Commutation_Steps[s]` has
exactly one phase DrivenHigh or none, exactly one phase DrivenLow or none, at
most one floating phase, and never two phases DrivenHigh nor two DrivenLow. -/
theorem Commutation_Steps_one_drive_each (s : Nat) (hs : s < 6) :
    ((phases (Commutation_Steps_at s)).count DC_OUTP_HI = 1 ∨
      (phases (Commutation_Steps_at s)).count DC_OUTP_HI = 0) ∧
    ((phases (Commutation_Steps_at s)).count DC_OUTP_LO = 1 ∨
      (phases (Commutation_Steps_at s)).count DC_OUTP_LO = 0) ∧
    (phases (Commutation_Steps_at s)).countP is_floating ≤ 1 ∧
    ¬ 2 ≤ (phases (Commutation_Steps_at s)).count DC_OUTP_HI ∧
    ¬ 2 ≤ (phases (Commutation_Steps_at s)).count DC_OUTP_LO := by
  interval_cases s <;> decide

/-- Sector 3 (`LO`, `HI`, `FLOAT_R`): one phase of each kind. -/
theorem Commutation_Steps_one_drive_each_witness :
    (3 < 6) ∧
    (phases (Commutation_Steps_at 3)).count DC_OUTP_HI = 1 ∧
    (phases (Commutation_Steps_at 3)).count DC_OUTP_LO = 1 ∧
    (phases (Commutation_Steps_at 3)).countP is_floating = 1 ∧
    (((phases (Commutation_Steps_at 3)).count DC_OUTP_HI = 1 ∨
      (phases (Commutation_Steps_at 3)).count DC_OUTP_HI = 0) ∧
    ((phases (Commutation_Steps_at 3)).count DC_OUTP_LO = 1 ∨
      (phases (Commutation_Steps_at 3)).count DC_OUTP_LO = 0) ∧
    (phases (Commutation_Steps_at 3)).countP is_floating ≤ 1 ∧
    ¬ 2 ≤ (phases (Commutation_Steps_at 3)).count DC_OUTP_HI ∧
    ¬ 2 ≤ (phases (Commutation_Steps_at 3)).count DC_OUTP_LO) :=
  ⟨by decide, by decide, by decide, by decide,
    Commutation_Steps_one_drive_each 3 (by decide)⟩

/-! ## The sector sequence -/

/-- C2: while the motor is not Off, for any starting sector in 0..5 and any
value of the tick counter, one call of `BLDC_Step` leaves the sector unchanged
on tick index 0..2 and advances it to `(Sector + 1) mod 6` on tick index 3;
after `4 * k` consecutive calls (whatever the ADC delivers in between) the
sector is `(s + k) mod 6`, the motor still not being Off. -/
theorem BLDC_Step_sector_sequence (d : Driver) (hOn : d.BLDC_State ≠ BLDC_OFF)
    (hs : d.comm_step < 6) :
    ((d.bldc_step_modul % 4 < 3 ∧ (BLDC_Step d).comm_step = d.comm_step) ∨
      (d.bldc_step_modul % 4 = 3 ∧ (BLDC_Step d).comm_step = (d.comm_step + 1) % 6)) ∧
    ∀ (k : Nat) (samples : List Nat), samples.length = 4 * k →
      (BLDC_Step_ticks samples d).comm_step = (d.comm_step + k) % 6 ∧
      (BLDC_Step_ticks samples d).BLDC_State ≠ BLDC_OFF := by
  constructor
  · have h1 := (BLDC_Step_on d hOn).2
    by_cases h3 : d.bldc_step_modul % 4 = 3
    · right; rw [h1, if_pos h3]; exact ⟨h3, rfl⟩
    · left; rw [h1, if_neg h3]; exact ⟨by omega, rfl⟩
  · intro k samples hlen
    have key := BLDC_Step_ticks_on samples d hOn
    refine ⟨?_, by rw [key.1]; exact hOn⟩
    have hlt := key.2.2.2 hs
    have hm := key.2.2.1
    rw [Nat.mod_eq_of_lt hlt, hlen] at hm
    rw [hm]
    congr 2
    omega

/-- Two sectors' worth of ticks from sector 5 with the tick counter at 254:
the counter rolls over and the sector is `(5 + 2) mod 6`. -/
theorem BLDC_Step_sector_sequence_witness :
    (BLDC_Step_ticks [600, 400, 200, 100, 600, 400, 200, 100] stepping_state).comm_step
      = (5 + 2) % 6 :=
  ((BLDC_Step_sector_sequence stepping_state (by decide) (by decide)).2 2
    [600, 400, 200, 100, 600, 400, 200, 100] rfl).1

/-! ## The state machine in state On -/

/-- In state On an update is the fault check, then the timing correction,
then the timer re-arm. -/
theorem BLDC_Update_on (T : List Nat) (d : Driver) (h : d.BLDC_State = BLDC_ON) :
    BLDC_Update T d =
      emit (HwOp.TIM3_setup (timing_correction T (fault_check d)).BLDC_OL_comm_tm)
        (timing_correction T (fault_check d)) := by
  unfold BLDC_Update
  simp only [h]

/-- What the fault check writes: the averaged system voltage, the bucket and,
when the bucket is empty, a duty cycle of 0. -/
theorem fault_check_fields (d : Driver) :
    (fault_check d).Vsystem = (d.Vbatt / 2 + d.Vsystem / 2) % 65536 ∧
    (fault_check d).vsys_fault_bucket =
      (if (d.Vbatt / 2 + d.Vsystem / 2) % 65536 < V_SHUTDOWN_THR
        then (if d.vsys_fault_bucket > 0 then d.vsys_fault_bucket - 1 else d.vsys_fault_bucket)
        else (if d.vsys_fault_bucket < FAULT_BUCKET_INI then d.vsys_fault_bucket + 1
          else d.vsys_fault_bucket)) ∧
    (fault_check d).global_uDC =
      (if 0 = (fault_check d).vsys_fault_bucket then 0 else d.global_uDC) := by
  unfold fault_check fault_bucket_step set_dutycycle
  simp only [PWM_0PCNT]
  split_ifs <;> simp_all

/-- The variables of an update in state On, in terms of the state before. -/
theorem BLDC_Update_on_fields (T : List Nat) (d : Driver) (hOn : d.BLDC_State = BLDC_ON) :
    (BLDC_Update T d).BLDC_State = BLDC_ON ∧
    (BLDC_Update T d).Vsystem = (d.Vbatt / 2 + d.Vsystem / 2) % 65536 ∧
    (BLDC_Update T d).vsys_fault_bucket =
      (if (BLDC_Update T d).Vsystem < V_SHUTDOWN_THR
        then (if d.vsys_fault_bucket > 0 then d.vsys_fault_bucket - 1 else d.vsys_fault_bucket)
        else (if d.vsys_fault_bucket < FAULT_BUCKET_INI then d.vsys_fault_bucket + 1
          else d.vsys_fault_bucket)) ∧
    (BLDC_Update T d).global_uDC =
      (if 0 = (BLDC_Update T d).vsys_fault_bucket then 0 else d.global_uDC) ∧
    (BLDC_Update T d).Vbatt = d.Vbatt ∧
    (BLDC_Update T d).Manual_Mode = d.Manual_Mode ∧
    (BLDC_Update T d).BLDC_OL_comm_tm = (timing_correction T (fault_check d)).BLDC_OL_comm_tm ∧
    (BLDC_Update T d).global_uDC = (fault_check d).global_uDC := by
  have hc := fault_check_fields d
  rw [BLDC_Update_on T d hOn]
  simp only [emit_proj, timing_correction_proj, fault_check_proj, hc.1, hc.2.2]
  exact ⟨hOn, trivial, hc.2.1, trivial, trivial, trivial, trivial, trivial⟩

/-- The arithmetic of the timing correction on a 16-bit target: with table
entry `E` and period `P`, a unit step towards `E` when `E` is non-zero and
`E - P` fits the 16-bit `int`; no step at all when `E` is 0. -/
theorem timing_correction_period (T : List Nat) (d : Driver) (hM : d.Manual_Mode = 0)
    (hI : d.global_uDC < OL_TIMING_TBL_SIZE T) (hP : d.BLDC_OL_comm_tm < 65536) :
    (OL_Timing_at T d.global_uDC ≠ 0 →
      OL_Timing_at T d.global_uDC < d.BLDC_OL_comm_tm + 32768 →
      d.BLDC_OL_comm_tm ≤ OL_Timing_at T d.global_uDC + 32768 →
      (timing_correction T d).BLDC_OL_comm_tm =
        if d.BLDC_OL_comm_tm < OL_Timing_at T d.global_uDC then d.BLDC_OL_comm_tm + 1
        else if d.BLDC_OL_comm_tm > OL_Timing_at T d.global_uDC then d.BLDC_OL_comm_tm - 1
        else d.BLDC_OL_comm_tm) ∧
    (OL_Timing_at T d.global_uDC = 0 →
      (timing_correction T d).BLDC_OL_comm_tm = d.BLDC_OL_comm_tm) := by
  have hE : OL_Timing_at T d.global_uDC < 65536 := Nat.mod_lt _ (by decide)
  generalize hEe : OL_Timing_at T d.global_uDC = E at hE
  unfold timing_correction
  simp only [hM, hI, and_self, if_true, hEe, toInt16, toU16]
  constructor
  · intro h0 h1 h2
    simp only [h0, ne_eq, not_false_eq_true, if_true]
    split_ifs <;> omega
  · intro h0
    simp [h0]

/-- An update in state Off: the period and the bucket are reset, the timer is
re-armed. -/
theorem BLDC_Update_off (T : List Nat) (d : Driver) (h : d.BLDC_State = BLDC_OFF) :
    BLDC_Update T d =
      emit (HwOp.TIM3_setup BLDC_OL_TM_LO_SPD)
        { d with
          BLDC_OL_comm_tm := BLDC_OL_TM_LO_SPD
          vsys_fault_bucket := FAULT_BUCKET_INI
          fault_arming_time := RAMP_TIME } := by
  unfold BLDC_Update
  simp only [h]

/-- An update in state RampUp above the high-speed threshold. -/
theorem BLDC_Update_rampup (T : List Nat) (d : Driver) (h : d.BLDC_State = BLDC_RAMPUP)
    (hP : BLDC_OL_TM_HI_SPD < d.BLDC_OL_comm_tm) (hP16 : d.BLDC_OL_comm_tm < 65536) :
    BLDC_Update T d =
      emit (HwOp.TIM3_setup (d.BLDC_OL_comm_tm - BLDC_ONE_RAMP_UNIT))
        { d with
          global_uDC := PWM_DC_RAMPUP
          BLDC_OL_comm_tm := d.BLDC_OL_comm_tm - BLDC_ONE_RAMP_UNIT } := by
  have e : (d.BLDC_OL_comm_tm + 65536 - BLDC_ONE_RAMP_UNIT) % 65536
      = d.BLDC_OL_comm_tm - BLDC_ONE_RAMP_UNIT := by
    simp only [BLDC_ONE_RAMP_UNIT, BLDC_OL_TM_HI_SPD] at *
    omega
  have e2 : PWM_DC_RAMPUP % 65536 = PWM_DC_RAMPUP := by decide
  unfold BLDC_Update
  simp only [h, set_dutycycle, hP, if_true, e, e2]

/-- An update in state RampUp at or below the high-speed threshold. -/
theorem BLDC_Update_rampup_done (T : List Nat) (d : Driver) (h : d.BLDC_State = BLDC_RAMPUP)
    (hP : d.BLDC_OL_comm_tm ≤ BLDC_OL_TM_HI_SPD) :
    BLDC_Update T d =
      emit (HwOp.TIM3_setup d.BLDC_OL_comm_tm)
        { d with
          BLDC_State := BLDC_ON
          Vsystem := d.Vbatt
          Manual_Mode := 0
          global_uDC := PWM_DC_IDLE
          Log_Level := 16 } := by
  have e2 : PWM_DC_IDLE % 65536 = PWM_DC_IDLE := by decide
  have hn : ¬ d.BLDC_OL_comm_tm > BLDC_OL_TM_HI_SPD := by omega
  unfold BLDC_Update
  simp only [h, set_dutycycle, hn, if_false, e2]

theorem BLDC_Update_run_cons (T : List Nat) (v : Nat) (vs : List Nat) (d : Driver) :
    BLDC_Update_run T (v :: vs) d
      = BLDC_Update_run T vs (BLDC_Update T { d with Vbatt := v % 65536 }) := rfl

theorem BLDC_Update_run_single (T : List Nat) (v : Nat) (d : Driver) :
    BLDC_Update_run T [v] d = BLDC_Update T { d with Vbatt := v % 65536 } := rfl

theorem BLDC_Update_run_append (T : List Nat) (vs ws : List Nat) (d : Driver) :
    BLDC_Update_run T (vs ++ ws) d = BLDC_Update_run T ws (BLDC_Update_run T vs d) := by
  simp only [BLDC_Update_run, List.foldl_append]

/-- A run of updates in state RampUp during which the period stays above the
high-speed threshold before every update: each update takes one ramp unit. -/
theorem BLDC_Update_run_rampup (T : List Nat) (vs : List Nat) (d : Driver)
    (h : d.BLDC_State = BLDC_RAMPUP) (hP16 : d.BLDC_OL_comm_tm < 65536)
    (hP : BLDC_OL_TM_HI_SPD + BLDC_ONE_RAMP_UNIT * vs.length
      < d.BLDC_OL_comm_tm + BLDC_ONE_RAMP_UNIT) :
    (BLDC_Update_run T vs d).BLDC_State = BLDC_RAMPUP ∧
    (BLDC_Update_run T vs d).BLDC_OL_comm_tm
      = d.BLDC_OL_comm_tm - BLDC_ONE_RAMP_UNIT * vs.length ∧
    (0 < vs.length → (BLDC_Update_run T vs d).global_uDC = PWM_DC_RAMPUP) := by
  induction vs generalizing d with
  | nil => exact ⟨h, rfl, fun h0 => absurd h0 (by decide)⟩
  | cons v vs ih =>
    simp only [List.length_cons, BLDC_ONE_RAMP_UNIT, BLDC_OL_TM_HI_SPD] at hP
    have hgt : BLDC_OL_TM_HI_SPD < d.BLDC_OL_comm_tm := by
      simp only [BLDC_OL_TM_HI_SPD]; omega
    have e := BLDC_Update_rampup T { d with Vbatt := v % 65536 } h hgt hP16
    rw [BLDC_Update_run_cons, e]
    have key := ih (emit (HwOp.TIM3_setup (d.BLDC_OL_comm_tm - BLDC_ONE_RAMP_UNIT))
        { d with
          Vbatt := v % 65536
          global_uDC := PWM_DC_RAMPUP
          BLDC_OL_comm_tm := d.BLDC_OL_comm_tm - BLDC_ONE_RAMP_UNIT }) h
      (by show d.BLDC_OL_comm_tm - BLDC_ONE_RAMP_UNIT < 65536; omega)
      (by
        show BLDC_OL_TM_HI_SPD + BLDC_ONE_RAMP_UNIT * vs.length
          < d.BLDC_OL_comm_tm - BLDC_ONE_RAMP_UNIT + BLDC_ONE_RAMP_UNIT
        simp only [BLDC_ONE_RAMP_UNIT, BLDC_OL_TM_HI_SPD]; omega)
    refine ⟨key.1, ?_, ?_⟩
    · rw [key.2.1]
      show d.BLDC_OL_comm_tm - BLDC_ONE_RAMP_UNIT - BLDC_ONE_RAMP_UNIT * vs.length
        = d.BLDC_OL_comm_tm - BLDC_ONE_RAMP_UNIT * (vs.length + 1)
      simp only [BLDC_ONE_RAMP_UNIT]; omega
    · intro _
      rcases Nat.eq_zero_or_pos vs.length with h0 | h0
      · have hnil : vs = [] := List.length_eq_zero.mp h0
        subst hnil
        rfl
      · exact key.2.2 h0

/-- The start command `BLDC_Spd_inc` issued in state Off right after an Off
update: the state is RampUp and the period is the low-speed start value. -/
theorem BLDC_Spd_inc_after_off_update (T : List Nat) (d : Driver)
    (h : d.BLDC_State = BLDC_OFF) :
    (BLDC_Spd_inc (BLDC_Update T d)).BLDC_State = BLDC_RAMPUP ∧
    (BLDC_Spd_inc (BLDC_Update T d)).BLDC_OL_comm_tm = BLDC_OL_TM_LO_SPD := by
  rw [BLDC_Update_off T d h]
  unfold BLDC_Spd_inc
  simp [h, emit_proj]

/-- C4: an update in state RampUp with the period `P` above the high-speed
threshold `0x03C0` makes the period exactly `P - 2` (no 16-bit underflow),
keeps the state RampUp and sets the duty cycle to the ramp duty value; so
from the low-speed start value the period after `n ≤ 1568` updates is
`0x1000 - 2 n`, above the threshold until the 1568th update brings it to the
threshold. -/
theorem BLDC_Update_rampup_decrement (T : List Nat) (d : Driver)
    (h : d.BLDC_State = BLDC_RAMPUP) (hP : BLDC_OL_TM_HI_SPD < d.BLDC_OL_comm_tm)
    (hP16 : d.BLDC_OL_comm_tm < 65536) :
    (BLDC_Update T d).BLDC_OL_comm_tm = d.BLDC_OL_comm_tm - BLDC_ONE_RAMP_UNIT ∧
    BLDC_ONE_RAMP_UNIT ≤ d.BLDC_OL_comm_tm ∧
    (BLDC_Update T d).BLDC_OL_comm_tm < d.BLDC_OL_comm_tm ∧
    (BLDC_Update T d).BLDC_State = BLDC_RAMPUP ∧
    (BLDC_Update T d).global_uDC = PWM_DC_RAMPUP ∧
    (d.BLDC_OL_comm_tm = BLDC_OL_TM_LO_SPD → ∀ vs : List Nat, vs.length ≤ 1568 →
      (BLDC_Update_run T vs d).BLDC_OL_comm_tm
        = BLDC_OL_TM_LO_SPD - BLDC_ONE_RAMP_UNIT * vs.length ∧
      (BLDC_Update_run T vs d).BLDC_State = BLDC_RAMPUP ∧
      (vs.length < 1568 → BLDC_OL_TM_HI_SPD < (BLDC_Update_run T vs d).BLDC_OL_comm_tm) ∧
      (vs.length = 1568 → (BLDC_Update_run T vs d).BLDC_OL_comm_tm = BLDC_OL_TM_HI_SPD)) := by
  rw [BLDC_Update_rampup T d h hP hP16]
  refine ⟨rfl, ?_, ?_, h, rfl, ?_⟩
  · simp only [BLDC_ONE_RAMP_UNIT, BLDC_OL_TM_HI_SPD] at *; omega
  · show d.BLDC_OL_comm_tm - BLDC_ONE_RAMP_UNIT < d.BLDC_OL_comm_tm
    simp only [BLDC_ONE_RAMP_UNIT, BLDC_OL_TM_HI_SPD] at *; omega
  · intro hlo vs hlen
    have key := BLDC_Update_run_rampup T vs d h hP16
      (by rw [hlo]; simp only [BLDC_ONE_RAMP_UNIT, BLDC_OL_TM_HI_SPD, BLDC_OL_TM_LO_SPD]; omega)
    rw [key.2.1, hlo]
    refine ⟨rfl, key.1, ?_, ?_⟩ <;> intro hl <;>
      simp only [BLDC_ONE_RAMP_UNIT, BLDC_OL_TM_HI_SPD, BLDC_OL_TM_LO_SPD] <;> omega

/-- From the low-speed start value: `0x0FFE` after one update, `0x0FFA`
after three. -/
theorem BLDC_Update_rampup_decrement_witness :
    (BLDC_Update OL_Timing_old (rampup_state 0x1000)).BLDC_OL_comm_tm = 0x0FFE ∧
    (BLDC_Update_run OL_Timing_old [0x300, 0x300, 0x300] (rampup_state 0x1000)).BLDC_OL_comm_tm
      = 0x0FFA :=
  ⟨(BLDC_Update_rampup_decrement OL_Timing_old (rampup_state 0x1000) rfl (by decide)
      (by decide)).1.trans (by decide),
   ((BLDC_Update_rampup_decrement OL_Timing_old (rampup_state 0x1000) rfl (by decide)
      (by decide)).2.2.2.2.2 rfl [0x300, 0x300, 0x300] (by decide)).1.trans (by decide)⟩

/-- C5, as stated, fails on the code: from power-up, after an Off update, the
start command and exactly `N = (0x1000 - 0x03C0) / 2 = 1568` updates, the
state is still RampUp, not On. -/
theorem ramp_not_on_after_N_updates_counterexample :
    (BLDC_OL_TM_LO_SPD - BLDC_OL_TM_HI_SPD) / BLDC_ONE_RAMP_UNIT = 1568 ∧
    (BLDC_Update OL_Timing_old power_up).BLDC_OL_comm_tm = 0x1000 ∧
    (BLDC_Update_run OL_Timing_old (List.replicate 1568 0x300)
      (BLDC_Spd_inc (BLDC_Update OL_Timing_old power_up))).BLDC_State ≠ BLDC_ON := by
  refine ⟨by decide, by decide, ?_⟩
  have key := BLDC_Update_run_rampup OL_Timing_old (List.replicate 1568 0x300)
    (BLDC_Spd_inc (BLDC_Update OL_Timing_old power_up)) (by decide) (by decide)
    (by rw [List.length_replicate]; decide)
  rw [key.1]
  decide

/-- C5 (amended): starting in Off, after an Off update (period `0x1000`) and
the start command, `N = (LowSpeedPeriod - HighSpeedThreshold) / RampStep`
updates leave the state RampUp with the period at the threshold; it is the
next update, the `(N + 1)`-th (1569th), that leaves the state On and the
duty cycle at the idle duty value. -/
theorem ramp_end_to_end (T : List Nat) (d : Driver) (hOff : d.BLDC_State = BLDC_OFF)
    (vs : List Nat) (v : Nat)
    (hlen : vs.length = (BLDC_OL_TM_LO_SPD - BLDC_OL_TM_HI_SPD) / BLDC_ONE_RAMP_UNIT) :
    (BLDC_Update T d).BLDC_OL_comm_tm = BLDC_OL_TM_LO_SPD ∧
    (BLDC_Update_run T vs (BLDC_Spd_inc (BLDC_Update T d))).BLDC_State = BLDC_RAMPUP ∧
    (BLDC_Update_run T vs (BLDC_Spd_inc (BLDC_Update T d))).BLDC_OL_comm_tm
      = BLDC_OL_TM_HI_SPD ∧
    (BLDC_Update_run T (vs ++ [v]) (BLDC_Spd_inc (BLDC_Update T d))).BLDC_State = BLDC_ON ∧
    (BLDC_Update_run T (vs ++ [v]) (BLDC_Spd_inc (BLDC_Update T d))).global_uDC
      = PWM_DC_IDLE := by
  have hN : (BLDC_OL_TM_LO_SPD - BLDC_OL_TM_HI_SPD) / BLDC_ONE_RAMP_UNIT = 1568 := by decide
  rw [hN] at hlen
  have h1 := BLDC_Spd_inc_after_off_update T d hOff
  have key := BLDC_Update_run_rampup T vs (BLDC_Spd_inc (BLDC_Update T d)) h1.1
    (by rw [h1.2]; decide)
    (by rw [h1.2, hlen]; decide)
  rw [h1.2, hlen] at key
  have hP : (BLDC_Update_run T vs (BLDC_Spd_inc (BLDC_Update T d))).BLDC_OL_comm_tm
      = BLDC_OL_TM_HI_SPD := by rw [key.2.1]; decide
  have hoff : (BLDC_Update T d).BLDC_OL_comm_tm = BLDC_OL_TM_LO_SPD := by
    rw [BLDC_Update_off T d hOff]; rfl
  have hdone := BLDC_Update_rampup_done T
    { BLDC_Update_run T vs (BLDC_Spd_inc (BLDC_Update T d)) with Vbatt := v % 65536 }
    key.1 (le_of_eq hP)
  refine ⟨hoff, key.1, hP, ?_, ?_⟩
  · rw [BLDC_Update_run_append, BLDC_Update_run_single, hdone]
    rfl
  · rw [BLDC_Update_run_append, BLDC_Update_run_single, hdone]
    rfl

/-- From power-up: Off update, start command, 1569 updates; the state is On
and the duty cycle is the idle value 30. -/
theorem ramp_end_to_end_witness :
    (BLDC_Update_run OL_Timing_old (List.replicate 1568 0x300 ++ [0x300])
      (BLDC_Spd_inc (BLDC_Update OL_Timing_old power_up))).BLDC_State = BLDC_ON ∧
    (BLDC_Update_run OL_Timing_old (List.replicate 1568 0x300 ++ [0x300])
      (BLDC_Spd_inc (BLDC_Update OL_Timing_old power_up))).global_uDC = 30 :=
  ⟨(ramp_end_to_end OL_Timing_old power_up rfl (List.replicate 1568 0x300) 0x300
      (by rw [List.length_replicate]; decide)).2.2.2.1,
   (ramp_end_to_end OL_Timing_old power_up rfl (List.replicate 1568 0x300) 0x300
      (by rw [List.length_replicate]; decide)).2.2.2.2.trans (by decide)⟩

/-! ## The undervoltage fault bucket -/

theorem low_count_cons (T : List Nat) (v : Nat) (vs : List Nat) (d : Driver) :
    low_count T (v :: vs) d =
      (if (BLDC_Update T { d with Vbatt := v % 65536 }).Vsystem < V_SHUTDOWN_THR then 1 else 0)
      + low_count T vs (BLDC_Update T { d with Vbatt := v % 65536 }) := rfl

theorem low_count_le (T : List Nat) (vs : List Nat) (d : Driver) :
    low_count T vs d ≤ vs.length := by
  induction vs generalizing d with
  | nil => exact Nat.le_refl 0
  | cons v vs ih =>
    rw [low_count_cons, List.length_cons]
    have := ih (BLDC_Update T { d with Vbatt := v % 65536 })
    split_ifs <;> omega

/-- A run of updates in state On: the state stays On, the bucket loses at
most one unit per below-threshold update, the duty cycle is untouched as long
as the bucket cannot have emptied, and a duty cycle of 0 stays 0. -/
theorem BLDC_Update_run_on (T : List Nat) (vs : List Nat) (d : Driver)
    (hOn : d.BLDC_State = BLDC_ON) :
    (BLDC_Update_run T vs d).BLDC_State = BLDC_ON ∧
    d.vsys_fault_bucket - (low_count T vs d : Int) ≤ (BLDC_Update_run T vs d).vsys_fault_bucket ∧
    (0 < d.vsys_fault_bucket - (low_count T vs d : Int) →
      (BLDC_Update_run T vs d).global_uDC = d.global_uDC) ∧
    (d.global_uDC = 0 → (BLDC_Update_run T vs d).global_uDC = 0) := by
  induction vs generalizing d with
  | nil =>
    refine ⟨hOn, ?_, fun _ => rfl, fun h => h⟩
    show d.vsys_fault_bucket - ((0 : Nat) : Int) ≤ d.vsys_fault_bucket
    omega
  | cons v vs ih =>
    have f := BLDC_Update_on_fields T { d with Vbatt := v % 65536 } hOn
    have key := ih (BLDC_Update T { d with Vbatt := v % 65536 }) f.1
    rw [BLDC_Update_run_cons, low_count_cons]
    have hb := f.2.2.1
    have hu := f.2.2.2.1
    have hb' : ({ d with Vbatt := v % 65536 } : Driver).vsys_fault_bucket
        = d.vsys_fault_bucket := rfl
    have hu' : ({ d with Vbatt := v % 65536 } : Driver).global_uDC = d.global_uDC := rfl
    rw [hb'] at hb
    rw [hu'] at hu
    simp only [FAULT_BUCKET_INI] at hb
    push_cast
    refine ⟨key.1, ?_, ?_, ?_⟩
    · have k := key.2.1
      split_ifs at hb ⊢ <;> omega
    · intro hpos
      have hk : 0 < (BLDC_Update T { d with Vbatt := v % 65536 }).vsys_fault_bucket
          - (low_count T vs (BLDC_Update T { d with Vbatt := v % 65536 }) : Int) := by
        split_ifs at hb hpos <;> omega
      rw [key.2.2.1 hk, hu]
      have hne : ¬ (0 = (BLDC_Update T { d with Vbatt := v % 65536 }).vsys_fault_bucket) := by
        omega
      rw [if_neg hne]
    · intro h0
      apply key.2.2.2
      rw [hu, h0]
      simp

/-- A run of updates in state On that all see the voltage below the threshold
takes exactly one unit from the bucket per update, as long as there is one. -/
theorem BLDC_Update_run_all_low (T : List Nat) (vs : List Nat) (d : Driver)
    (hOn : d.BLDC_State = BLDC_ON) (hlow : low_count T vs d = vs.length)
    (hlen : (vs.length : Int) ≤ d.vsys_fault_bucket) :
    (BLDC_Update_run T vs d).vsys_fault_bucket = d.vsys_fault_bucket - (vs.length : Int) := by
  induction vs generalizing d with
  | nil =>
    show d.vsys_fault_bucket = d.vsys_fault_bucket - ((0 : Nat) : Int)
    omega
  | cons v vs ih =>
    have f := BLDC_Update_on_fields T { d with Vbatt := v % 65536 } hOn
    have hle := low_count_le T vs (BLDC_Update T { d with Vbatt := v % 65536 })
    rw [low_count_cons, List.length_cons] at hlow
    rw [List.length_cons] at hlen
    push_cast at hlen
    have hb := f.2.2.1
    have hb' : ({ d with Vbatt := v % 65536 } : Driver).vsys_fault_bucket
        = d.vsys_fault_bucket := rfl
    rw [hb'] at hb
    have hlowv : (BLDC_Update T { d with Vbatt := v % 65536 }).Vsystem < V_SHUTDOWN_THR := by
      by_contra hc
      rw [if_neg hc] at hlow
      omega
    rw [if_pos hlowv] at hlow hb
    have hpos : d.vsys_fault_bucket > 0 := by omega
    rw [if_pos hpos] at hb
    have key := ih (BLDC_Update T { d with Vbatt := v % 65536 }) f.1 (by omega)
      (by rw [hb]; omega)
    rw [BLDC_Update_run_cons, key, hb, List.length_cons]
    push_cast
    omega

/-- When a non-empty run of updates in state On ends with the bucket at 0,
its last update has forced the duty cycle to 0. -/
theorem BLDC_Update_run_last_trip (T : List Nat) (vs : List Nat) (d : Driver)
    (hOn : d.BLDC_State = BLDC_ON) (hne : vs ≠ [])
    (hz : (BLDC_Update_run T vs d).vsys_fault_bucket = 0) :
    (BLDC_Update_run T vs d).global_uDC = 0 := by
  rcases List.eq_nil_or_concat vs with h | ⟨L, b, h⟩
  · exact absurd h hne
  · subst h
    rw [List.concat_eq_append, BLDC_Update_run_append, BLDC_Update_run_single] at hz ⊢
    have hOn' := (BLDC_Update_run_on T L d hOn).1
    have f := BLDC_Update_on_fields T { BLDC_Update_run T L d with Vbatt := b % 65536 } hOn'
    rw [f.2.2.2.1, hz]
    rfl

/-- When the running average and every battery-voltage estimate of a run are
below the shutdown threshold, every update of the run sees the system voltage
below the threshold. -/
theorem low_count_of_low (T : List Nat) (vs : List Nat) (d : Driver)
    (hOn : d.BLDC_State = BLDC_ON) (hs : d.Vsystem < V_SHUTDOWN_THR)
    (hv : ∀ v ∈ vs, v < V_SHUTDOWN_THR) :
    low_count T vs d = vs.length := by
  induction vs generalizing d with
  | nil => rfl
  | cons v vs ih =>
    have f := BLDC_Update_on_fields T { d with Vbatt := v % 65536 } hOn
    have hv0 : v < V_SHUTDOWN_THR := hv v (List.mem_cons_self v vs)
    have hlow : (BLDC_Update T { d with Vbatt := v % 65536 }).Vsystem < V_SHUTDOWN_THR := by
      rw [f.2.1]
      show (v % 65536 / 2 + d.Vsystem / 2) % 65536 < V_SHUTDOWN_THR
      simp only [V_SHUTDOWN_THR] at *
      omega
    rw [low_count_cons, if_pos hlow, List.length_cons,
      ih (BLDC_Update T { d with Vbatt := v % 65536 }) f.1 hlow
        (fun w hw => hv w (List.mem_cons_of_mem v hw))]
    omega

/-- A run of equal battery-voltage estimates below the threshold, started
with the running average below the threshold, is low throughout. -/
theorem low_count_replicate (T : List Nat) (n v : Nat) (d : Driver)
    (hOn : d.BLDC_State = BLDC_ON) (hs : d.Vsystem < V_SHUTDOWN_THR)
    (hv : v < V_SHUTDOWN_THR) :
    low_count T (List.replicate n v) d = (List.replicate n v).length :=
  low_count_of_low T (List.replicate n v) d hOn hs
    (fun _ hw => (List.eq_of_mem_replicate hw).symm ▸ hv)

/-- The stop command never writes the fault bucket. -/
theorem BLDC_Stop_bucket (d : Driver) :
    (BLDC_Stop d).vsys_fault_bucket = d.vsys_fault_bucket := by
  unfold BLDC_Stop
  simp only [emit_proj, set_dutycycle_proj, apply_ite Driver.vsys_fault_bucket, ite_self]

/-- The control-surface commands never write the fault bucket. -/
theorem commands_keep_bucket (d : Driver) (dc : Nat) :
    (BLDC_PWMDC_Plus d).1.vsys_fault_bucket = d.vsys_fault_bucket ∧
    (BLDC_PWMDC_Minus d).1.vsys_fault_bucket = d.vsys_fault_bucket ∧
    (BLDC_PWMDC_Set dc d).vsys_fault_bucket = d.vsys_fault_bucket ∧
    (BLDC_Spd_dec d).vsys_fault_bucket = d.vsys_fault_bucket ∧
    (BLDC_Spd_inc d).vsys_fault_bucket = d.vsys_fault_bucket := by
  refine ⟨?_, ?_, ?_, ?_, ?_⟩
  · unfold BLDC_PWMDC_Plus
    simp only [emit_proj, inc_dutycycle_proj, apply_ite Prod.fst,
      apply_ite Driver.vsys_fault_bucket, ite_self]
  · unfold BLDC_PWMDC_Minus
    simp only [emit_proj, dec_dutycycle_proj, apply_ite Prod.fst,
      apply_ite Driver.vsys_fault_bucket, ite_self]
  · unfold BLDC_PWMDC_Set
    simp only [emit_proj, inc_dutycycle_proj, dec_dutycycle_proj, BLDC_Stop_bucket,
      apply_ite Driver.vsys_fault_bucket, ite_self]
  · unfold BLDC_Spd_dec
    simp only [emit_proj, apply_ite Driver.vsys_fault_bucket, ite_self]
  · unfold BLDC_Spd_inc
    simp only [emit_proj, apply_ite Driver.vsys_fault_bucket, ite_self]

/-- The state machine keeps the bucket in `[0, FAULT_BUCKET_INI]` in every
state. -/
theorem BLDC_Update_bucket_range (T : List Nat) (d : Driver)
    (hb0 : 0 ≤ d.vsys_fault_bucket) (hb1 : d.vsys_fault_bucket ≤ FAULT_BUCKET_INI) :
    0 ≤ (BLDC_Update T d).vsys_fault_bucket ∧
    (BLDC_Update T d).vsys_fault_bucket ≤ FAULT_BUCKET_INI := by
  rcases hs : d.BLDC_State with _ | _ | _
  · rw [BLDC_Update_off T d hs]
    show (0 : Int) ≤ FAULT_BUCKET_INI ∧ FAULT_BUCKET_INI ≤ FAULT_BUCKET_INI
    exact ⟨by decide, le_refl _⟩
  · have e : (BLDC_Update T d).vsys_fault_bucket = d.vsys_fault_bucket := by
      unfold BLDC_Update
      simp only [hs, emit_proj, set_dutycycle_proj, apply_ite Driver.vsys_fault_bucket, ite_self]
    rw [e]; exact ⟨hb0, hb1⟩
  · have f := (BLDC_Update_on_fields T d hs).2.2.1
    simp only [FAULT_BUCKET_INI] at *
    rw [f]
    split_ifs <;> omega

/-- Every entry point keeps the bucket in `[0, FAULT_BUCKET_INI]`. -/
theorem Event_apply_bucket_range (T : List Nat) (e : Event) (d : Driver)
    (hb0 : 0 ≤ d.vsys_fault_bucket) (hb1 : d.vsys_fault_bucket ≤ FAULT_BUCKET_INI) :
    0 ≤ (Event.apply T e d).vsys_fault_bucket ∧
    (Event.apply T e d).vsys_fault_bucket ≤ FAULT_BUCKET_INI := by
  cases e with
  | Adc sample => exact ⟨hb0, hb1⟩
  | Step =>
    show 0 ≤ (BLDC_Step d).vsys_fault_bucket ∧ (BLDC_Step d).vsys_fault_bucket ≤ FAULT_BUCKET_INI
    rw [(BLDC_Step_keeps d).2.2.2.2]; exact ⟨hb0, hb1⟩
  | Update => exact BLDC_Update_bucket_range T d hb0 hb1
  | Stop =>
    show 0 ≤ (BLDC_Stop d).vsys_fault_bucket ∧ (BLDC_Stop d).vsys_fault_bucket ≤ FAULT_BUCKET_INI
    rw [BLDC_Stop_bucket d]; exact ⟨hb0, hb1⟩
  | PWMDC_Plus =>
    show 0 ≤ (BLDC_PWMDC_Plus d).1.vsys_fault_bucket ∧
      (BLDC_PWMDC_Plus d).1.vsys_fault_bucket ≤ FAULT_BUCKET_INI
    rw [(commands_keep_bucket d 0).1]; exact ⟨hb0, hb1⟩
  | PWMDC_Minus =>
    show 0 ≤ (BLDC_PWMDC_Minus d).1.vsys_fault_bucket ∧
      (BLDC_PWMDC_Minus d).1.vsys_fault_bucket ≤ FAULT_BUCKET_INI
    rw [(commands_keep_bucket d 0).2.1]; exact ⟨hb0, hb1⟩
  | PWMDC_Set dc =>
    show 0 ≤ (BLDC_PWMDC_Set (dc % 65536) d).vsys_fault_bucket ∧
      (BLDC_PWMDC_Set (dc % 65536) d).vsys_fault_bucket ≤ FAULT_BUCKET_INI
    rw [(commands_keep_bucket d (dc % 65536)).2.2.1]; exact ⟨hb0, hb1⟩
  | Spd_dec =>
    show 0 ≤ (BLDC_Spd_dec d).vsys_fault_bucket ∧
      (BLDC_Spd_dec d).vsys_fault_bucket ≤ FAULT_BUCKET_INI
    rw [(commands_keep_bucket d 0).2.2.2.1]; exact ⟨hb0, hb1⟩
  | Spd_inc =>
    show 0 ≤ (BLDC_Spd_inc d).vsys_fault_bucket ∧
      (BLDC_Spd_inc d).vsys_fault_bucket ≤ FAULT_BUCKET_INI
    rw [(commands_keep_bucket d 0).2.2.2.2]; exact ⟨hb0, hb1⟩

/-- C6: an update in state On with the bucket `b` in `[0, 128]` computes the
system voltage `Vbatt / 2 + Vsystem / 2`; if that is below the shutdown
threshold `0x02C0` the new bucket is `b - 1` (0 when `b` is 0), otherwise it
is `b + 1` capped at the capacity 128; the bucket stays in `[0, 128]` under
the update and, in every state, under every entry point of the driver. -/
theorem BLDC_Update_on_leaky_bucket (T : List Nat) (d : Driver) (hOn : d.BLDC_State = BLDC_ON)
    (hb0 : 0 ≤ d.vsys_fault_bucket) (hb1 : d.vsys_fault_bucket ≤ FAULT_BUCKET_INI) :
    (BLDC_Update T d).Vsystem = (d.Vbatt / 2 + d.Vsystem / 2) % 65536 ∧
    ((BLDC_Update T d).Vsystem < V_SHUTDOWN_THR →
      (BLDC_Update T d).vsys_fault_bucket
        = if d.vsys_fault_bucket = 0 then 0 else d.vsys_fault_bucket - 1) ∧
    (¬ (BLDC_Update T d).Vsystem < V_SHUTDOWN_THR →
      (BLDC_Update T d).vsys_fault_bucket = min (d.vsys_fault_bucket + 1) FAULT_BUCKET_INI) ∧
    (0 ≤ (BLDC_Update T d).vsys_fault_bucket ∧
      (BLDC_Update T d).vsys_fault_bucket ≤ FAULT_BUCKET_INI) ∧
    (∀ (e : Event) (s : Driver),
      0 ≤ s.vsys_fault_bucket → s.vsys_fault_bucket ≤ FAULT_BUCKET_INI →
      0 ≤ (Event.apply T e s).vsys_fault_bucket ∧
      (Event.apply T e s).vsys_fault_bucket ≤ FAULT_BUCKET_INI) := by
  have f := BLDC_Update_on_fields T d hOn
  refine ⟨f.2.1, ?_, ?_, BLDC_Update_bucket_range T d hb0 hb1,
    fun e s h0 h1 => Event_apply_bucket_range T e s h0 h1⟩
  · intro hlow
    rw [f.2.2.1, if_pos hlow]
    split_ifs <;> omega
  · intro hhigh
    rw [f.2.2.1, if_neg hhigh]
    simp only [FAULT_BUCKET_INI] at *
    split_ifs <;> omega

/-- A full bucket: a sagging voltage takes it to 127, a healthy one leaves it
at the capacity 128. -/
theorem BLDC_Update_on_leaky_bucket_witness :
    (BLDC_Update OL_Timing_old (on_state 0x3AC 30 128 0x100 0x100)).vsys_fault_bucket = 127 ∧
    (BLDC_Update OL_Timing_old (on_state 0x3AC 30 128 0x300 0x300)).vsys_fault_bucket = 128 :=
  ⟨((BLDC_Update_on_leaky_bucket OL_Timing_old (on_state 0x3AC 30 128 0x100 0x100) rfl
      (by decide) (by decide)).2.1 (by decide)).trans (by decide),
   ((BLDC_Update_on_leaky_bucket OL_Timing_old (on_state 0x3AC 30 128 0x300 0x300) rfl
      (by decide) (by decide)).2.2.1 (by decide)).trans (by decide)⟩

/-- C7: an update in state On forces the duty cycle to 0 if and only if the
bucket is 0 after the update's decrement or increment: with the bucket at 0
the duty cycle is 0, with a non-zero bucket the duty cycle is unchanged, and a
changed duty cycle means that the bucket is 0. -/
theorem BLDC_Update_on_duty_forced_iff_bucket_empty (T : List Nat) (d : Driver)
    (hOn : d.BLDC_State = BLDC_ON) :
    ((BLDC_Update T d).vsys_fault_bucket = 0 → (BLDC_Update T d).global_uDC = 0) ∧
    ((BLDC_Update T d).vsys_fault_bucket ≠ 0 → (BLDC_Update T d).global_uDC = d.global_uDC) ∧
    ((BLDC_Update T d).global_uDC ≠ d.global_uDC → (BLDC_Update T d).vsys_fault_bucket = 0) := by
  have f := (BLDC_Update_on_fields T d hOn).2.2.2.1
  refine ⟨fun h => ?_, fun h => ?_, fun h => ?_⟩
  · rw [f, h]; rfl
  · rw [f, if_neg (fun e => h e.symm)]
  · by_contra hne
    rw [f, if_neg (fun e => hne e.symm)] at h
    exact h rfl

/-- With one unit left and a sagging voltage the duty cycle 30 is forced to
0; with two units left it stays 30. -/
theorem BLDC_Update_on_duty_forced_iff_bucket_empty_witness :
    (BLDC_Update OL_Timing_old (on_state 0x3AC 30 1 0x3FF 0x100)).global_uDC = 0 ∧
    (BLDC_Update OL_Timing_old (on_state 0x3AC 30 2 0x3FF 0x100)).global_uDC = 30 :=
  ⟨(BLDC_Update_on_duty_forced_iff_bucket_empty OL_Timing_old
      (on_state 0x3AC 30 1 0x3FF 0x100) rfl).1 (by decide),
   ((BLDC_Update_on_duty_forced_iff_bucket_empty OL_Timing_old
      (on_state 0x3AC 30 2 0x3FF 0x100) rfl).2.1 (by decide)).trans (by decide)⟩

/-! ## After the fault has tripped -/

/-- In state On with the duty cycle at 0, an entry point that is neither a
stop, nor the duty-plus command, nor a commanded duty outside `0x10 .. 0x1d`
leaves the state On and the duty cycle at 0. -/
theorem Event_apply_keeps_zero_duty (T : List Nat) (e : Event) (d : Driver)
    (hOn : d.BLDC_State = BLDC_ON) (h0 : d.global_uDC = 0)
    (he : Event.no_duty_raise e = true) :
    (Event.apply T e d).BLDC_State = BLDC_ON ∧ (Event.apply T e d).global_uDC = 0 := by
  cases e with
  | Adc sample => exact ⟨hOn, h0⟩
  | Step =>
    show (BLDC_Step d).BLDC_State = BLDC_ON ∧ (BLDC_Step d).global_uDC = 0
    rw [(BLDC_Step_keeps d).1, (BLDC_Step_keeps d).2.1]; exact ⟨hOn, h0⟩
  | Update =>
    have f := BLDC_Update_on_fields T d hOn
    refine ⟨f.1, ?_⟩
    show (BLDC_Update T d).global_uDC = 0
    rw [f.2.2.2.1, h0, ite_self]
  | Stop => exact absurd he (by decide)
  | PWMDC_Plus => exact absurd he (by decide)
  | PWMDC_Minus =>
    show (BLDC_PWMDC_Minus d).1.BLDC_State = BLDC_ON ∧ (BLDC_PWMDC_Minus d).1.global_uDC = 0
    unfold BLDC_PWMDC_Minus
    simp [hOn, h0, dec_dutycycle_proj]
  | PWMDC_Set dc =>
    have hdc : 0x10 ≤ dc ∧ dc ≤ 0x1d := by
      simpa [Event.no_duty_raise] using he
    have hmod : dc % 65536 = dc := Nat.mod_eq_of_lt (by omega)
    show (BLDC_PWMDC_Set (dc % 65536) d).BLDC_State = BLDC_ON ∧
      (BLDC_PWMDC_Set (dc % 65536) d).global_uDC = 0
    rw [hmod]
    have h1 : ¬ dc < 0x10 := by omega
    have h2 : ¬ dc > 0x1d := by omega
    unfold BLDC_PWMDC_Set
    simp [hOn, h0, h1, h2]
  | Spd_dec =>
    show (BLDC_Spd_dec d).BLDC_State = BLDC_ON ∧ (BLDC_Spd_dec d).global_uDC = 0
    unfold BLDC_Spd_dec
    simp only [hOn, h0, emit_proj, apply_ite Driver.BLDC_State, apply_ite Driver.global_uDC,
      ite_self, reduceCtorEq, if_false, and_self]
  | Spd_inc =>
    show (BLDC_Spd_inc d).BLDC_State = BLDC_ON ∧ (BLDC_Spd_inc d).global_uDC = 0
    unfold BLDC_Spd_inc
    simp only [hOn, h0, emit_proj, apply_ite Driver.BLDC_State, apply_ite Driver.global_uDC,
      ite_self, reduceCtorEq, if_false, and_self]

theorem run_cons (T : List Nat) (e : Event) (es : List Event) (d : Driver) :
    run T (e :: es) d = run T es (Event.apply T e d) := rfl

/-- A duty cycle of 0 in state On remains 0, and the state remains On, after
every sequence of ADC samples, sampler ticks, `BLDC_Update` calls, duty-minus
commands, `BLDC_PWMDC_Set` with a commanded value in `0x10 .. 0x1d` and manual
speed steps: none of these entry points raises the duty cycle. -/
theorem duty_stays_zero_without_raise (T : List Nat) (es : List Event) (d : Driver)
    (hOn : d.BLDC_State = BLDC_ON) (h0 : d.global_uDC = 0)
    (hes : ∀ e ∈ es, Event.no_duty_raise e = true) :
    (run T es d).BLDC_State = BLDC_ON ∧ (run T es d).global_uDC = 0 := by
  induction es generalizing d with
  | nil => exact ⟨hOn, h0⟩
  | cons e es ih =>
    have h1 := Event_apply_keeps_zero_duty T e d hOn h0 (hes e (List.mem_cons_self e es))
    rw [run_cons]
    exact ih (Event.apply T e d) h1.1 h1.2 (fun e' he' => hes e' (List.mem_cons_of_mem e he'))

/-- From the faulted state: an update, a duty-minus, a commanded duty of
`0x1d`, both manual speed steps, a sample, a tick and another update leave
the duty cycle at 0. -/
theorem duty_stays_zero_without_raise_witness :
    (run OL_Timing_old
      [Event.Update, Event.PWMDC_Minus, Event.PWMDC_Set 0x1d, Event.Spd_inc, Event.Spd_dec,
        Event.Adc 0x200, Event.Step, Event.Update] faulted_state).global_uDC = 0 :=
  (duty_stays_zero_without_raise OL_Timing_old
    [Event.Update, Event.PWMDC_Minus, Event.PWMDC_Set 0x1d, Event.Spd_inc, Event.Spd_dec,
      Event.Adc 0x200, Event.Step, Event.Update] faulted_state (by decide) (by decide)
    (by decide)).2

/-! ## Draining the bucket -/

/-- C9, as stated, fails on the code: from state On with duty cycle 0 and a
full bucket, 100 updates that all see a system voltage below the threshold
leave 28 units in the bucket; it has not drained to 0. -/
theorem bucket_not_drained_after_100_counterexample :
    (on_state 0x3AC 0 128 0 0).BLDC_State = BLDC_ON ∧
    (on_state 0x3AC 0 128 0 0).global_uDC = 0 ∧
    (on_state 0x3AC 0 128 0 0).vsys_fault_bucket = FAULT_BUCKET_INI ∧
    (List.replicate 100 0x100).length = 100 ∧
    low_count OL_Timing_old (List.replicate 100 0x100) (on_state 0x3AC 0 128 0 0) = 100 ∧
    (BLDC_Update_run OL_Timing_old (List.replicate 100 0x100)
      (on_state 0x3AC 0 128 0 0)).vsys_fault_bucket = 28 ∧
    (BLDC_Update_run OL_Timing_old (List.replicate 100 0x100)
      (on_state 0x3AC 0 128 0 0)).vsys_fault_bucket ≠ 0 := by
  have hl := low_count_replicate OL_Timing_old 100 0x100 (on_state 0x3AC 0 128 0 0) rfl
    (by decide) (by decide)
  have k := BLDC_Update_run_all_low OL_Timing_old (List.replicate 100 0x100)
    (on_state 0x3AC 0 128 0 0) rfl hl (by rw [List.length_replicate]; decide)
  rw [List.length_replicate] at hl k
  have k28 : (BLDC_Update_run OL_Timing_old (List.replicate 100 0x100)
      (on_state 0x3AC 0 128 0 0)).vsys_fault_bucket = 28 := k.trans (by decide)
  refine ⟨rfl, rfl, rfl, List.length_replicate 100 0x100, hl, k28, ?_⟩
  rw [k28]
  decide

/-- C9 (amended): starting in On with duty cycle 0 and the bucket at full
capacity, after `n ≤ 128` updates that each see the system voltage below the
shutdown threshold the bucket holds `128 - n` and the duty cycle is 0; the
bucket has drained to 0 after 128 such updates, not after 100 (where it holds
28). -/
theorem bucket_drains_in_128_updates (T : List Nat) (vs : List Nat) (d : Driver)
    (hOn : d.BLDC_State = BLDC_ON) (h0 : d.global_uDC = 0)
    (hb : d.vsys_fault_bucket = FAULT_BUCKET_INI)
    (hlow : low_count T vs d = vs.length) (hlen : vs.length ≤ 128) :
    (BLDC_Update_run T vs d).vsys_fault_bucket = 128 - (vs.length : Int) ∧
    (BLDC_Update_run T vs d).global_uDC = 0 ∧
    ((BLDC_Update_run T vs d).vsys_fault_bucket = 0 ↔ vs.length = 128) ∧
    (vs.length = 100 → (BLDC_Update_run T vs d).vsys_fault_bucket = 28) := by
  have key := BLDC_Update_run_all_low T vs d hOn hlow
    (by rw [hb]; simp only [FAULT_BUCKET_INI]; omega)
  rw [hb] at key
  simp only [FAULT_BUCKET_INI] at key
  refine ⟨key, (BLDC_Update_run_on T vs d hOn).2.2.2 h0, ?_, ?_⟩
  · rw [key]; omega
  · intro h; rw [key]; omega

/-- With 128 low-voltage updates the bucket is empty and the duty cycle 0. -/
theorem bucket_drains_in_128_updates_witness :
    (BLDC_Update_run OL_Timing_old (List.replicate 128 0x100)
      (on_state 0x3AC 0 128 0 0)).vsys_fault_bucket = 0 ∧
    (BLDC_Update_run OL_Timing_old (List.replicate 128 0x100)
      (on_state 0x3AC 0 128 0 0)).global_uDC = 0 :=
  ⟨(bucket_drains_in_128_updates OL_Timing_old (List.replicate 128 0x100)
      (on_state 0x3AC 0 128 0 0) rfl rfl rfl
      (low_count_replicate OL_Timing_old 128 0x100 (on_state 0x3AC 0 128 0 0) rfl
        (by decide) (by decide))
      (by rw [List.length_replicate])).1.trans (by rw [List.length_replicate]; decide),
   (bucket_drains_in_128_updates OL_Timing_old (List.replicate 128 0x100)
      (on_state 0x3AC 0 128 0 0) rfl rfl rfl
      (low_count_replicate OL_Timing_old 128 0x100 (on_state 0x3AC 0 128 0 0) rfl
        (by decide) (by decide))
      (by rw [List.length_replicate])).2.1⟩

/-- C10: the undervoltage detector is a debouncer.  For every run of updates
in state On that starts with the bucket at full capacity 128, the bucket
holds at least 128 minus the number of below-threshold updates so far; as
long as fewer than 128 updates have seen the voltage below the threshold the
bucket is not empty and the duty cycle has not been touched; and when all
updates are below the threshold the fault trips at exactly the 128th: not
within the first 127, and the 128th empties the bucket and forces the duty
cycle to 0. -/
theorem fault_bucket_debounces (T : List Nat) (vs : List Nat) (d : Driver)
    (hOn : d.BLDC_State = BLDC_ON) (hb : d.vsys_fault_bucket = FAULT_BUCKET_INI) :
    128 - (low_count T vs d : Int) ≤ (BLDC_Update_run T vs d).vsys_fault_bucket ∧
    (low_count T vs d < 128 →
      0 < (BLDC_Update_run T vs d).vsys_fault_bucket ∧
      (BLDC_Update_run T vs d).global_uDC = d.global_uDC) ∧
    (low_count T vs d = vs.length →
      (vs.length < 128 →
        (BLDC_Update_run T vs d).vsys_fault_bucket = 128 - (vs.length : Int) ∧
        (BLDC_Update_run T vs d).global_uDC = d.global_uDC) ∧
      (vs.length = 128 →
        (BLDC_Update_run T vs d).vsys_fault_bucket = 0 ∧
        (BLDC_Update_run T vs d).global_uDC = 0)) := by
  have key := BLDC_Update_run_on T vs d hOn
  rw [hb] at key
  simp only [FAULT_BUCKET_INI] at key
  refine ⟨key.2.1, fun hlt => ⟨by have := key.2.1; omega, key.2.2.1 (by omega)⟩, fun hall => ?_⟩
  refine ⟨fun hlt => ?_, fun heq => ?_⟩
  · have k := BLDC_Update_run_all_low T vs d hOn hall
      (by rw [hb]; simp only [FAULT_BUCKET_INI]; omega)
    rw [hb] at k
    simp only [FAULT_BUCKET_INI] at k
    exact ⟨k, key.2.2.1 (by omega)⟩
  · have k := BLDC_Update_run_all_low T vs d hOn hall
      (by rw [hb]; simp only [FAULT_BUCKET_INI]; omega)
    rw [hb] at k
    simp only [FAULT_BUCKET_INI] at k
    have hz : (BLDC_Update_run T vs d).vsys_fault_bucket = 0 := by rw [k]; omega
    have hne : vs ≠ [] := by
      intro h; rw [h] at heq; exact absurd heq (by decide)
    exact ⟨hz, BLDC_Update_run_last_trip T vs d hOn hne hz⟩

/-- A run of 127 low-voltage updates leaves one unit in the bucket and the
duty cycle 30 untouched; the 128th trips the fault. -/
theorem fault_bucket_debounces_witness :
    (0 < (BLDC_Update_run OL_Timing_old (List.replicate 127 0x100)
        (on_state 0x3AC 30 128 0 0)).vsys_fault_bucket ∧
      (BLDC_Update_run OL_Timing_old (List.replicate 127 0x100)
        (on_state 0x3AC 30 128 0 0)).global_uDC = 30) ∧
    ((BLDC_Update_run OL_Timing_old (List.replicate 128 0x100)
        (on_state 0x3AC 30 128 0 0)).vsys_fault_bucket = 0 ∧
      (BLDC_Update_run OL_Timing_old (List.replicate 128 0x100)
        (on_state 0x3AC 30 128 0 0)).global_uDC = 0) :=
  ⟨(fault_bucket_debounces OL_Timing_old (List.replicate 127 0x100)
      (on_state 0x3AC 30 128 0 0) rfl rfl).2.1
      (by
        rw [low_count_replicate OL_Timing_old 127 0x100 (on_state 0x3AC 30 128 0 0) rfl
          (by decide) (by decide), List.length_replicate]
        decide),
   ((fault_bucket_debounces OL_Timing_old (List.replicate 128 0x100)
      (on_state 0x3AC 30 128 0 0) rfl rfl).2.2
      (low_count_replicate OL_Timing_old 128 0x100 (on_state 0x3AC 30 128 0 0) rfl
        (by decide) (by decide))).2 (by rw [List.length_replicate])⟩

/-! ## The state machine: run state and timer re-arm in every branch -/

/-- The run state after an update, in every state: Off stays Off, On stays
On, RampUp stays RampUp above the high-speed threshold and becomes On at or
below it. -/
theorem BLDC_Update_state (T : List Nat) (d : Driver) :
    (BLDC_Update T d).BLDC_State =
      (match d.BLDC_State with
        | BLDC_OFF => BLDC_OFF
        | BLDC_ON => BLDC_ON
        | BLDC_RAMPUP =>
          if d.BLDC_OL_comm_tm > BLDC_OL_TM_HI_SPD then BLDC_RAMPUP else BLDC_ON) := by
  rcases hs : d.BLDC_State with _ | _ | _
  · rw [BLDC_Update_off T d hs]; exact hs
  · unfold BLDC_Update
    simp only [hs, emit_proj, set_dutycycle_proj, apply_ite Driver.BLDC_State]
  · exact (BLDC_Update_on_fields T d hs).1

/-- The trace after an update, in every state: exactly one call is added,
the timer re-arm, and its argument is the period the update leaves. -/
theorem BLDC_Update_hw (T : List Nat) (d : Driver) :
    (BLDC_Update T d).hw = d.hw ++ [HwOp.TIM3_setup (BLDC_Update T d).BLDC_OL_comm_tm] := by
  rcases hs : d.BLDC_State with _ | _ | _
  · rw [BLDC_Update_off T d hs]; rfl
  · unfold BLDC_Update
    simp only [hs, emit_proj, set_dutycycle_proj, apply_ite Driver.hw, ite_self]
  · rw [BLDC_Update_on T d hs]
    simp only [emit_proj, timing_correction_proj, fault_check_proj]

/-- C11: `BLDC_Update` never moves the run state to Off.  An update from Off
stays Off, from RampUp it ends in RampUp or On, from On it stays On, also in
the update in which the fault bucket reaches 0 (which only zeroes the duty
cycle); so the state is Off after an update only if it was Off before. -/
theorem BLDC_Update_never_enters_off (T : List Nat) (d : Driver) :
    (d.BLDC_State = BLDC_OFF → (BLDC_Update T d).BLDC_State = BLDC_OFF) ∧
    (d.BLDC_State = BLDC_RAMPUP →
      (BLDC_Update T d).BLDC_State = BLDC_RAMPUP ∨ (BLDC_Update T d).BLDC_State = BLDC_ON) ∧
    (d.BLDC_State = BLDC_ON → (BLDC_Update T d).BLDC_State = BLDC_ON) ∧
    (d.BLDC_State = BLDC_ON → (BLDC_Update T d).vsys_fault_bucket = 0 →
      (BLDC_Update T d).BLDC_State = BLDC_ON ∧ (BLDC_Update T d).global_uDC = 0) ∧
    ((BLDC_Update T d).BLDC_State = BLDC_OFF → d.BLDC_State = BLDC_OFF) := by
  have h := BLDC_Update_state T d
  refine ⟨fun hs => ?_, fun hs => ?_, fun hs => ?_, fun hs hz => ?_, fun hs => ?_⟩
  · rw [h, hs]
  · rw [h, hs]
    by_cases hP : d.BLDC_OL_comm_tm > BLDC_OL_TM_HI_SPD
    · left; simp only [hP, if_true]
    · right; simp only [hP, if_false]
  · rw [h, hs]
  · have f := BLDC_Update_on_fields T d hs
    refine ⟨f.1, ?_⟩
    rw [f.2.2.2.1, hz]
    rfl
  · rcases hd : d.BLDC_State with _ | _ | _
    · rfl
    · rw [h, hd] at hs
      by_cases hP : d.BLDC_OL_comm_tm > BLDC_OL_TM_HI_SPD
      · simp only [hP, if_true] at hs
        cases hs
      · simp only [hP, if_false] at hs
        cases hs
    · rw [h, hd] at hs
      cases hs

/-- The update that trips the fault (one unit left, sagging voltage) leaves
the state On with the duty cycle 0; an update at power-up stays Off. -/
theorem BLDC_Update_never_enters_off_witness :
    ((BLDC_Update OL_Timing_old (on_state 0x3AC 30 1 0x3FF 0x100)).BLDC_State = BLDC_ON ∧
      (BLDC_Update OL_Timing_old (on_state 0x3AC 30 1 0x3FF 0x100)).global_uDC = 0) ∧
    (BLDC_Update OL_Timing_old power_up).BLDC_State = BLDC_OFF :=
  ⟨(BLDC_Update_never_enters_off OL_Timing_old (on_state 0x3AC 30 1 0x3FF 0x100)).2.2.2.1
      rfl (by decide),
   (BLDC_Update_never_enters_off OL_Timing_old power_up).1 rfl⟩

/-- C12: every `BLDC_Update` call, whatever the state and the branch taken,
re-arms the sub-sector timer exactly once: the update adds exactly one call to
the trace, `TIM3_setup`, and the period passed is `BLDC_OL_comm_tm` as the
update leaves it. -/
theorem BLDC_Update_rearms_timer_once (T : List Nat) (d : Driver) :
    (BLDC_Update T d).hw = d.hw ++ [HwOp.TIM3_setup (BLDC_Update T d).BLDC_OL_comm_tm] ∧
    (BLDC_Update T d).hw.length = d.hw.length + 1 ∧
    ((BLDC_Update T d).hw.drop d.hw.length).countP is_timer_rearm = 1 := by
  have h := BLDC_Update_hw T d
  refine ⟨h, ?_, ?_⟩
  · rw [h, List.length_append]; rfl
  · rw [h, List.drop_left]
    rfl

/-- C20: an update in state Off sets the period to the low-speed start value
`0x1000` and the fault bucket to the full capacity 128, leaves the run state,
the duty cycle, the system voltage and the manual-mode flag unchanged, and
its only hardware effect is the timer re-arm. -/
theorem BLDC_Update_off_resets (T : List Nat) (d : Driver) (hOff : d.BLDC_State = BLDC_OFF) :
    (BLDC_Update T d).BLDC_OL_comm_tm = 0x1000 ∧
    (BLDC_Update T d).vsys_fault_bucket = 128 ∧
    (BLDC_Update T d).BLDC_State = d.BLDC_State ∧
    (BLDC_Update T d).global_uDC = d.global_uDC ∧
    (BLDC_Update T d).Vsystem = d.Vsystem ∧
    (BLDC_Update T d).Manual_Mode = d.Manual_Mode ∧
    (BLDC_Update T d).hw = d.hw ++ [HwOp.TIM3_setup 0x1000] := by
  rw [BLDC_Update_off T d hOff]
  exact ⟨rfl, rfl, rfl, rfl, rfl, rfl, rfl⟩

/-- At power-up: the period becomes `0x1000`, the bucket 128, and the trace
holds the one timer re-arm. -/
theorem BLDC_Update_off_resets_witness :
    (BLDC_Update OL_Timing_old power_up).BLDC_OL_comm_tm = 0x1000 ∧
    (BLDC_Update OL_Timing_old power_up).vsys_fault_bucket = 128 ∧
    (BLDC_Update OL_Timing_old power_up).hw = [HwOp.TIM3_setup 0x1000] :=
  ⟨(BLDC_Update_off_resets OL_Timing_old power_up rfl).1,
   (BLDC_Update_off_resets OL_Timing_old power_up rfl).2.1,
   (BLDC_Update_off_resets OL_Timing_old power_up rfl).2.2.2.2.2.2⟩

/-! ## The stop command -/

/-- The variables after `BLDC_Stop`, from every state. -/
theorem BLDC_Stop_fields (d : Driver) :
    (BLDC_Stop d).BLDC_State = BLDC_OFF ∧
    (BLDC_Stop d).global_uDC = 0 ∧
    (BLDC_Stop d).BLDC_OL_comm_tm = d.BLDC_OL_comm_tm ∧
    (BLDC_Stop d).Manual_Mode = d.Manual_Mode ∧
    (BLDC_Stop d).comm_step = d.comm_step ∧
    (BLDC_Stop d).prev_bldc_step = d.prev_bldc_step ∧
    (BLDC_Stop d).bldc_step_modul = d.bldc_step_modul ∧
    (BLDC_Stop d).Vsystem = d.Vsystem ∧
    (BLDC_Stop d).Vbatt = d.Vbatt ∧
    (BLDC_Stop d).hw =
      d.hw ++ [HwOp.PWM_PhA_Disable, HwOp.PWM_PhA_HB_DISABLE, HwOp.PWM_PhB_Disable,
        HwOp.PWM_PhB_HB_DISABLE, HwOp.PWM_PhC_Disable, HwOp.PWM_PhC_HB_DISABLE]
      ++ (if BLDC_OFF ≠ d.BLDC_State then [HwOp.uart_print UartMsg.STOP] else []) := by
  unfold BLDC_Stop
  simp only [emit_proj, set_dutycycle_proj, PWM_0PCNT, apply_ite Driver.BLDC_OL_comm_tm,
    apply_ite Driver.Manual_Mode, apply_ite Driver.comm_step, apply_ite Driver.prev_bldc_step,
    apply_ite Driver.bldc_step_modul, apply_ite Driver.Vsystem, apply_ite Driver.Vbatt,
    apply_ite Driver.hw, ite_self, List.append_assoc, List.singleton_append, List.cons_append,
    List.nil_append, true_and, Nat.zero_mod]
  split_ifs <;> simp

/-- C19: from every run state, `BLDC_Stop` leaves the state Off and the duty
cycle 0, emits a PWM disable and a half-bridge deassert for each of the three
phases (followed by the `STOP` message when the motor was not Off already),
and changes neither the period, the fault bucket, the sector nor the
manual-mode flag. -/
theorem BLDC_Stop_effect (d : Driver) :
    (BLDC_Stop d).BLDC_State = BLDC_OFF ∧
    (BLDC_Stop d).global_uDC = 0 ∧
    (BLDC_Stop d).hw =
      d.hw ++ [HwOp.PWM_PhA_Disable, HwOp.PWM_PhA_HB_DISABLE, HwOp.PWM_PhB_Disable,
        HwOp.PWM_PhB_HB_DISABLE, HwOp.PWM_PhC_Disable, HwOp.PWM_PhC_HB_DISABLE]
      ++ (if BLDC_OFF ≠ d.BLDC_State then [HwOp.uart_print UartMsg.STOP] else []) ∧
    (BLDC_Stop d).BLDC_OL_comm_tm = d.BLDC_OL_comm_tm ∧
    (BLDC_Stop d).vsys_fault_bucket = d.vsys_fault_bucket ∧
    (BLDC_Stop d).comm_step = d.comm_step ∧
    (BLDC_Stop d).Manual_Mode = d.Manual_Mode := by
  have f := BLDC_Stop_fields d
  exact ⟨f.1, f.2.1, f.2.2.2.2.2.2.2.2.2, f.2.2.1, BLDC_Stop_bucket d, f.2.2.2.2.1, f.2.2.2.1⟩

/-! ## The order of the switching sequence -/

/-- The steps of the calls of `comm_switch` do not depend on the duty cycle. -/
theorem comm_switch_ops_stages (prev next : BLDC_COMM_STEP_t) (u : Nat) :
    (comm_switch_ops prev next u).map (op_stage next)
      = (comm_switch_ops prev next 0).map (op_stage next) := by
  simp only [comm_switch_ops, List.map_append, apply_ite (List.map (op_stage next)),
    List.map_cons, List.map_nil, op_stage]

/-- The steps of the calls of `comm_switch` are in ascending order for every
pair of sectors of the table. -/
theorem comm_switch_stages_sorted :
    ∀ p < 6, ∀ t < 6,
      ((comm_switch_ops (Commutation_Steps_at p) (Commutation_Steps_at t) 0).map
        (op_stage (Commutation_Steps_at t))).Pairwise (fun x y => x ≤ y) := by
  decide

/-- C13: for every pair of a previous sector `p` and a target sector `t` in
0..5, the driver operations emitted by one `comm_switch` call are ordered by
step: whenever an operation `a` is emitted before an operation `b`, the step
of `a` is not after the step of `b`.  So every PWM-channel disable comes
before every half-bridge deassert of a floating phase, which comes before the
output-low and half-bridge enable of the driven-low phase, which come before
every PWM enable of a driven-high phase. -/
theorem comm_switch_ordered (p t : Nat) (hp : p < 6) (ht : t < 6) (d : Driver)
    (hprev : d.prev_bldc_step = p) :
    (comm_switch t d).hw
      = d.hw ++ comm_switch_ops (Commutation_Steps_at p) (Commutation_Steps_at t) d.global_uDC ∧
    (comm_switch_ops (Commutation_Steps_at p) (Commutation_Steps_at t) d.global_uDC).Pairwise
      (fun a b => op_stage (Commutation_Steps_at t) a ≤ op_stage (Commutation_Steps_at t) b) := by
  refine ⟨by rw [← hprev]; rfl, ?_⟩
  have h := comm_switch_stages_sorted p hp t ht
  rw [← comm_switch_ops_stages _ _ d.global_uDC, List.pairwise_map] at h
  exact h

/-- From sector 0 to sector 1 with duty cycle 30: phase C stops floating and
is driven low, phase B starts floating; the trace is the half-bridge deassert
of B, then output-low and half-bridge enable of C, then the PWM enable of A. -/
theorem comm_switch_ordered_witness :
    (comm_switch 1 (switching_state 0 30)).hw
      = [HwOp.PWM_PhB_HB_DISABLE, HwOp.PWM_PhC_OUTP_LO, HwOp.PWM_PhC_HB_ENABLE,
          HwOp.PWM_PhA_Enable 30, HwOp.PWM_PhA_HB_ENABLE] :=
  (comm_switch_ordered 0 1 (by decide) (by decide) (switching_state 0 30) rfl).1.trans
    (by decide)

/-! ## The control surface, command by command -/

/-- The duty-plus command: run state, duty cycle, period and returned value. -/
theorem BLDC_PWMDC_Plus_fields (d : Driver) :
    (BLDC_PWMDC_Plus d).1.BLDC_State
      = (if BLDC_OFF = d.BLDC_State then BLDC_RAMPUP else d.BLDC_State) ∧
    (BLDC_PWMDC_Plus d).1.global_uDC
      = (if BLDC_OFF = d.BLDC_State then d.global_uDC
        else if BLDC_ON = d.BLDC_State then
          (if d.global_uDC < 0xFFFE then (d.global_uDC + 1) % 65536 else d.global_uDC)
        else d.global_uDC) ∧
    (BLDC_PWMDC_Plus d).1.BLDC_OL_comm_tm = d.BLDC_OL_comm_tm ∧
    (BLDC_PWMDC_Plus d).1.Manual_Mode = d.Manual_Mode ∧
    (BLDC_PWMDC_Plus d).2
      = (if BLDC_OFF = d.BLDC_State then 0 else (BLDC_PWMDC_Plus d).1.global_uDC) := by
  unfold BLDC_PWMDC_Plus
  simp only [emit_proj, inc_dutycycle_proj, apply_ite Prod.fst, apply_ite Prod.snd,
    apply_ite Driver.BLDC_State, apply_ite Driver.global_uDC, apply_ite Driver.BLDC_OL_comm_tm,
    apply_ite Driver.Manual_Mode, ite_self]
  split_ifs <;> simp_all

/-- The duty-minus command: run state, duty cycle, period and returned value. -/
theorem BLDC_PWMDC_Minus_fields (d : Driver) :
    (BLDC_PWMDC_Minus d).1.BLDC_State
      = (if BLDC_OFF = d.BLDC_State then BLDC_RAMPUP else d.BLDC_State) ∧
    (BLDC_PWMDC_Minus d).1.global_uDC
      = (if BLDC_OFF = d.BLDC_State then d.global_uDC
        else if BLDC_ON = d.BLDC_State then
          (if d.global_uDC > 0 then (d.global_uDC + 65536 - 1) % 65536 else d.global_uDC)
        else d.global_uDC) ∧
    (BLDC_PWMDC_Minus d).1.BLDC_OL_comm_tm = d.BLDC_OL_comm_tm ∧
    (BLDC_PWMDC_Minus d).1.Manual_Mode = d.Manual_Mode ∧
    (BLDC_PWMDC_Minus d).2
      = (if BLDC_OFF = d.BLDC_State then 0 else (BLDC_PWMDC_Minus d).1.global_uDC) := by
  unfold BLDC_PWMDC_Minus
  simp only [emit_proj, dec_dutycycle_proj, apply_ite Prod.fst, apply_ite Prod.snd,
    apply_ite Driver.BLDC_State, apply_ite Driver.global_uDC, apply_ite Driver.BLDC_OL_comm_tm,
    apply_ite Driver.Manual_Mode, ite_self]
  split_ifs <;> simp_all

/-- The manual speed steps: run state and duty cycle. -/
theorem BLDC_Spd_fields (d : Driver) :
    (BLDC_Spd_dec d).BLDC_State
      = (if BLDC_OFF = d.BLDC_State then BLDC_RAMPUP else d.BLDC_State) ∧
    (BLDC_Spd_dec d).global_uDC = d.global_uDC ∧
    (BLDC_Spd_inc d).BLDC_State
      = (if BLDC_OFF = d.BLDC_State then BLDC_RAMPUP else d.BLDC_State) ∧
    (BLDC_Spd_inc d).global_uDC = d.global_uDC := by
  unfold BLDC_Spd_dec BLDC_Spd_inc
  simp only [emit_proj, apply_ite Driver.BLDC_State, apply_ite Driver.global_uDC, ite_self,
    and_self]

/-- The manual speed steps in state Off leave the period alone. -/
theorem BLDC_Spd_off_period (d : Driver) (hOff : d.BLDC_State = BLDC_OFF) :
    (BLDC_Spd_dec d).BLDC_OL_comm_tm = d.BLDC_OL_comm_tm ∧
    (BLDC_Spd_inc d).BLDC_OL_comm_tm = d.BLDC_OL_comm_tm := by
  unfold BLDC_Spd_dec BLDC_Spd_inc
  simp [hOff, emit_proj]

/-- The command `BLDC_PWMDC_Set` with a commanded value below `0x10`: the
motor is stopped, and the ramp is armed again when the value is above 10. -/
theorem BLDC_PWMDC_Set_below (dc : Nat) (d : Driver) (h : dc < 0x10) :
    (BLDC_PWMDC_Set dc d).BLDC_State = (if dc > 10 then BLDC_RAMPUP else BLDC_OFF) ∧
    (BLDC_PWMDC_Set dc d).global_uDC = 0 ∧
    (BLDC_PWMDC_Set dc d).BLDC_OL_comm_tm = d.BLDC_OL_comm_tm := by
  have f := BLDC_Stop_fields d
  unfold BLDC_PWMDC_Set
  by_cases h10 : dc > 10
  · simp [h, h10, f.1, f.2.1, f.2.2.1, emit_proj]
  · simp [h, h10, f.1, f.2.1, f.2.2.1]

/-- The command `BLDC_PWMDC_Set` with a commanded value of `0x10` or more:
no stop; Off arms the ramp, On tracks a commanded value above `0x1d`. -/
theorem BLDC_PWMDC_Set_from (dc : Nat) (d : Driver) (h : 0x10 ≤ dc) :
    (BLDC_PWMDC_Set dc d).BLDC_State
      = (if BLDC_OFF = d.BLDC_State then BLDC_RAMPUP else d.BLDC_State) ∧
    (BLDC_PWMDC_Set dc d).global_uDC
      = (if BLDC_ON = d.BLDC_State ∧ dc > 0x1d then
          (if d.global_uDC < dc then
            (if d.global_uDC < 0xFFFE then (d.global_uDC + 1) % 65536 else d.global_uDC)
          else if d.global_uDC > dc then
            (if d.global_uDC > 0 then (d.global_uDC + 65536 - 1) % 65536 else d.global_uDC)
          else d.global_uDC)
        else d.global_uDC) ∧
    (BLDC_PWMDC_Set dc d).BLDC_OL_comm_tm = d.BLDC_OL_comm_tm ∧
    (BLDC_PWMDC_Set dc d).Manual_Mode = d.Manual_Mode ∧
    (BLDC_PWMDC_Set dc d).vsys_fault_bucket = d.vsys_fault_bucket := by
  have h1 : ¬ dc < 0x10 := by omega
  have h2 : dc > 10 := by omega
  unfold BLDC_PWMDC_Set
  rcases hs : d.BLDC_State with _ | _ | _
  · simp [h1, h2, hs, emit_proj]
  · simp [h1, h2, hs]
  · simp only [h1, h2, hs, if_false, if_true, reduceCtorEq, true_and, inc_dutycycle_proj,
      dec_dutycycle_proj, apply_ite Driver.BLDC_State, apply_ite Driver.global_uDC,
      apply_ite Driver.BLDC_OL_comm_tm, apply_ite Driver.Manual_Mode,
      apply_ite Driver.vsys_fault_bucket, ite_self]

/-! ## Throttle tracking -/

/-- C14, as stated, fails on the code: in state On with the duty cycle at
`0xFFFE` and a commanded value of `0xFFFF` (above the minimum threshold
`0x1d`), the duty cycle differs from the commanded value and yet does not
move towards it: `inc_dutycycle` saturates at its guard. -/
theorem BLDC_PWMDC_Set_saturated_counterexample :
    (on_state 0x3AC 0xFFFE 128 0x300 0x300).BLDC_State = BLDC_ON ∧
    (on_state 0x3AC 0xFFFE 128 0x300 0x300).global_uDC ≠ 0xFFFF ∧
    0x1d < 0xFFFF ∧
    (BLDC_PWMDC_Set 0xFFFF (on_state 0x3AC 0xFFFE 128 0x300 0x300)).global_uDC = 0xFFFE ∧
    (BLDC_PWMDC_Set 0xFFFF (on_state 0x3AC 0xFFFE 128 0x300 0x300)).global_uDC
      ≠ (on_state 0x3AC 0xFFFE 128 0x300 0x300).global_uDC + 1 := by
  decide

/-- C14 (amended): for every call of `BLDC_PWMDC_Set` in state On with a
16-bit commanded value `dc` above the minimum threshold `0x1d` and every
16-bit duty cycle `u`: the new duty cycle differs from `u` by at most one
unit and lies between `u` and `dc`, so it is never farther from `dc` than `u`
was; it is `u - 1` when `u > dc`, `u + 1` when `u < dc` and `u` is below the
guard `0xFFFE` of `inc_dutycycle`, and `u` when `u = dc` (or when `u` is at
the guard); the run state and the period are unchanged. -/
theorem BLDC_PWMDC_Set_tracks (dc : Nat) (d : Driver) (hOn : d.BLDC_State = BLDC_ON)
    (hdc : 0x1d < dc) (hdc16 : dc < 65536) (hu16 : d.global_uDC < 65536) :
    ((BLDC_PWMDC_Set dc d).global_uDC ≤ d.global_uDC + 1 ∧
      d.global_uDC ≤ (BLDC_PWMDC_Set dc d).global_uDC + 1) ∧
    (d.global_uDC ≤ dc →
      d.global_uDC ≤ (BLDC_PWMDC_Set dc d).global_uDC ∧ (BLDC_PWMDC_Set dc d).global_uDC ≤ dc) ∧
    (dc ≤ d.global_uDC →
      dc ≤ (BLDC_PWMDC_Set dc d).global_uDC ∧
      (BLDC_PWMDC_Set dc d).global_uDC ≤ d.global_uDC) ∧
    (d.global_uDC < dc → d.global_uDC < 0xFFFE →
      (BLDC_PWMDC_Set dc d).global_uDC = d.global_uDC + 1) ∧
    (d.global_uDC < dc → d.global_uDC = 0xFFFE →
      (BLDC_PWMDC_Set dc d).global_uDC = d.global_uDC) ∧
    (dc < d.global_uDC → (BLDC_PWMDC_Set dc d).global_uDC = d.global_uDC - 1) ∧
    (d.global_uDC = dc → (BLDC_PWMDC_Set dc d).global_uDC = d.global_uDC) ∧
    (BLDC_PWMDC_Set dc d).BLDC_State = d.BLDC_State ∧
    (BLDC_PWMDC_Set dc d).BLDC_OL_comm_tm = d.BLDC_OL_comm_tm := by
  have f := BLDC_PWMDC_Set_from dc d (by omega)
  have hgt : dc > 0x1d := hdc
  rw [f.1, f.2.1, f.2.2.1, hOn]
  simp only [hgt, and_self, if_true, reduceCtorEq, if_false]
  refine ⟨?_, ?_, ?_, ?_, ?_, ?_, ?_, trivial⟩ <;> split_ifs <;> omega

/-- Duty cycle 30, commanded `0x40`: one unit up; duty cycle `0x50`,
commanded `0x40`: one unit down. -/
theorem BLDC_PWMDC_Set_tracks_witness :
    (BLDC_PWMDC_Set 0x40 (on_state 0x3AC 30 128 0x300 0x300)).global_uDC = 31 ∧
    (BLDC_PWMDC_Set 0x40 (on_state 0x3AC 0x50 128 0x300 0x300)).global_uDC = 0x4F :=
  ⟨(BLDC_PWMDC_Set_tracks 0x40 (on_state 0x3AC 30 128 0x300 0x300) rfl (by decide) (by decide)
      (by decide)).2.2.2.1 (by decide) (by decide),
   (BLDC_PWMDC_Set_tracks 0x40 (on_state 0x3AC 0x50 128 0x300 0x300) rfl (by decide)
      (by decide) (by decide)).2.2.2.2.2.1 (by decide)⟩

/-! ## A commanded value near zero -/

/-- C15 on the code: a commanded value below the stop threshold `0x10` but
above 10 stops the motor and arms the ramp again in the same call.  With
commanded value 12 from state On, 15 from state RampUp and 11 from power-up,
`BLDC_PWMDC_Set` leaves the state RampUp (duty cycle 0), not Off; with the
commanded value 10 it leaves the state Off. -/
theorem BLDC_PWMDC_Set_near_zero_restarts :
    ((BLDC_PWMDC_Set 12 (on_state 0x3AC 30 128 0x300 0x300)).BLDC_State = BLDC_RAMPUP ∧
      (BLDC_PWMDC_Set 12 (on_state 0x3AC 30 128 0x300 0x300)).global_uDC = 0) ∧
    ((BLDC_PWMDC_Set 15 (rampup_state 0x800)).BLDC_State = BLDC_RAMPUP ∧
      (BLDC_PWMDC_Set 15 (rampup_state 0x800)).global_uDC = 0) ∧
    (BLDC_PWMDC_Set 11 power_up).BLDC_State = BLDC_RAMPUP ∧
    ((BLDC_PWMDC_Set 10 (on_state 0x3AC 30 128 0x300 0x300)).BLDC_State = BLDC_OFF ∧
      (BLDC_PWMDC_Set 10 (on_state 0x3AC 30 128 0x300 0x300)).global_uDC = 0) := by
  decide

/-! ## The duty cycle over the executions of the driver -/

/-- The duty cycle after an update, in every state. -/
theorem BLDC_Update_duty (T : List Nat) (d : Driver) :
    (BLDC_Update T d).global_uDC =
      (match d.BLDC_State with
        | BLDC_OFF => d.global_uDC
        | BLDC_ON => if 0 = (BLDC_Update T d).vsys_fault_bucket then 0 else d.global_uDC
        | BLDC_RAMPUP =>
          if d.BLDC_OL_comm_tm > BLDC_OL_TM_HI_SPD then PWM_DC_RAMPUP else PWM_DC_IDLE) := by
  rcases hs : d.BLDC_State with _ | _ | _
  · rw [BLDC_Update_off T d hs]; rfl
  · have e1 : PWM_DC_RAMPUP % 65536 = PWM_DC_RAMPUP := by decide
    have e2 : PWM_DC_IDLE % 65536 = PWM_DC_IDLE := by decide
    unfold BLDC_Update
    simp only [hs, emit_proj, set_dutycycle_proj, apply_ite Driver.global_uDC, e1, e2]
  · exact (BLDC_Update_on_fields T d hs).2.2.2.1

/-- Every entry point preserves the invariant of the duty cycle. -/
theorem Event_apply_duty_invariant (T : List Nat) (e : Event) (d : Driver)
    (h : duty_invariant d) : duty_invariant (Event.apply T e d) := by
  obtain ⟨hoff, hle⟩ := h
  unfold duty_invariant
  cases e with
  | Adc sample => exact ⟨hoff, hle⟩
  | Step =>
    show ((BLDC_Step d).BLDC_State = BLDC_OFF → (BLDC_Step d).global_uDC = 0) ∧
      (BLDC_Step d).global_uDC ≤ 0xFFFE
    rw [(BLDC_Step_keeps d).1, (BLDC_Step_keeps d).2.1]
    exact ⟨hoff, hle⟩
  | Update =>
    show ((BLDC_Update T d).BLDC_State = BLDC_OFF → (BLDC_Update T d).global_uDC = 0) ∧
      (BLDC_Update T d).global_uDC ≤ 0xFFFE
    rw [BLDC_Update_state T d, BLDC_Update_duty T d]
    rcases hs : d.BLDC_State with _ | _ | _
    · exact ⟨fun _ => hoff hs, hle⟩
    · have e1 : PWM_DC_RAMPUP ≤ 0xFFFE := by decide
      have e2 : PWM_DC_IDLE ≤ 0xFFFE := by decide
      constructor
      · intro hc
        split_ifs at hc
      · show (if d.BLDC_OL_comm_tm > BLDC_OL_TM_HI_SPD then PWM_DC_RAMPUP else PWM_DC_IDLE)
          ≤ 0xFFFE
        split_ifs <;> assumption
    · constructor
      · intro hc; cases hc
      · show (if 0 = (BLDC_Update T d).vsys_fault_bucket then 0 else d.global_uDC) ≤ 0xFFFE
        split_ifs <;> omega
  | Stop =>
    show ((BLDC_Stop d).BLDC_State = BLDC_OFF → (BLDC_Stop d).global_uDC = 0) ∧
      (BLDC_Stop d).global_uDC ≤ 0xFFFE
    rw [(BLDC_Stop_fields d).2.1]
    exact ⟨fun _ => rfl, by decide⟩
  | PWMDC_Plus =>
    have f := BLDC_PWMDC_Plus_fields d
    show ((BLDC_PWMDC_Plus d).1.BLDC_State = BLDC_OFF → (BLDC_PWMDC_Plus d).1.global_uDC = 0) ∧
      (BLDC_PWMDC_Plus d).1.global_uDC ≤ 0xFFFE
    rw [f.1, f.2.1]
    rcases hs : d.BLDC_State with _ | _ | _
    · simp only [if_true]
      exact ⟨(fun hc => nomatch hc), hle⟩
    · simp only [reduceCtorEq, if_false]
      exact ⟨(fun hc => nomatch hc), hle⟩
    · simp only [reduceCtorEq, if_false, if_true]
      refine ⟨(fun hc => nomatch hc), ?_⟩
      split_ifs <;> omega
  | PWMDC_Minus =>
    have f := BLDC_PWMDC_Minus_fields d
    show ((BLDC_PWMDC_Minus d).1.BLDC_State = BLDC_OFF →
        (BLDC_PWMDC_Minus d).1.global_uDC = 0) ∧
      (BLDC_PWMDC_Minus d).1.global_uDC ≤ 0xFFFE
    rw [f.1, f.2.1]
    rcases hs : d.BLDC_State with _ | _ | _
    · simp only [if_true]
      exact ⟨(fun hc => nomatch hc), hle⟩
    · simp only [reduceCtorEq, if_false]
      exact ⟨(fun hc => nomatch hc), hle⟩
    · simp only [reduceCtorEq, if_false, if_true]
      refine ⟨(fun hc => nomatch hc), ?_⟩
      split_ifs <;> omega
  | PWMDC_Set dc =>
    show ((BLDC_PWMDC_Set (dc % 65536) d).BLDC_State = BLDC_OFF →
        (BLDC_PWMDC_Set (dc % 65536) d).global_uDC = 0) ∧
      (BLDC_PWMDC_Set (dc % 65536) d).global_uDC ≤ 0xFFFE
    by_cases hlow : dc % 65536 < 0x10
    · have f := BLDC_PWMDC_Set_below (dc % 65536) d hlow
      rw [f.2.1]
      exact ⟨fun _ => rfl, by decide⟩
    · have f := BLDC_PWMDC_Set_from (dc % 65536) d (by omega)
      rw [f.1, f.2.1]
      rcases hs : d.BLDC_State with _ | _ | _
      · simp only [if_true, reduceCtorEq, false_and, if_false]
        exact ⟨(fun hc => nomatch hc), hle⟩
      · simp only [reduceCtorEq, false_and, if_false]
        exact ⟨(fun hc => nomatch hc), hle⟩
      · simp only [reduceCtorEq, if_false, true_and]
        refine ⟨(fun hc => nomatch hc), ?_⟩
        split_ifs <;> omega
  | Spd_dec =>
    have f := BLDC_Spd_fields d
    show ((BLDC_Spd_dec d).BLDC_State = BLDC_OFF → (BLDC_Spd_dec d).global_uDC = 0) ∧
      (BLDC_Spd_dec d).global_uDC ≤ 0xFFFE
    rw [f.1, f.2.1]
    refine ⟨fun hc => ?_, hle⟩
    split_ifs at hc with h1
    exact absurd hc.symm h1
  | Spd_inc =>
    have f := BLDC_Spd_fields d
    show ((BLDC_Spd_inc d).BLDC_State = BLDC_OFF → (BLDC_Spd_inc d).global_uDC = 0) ∧
      (BLDC_Spd_inc d).global_uDC ≤ 0xFFFE
    rw [f.2.2.1, f.2.2.2]
    refine ⟨fun hc => ?_, hle⟩
    split_ifs at hc with h1
    exact absurd hc.symm h1

/-- The invariant of the duty cycle holds along every execution. -/
theorem run_duty_invariant (T : List Nat) (es : List Event) (d : Driver)
    (h : duty_invariant d) : duty_invariant (run T es d) := by
  induction es generalizing d with
  | nil => exact h
  | cons e es ih =>
    rw [run_cons]
    exact ih (Event.apply T e d) (Event_apply_duty_invariant T e d h)

/-- The invariant of the duty cycle holds in every state reachable from
power-up. -/
theorem reachable_duty_invariant (T : List Nat) (es : List Event) :
    duty_invariant (run T es power_up) :=
  run_duty_invariant T es power_up ⟨fun _ => rfl, by decide⟩

/-! ## Start commands in state Off -/

/-- C16: in state Off each start command moves the run state to RampUp and
changes neither the duty cycle nor the period: `BLDC_Spd_inc`,
`BLDC_Spd_dec`, `BLDC_PWMDC_Plus` and `BLDC_PWMDC_Minus` (the latter two
returning 0), and `BLDC_PWMDC_Set` with a commanded value above 10;
`BLDC_PWMDC_Set` with a commanded value of 10 or less leaves the state Off.
(For a commanded value in `11 .. 15` the command goes through `BLDC_Stop`,
which writes a duty cycle of 0: that is the value the duty cycle has in every
Off state reachable from power-up.) -/
theorem start_commands_in_off (T : List Nat) (d : Driver) (hOff : d.BLDC_State = BLDC_OFF) :
    ((BLDC_Spd_inc d).BLDC_State = BLDC_RAMPUP ∧
      (BLDC_Spd_inc d).global_uDC = d.global_uDC ∧
      (BLDC_Spd_inc d).BLDC_OL_comm_tm = d.BLDC_OL_comm_tm) ∧
    ((BLDC_Spd_dec d).BLDC_State = BLDC_RAMPUP ∧
      (BLDC_Spd_dec d).global_uDC = d.global_uDC ∧
      (BLDC_Spd_dec d).BLDC_OL_comm_tm = d.BLDC_OL_comm_tm) ∧
    ((BLDC_PWMDC_Plus d).1.BLDC_State = BLDC_RAMPUP ∧
      (BLDC_PWMDC_Plus d).1.global_uDC = d.global_uDC ∧
      (BLDC_PWMDC_Plus d).1.BLDC_OL_comm_tm = d.BLDC_OL_comm_tm ∧
      (BLDC_PWMDC_Plus d).2 = 0) ∧
    ((BLDC_PWMDC_Minus d).1.BLDC_State = BLDC_RAMPUP ∧
      (BLDC_PWMDC_Minus d).1.global_uDC = d.global_uDC ∧
      (BLDC_PWMDC_Minus d).1.BLDC_OL_comm_tm = d.BLDC_OL_comm_tm ∧
      (BLDC_PWMDC_Minus d).2 = 0) ∧
    (∀ dc : Nat, 10 < dc →
      (BLDC_PWMDC_Set dc d).BLDC_State = BLDC_RAMPUP ∧
      (BLDC_PWMDC_Set dc d).BLDC_OL_comm_tm = d.BLDC_OL_comm_tm ∧
      (0x10 ≤ dc → (BLDC_PWMDC_Set dc d).global_uDC = d.global_uDC) ∧
      (d.global_uDC = 0 → (BLDC_PWMDC_Set dc d).global_uDC = d.global_uDC)) ∧
    (∀ dc : Nat, dc ≤ 10 → (BLDC_PWMDC_Set dc d).BLDC_State = BLDC_OFF) ∧
    (∀ es : List Event, run T es power_up = d → d.global_uDC = 0) := by
  have fs := BLDC_Spd_fields d
  have fp := BLDC_Spd_off_period d hOff
  have fplus := BLDC_PWMDC_Plus_fields d
  have fminus := BLDC_PWMDC_Minus_fields d
  rw [hOff] at fs fplus fminus
  simp only [if_true] at fs fplus fminus
  refine ⟨⟨fs.2.2.1, fs.2.2.2, fp.2⟩, ⟨fs.1, fs.2.1, fp.1⟩,
    ⟨fplus.1, fplus.2.1, fplus.2.2.1, fplus.2.2.2.2⟩,
    ⟨fminus.1, fminus.2.1, fminus.2.2.1, fminus.2.2.2.2⟩, ?_, ?_, ?_⟩
  · intro dc hdc
    by_cases hlow : dc < 0x10
    · have f := BLDC_PWMDC_Set_below dc d hlow
      have hgt : dc > 10 := hdc
      rw [f.1, f.2.1, f.2.2, if_pos hgt]
      exact ⟨rfl, rfl, fun h => absurd h (by omega), fun h => h.symm⟩
    · have f := BLDC_PWMDC_Set_from dc d (by omega)
      rw [f.1, f.2.1, f.2.2.1, hOff]
      simp only [if_true, reduceCtorEq, false_and, if_false, implies_true, and_self]
  · intro dc hdc
    have f := BLDC_PWMDC_Set_below dc d (by omega)
    rw [f.1, if_neg (by omega)]
  · intro es hes
    have h := reachable_duty_invariant T es
    rw [hes] at h
    exact h.1 hOff

/-- At power-up every start command arms the ramp; a commanded value of 10
does not. -/
theorem start_commands_in_off_witness :
    (BLDC_Spd_inc power_up).BLDC_State = BLDC_RAMPUP ∧
    (BLDC_PWMDC_Plus power_up).1.BLDC_State = BLDC_RAMPUP ∧
    (BLDC_PWMDC_Set 11 power_up).BLDC_State = BLDC_RAMPUP ∧
    (BLDC_PWMDC_Set 10 power_up).BLDC_State = BLDC_OFF :=
  ⟨(start_commands_in_off OL_Timing_old power_up rfl).1.1,
   (start_commands_in_off OL_Timing_old power_up rfl).2.2.1.1,
   ((start_commands_in_off OL_Timing_old power_up rfl).2.2.2.2.1 11 (by decide)).1,
   (start_commands_in_off OL_Timing_old power_up rfl).2.2.2.2.2.1 10 (by decide)⟩

/-! ## The bounds of the duty-cycle helpers -/

/-- The duty-cycle helpers on a duty cycle in `[0, 0xFFFE]`: the result stays
in the interval, `inc` adds exactly 1 below the guard and is the identity at
the guard, `dec` subtracts exactly 1 above 0 and is the identity at 0. -/
theorem inc_dec_dutycycle_saturate (d : Driver) (h : d.global_uDC ≤ 0xFFFE) :
    (inc_dutycycle d).global_uDC ≤ 0xFFFE ∧
    (dec_dutycycle d).global_uDC ≤ 0xFFFE ∧
    (d.global_uDC ≤ (inc_dutycycle d).global_uDC ∧
      (dec_dutycycle d).global_uDC ≤ d.global_uDC) ∧
    (d.global_uDC < 0xFFFE → (inc_dutycycle d).global_uDC = d.global_uDC + 1) ∧
    (d.global_uDC = 0xFFFE → inc_dutycycle d = d) ∧
    (0 < d.global_uDC → (dec_dutycycle d).global_uDC = d.global_uDC - 1) ∧
    (d.global_uDC = 0 → dec_dutycycle d = d) ∧
    (d.global_uDC = 0xFFFE → inc_dutycycle (inc_dutycycle d) = inc_dutycycle d) ∧
    (d.global_uDC = 0 → dec_dutycycle (dec_dutycycle d) = dec_dutycycle d) := by
  have hi : (inc_dutycycle d).global_uDC
      = (if d.global_uDC < 0xFFFE then (d.global_uDC + 1) % 65536 else d.global_uDC) := by
    simp only [inc_dutycycle_proj]
  have hd : (dec_dutycycle d).global_uDC
      = (if d.global_uDC > 0 then (d.global_uDC + 65536 - 1) % 65536 else d.global_uDC) := by
    simp only [dec_dutycycle_proj]
  have hie : d.global_uDC = 0xFFFE → inc_dutycycle d = d := by
    intro h1
    unfold inc_dutycycle
    rw [if_neg (by omega)]
  have hde : d.global_uDC = 0 → dec_dutycycle d = d := by
    intro h1
    unfold dec_dutycycle
    rw [if_neg (by omega)]
  refine ⟨?_, ?_, ⟨?_, ?_⟩, ?_, hie, ?_, hde, ?_, ?_⟩
  · rw [hi]; split_ifs <;> omega
  · rw [hd]; split_ifs <;> omega
  · rw [hi]; split_ifs <;> omega
  · rw [hd]; split_ifs <;> omega
  · intro h1; rw [hi, if_pos h1]; omega
  · intro h1; rw [hd, if_pos h1]; omega
  · intro h1; rw [hie h1, hie h1]
  · intro h1; rw [hde h1, hde h1]

/-! ## The duty cycle and the PWM period -/

theorem run_append (T : List Nat) (es fs : List Event) (d : Driver) :
    run T (es ++ fs) d = run T fs (run T es d) := by
  simp only [run, List.foldl_append]

/-- No update writes the battery-voltage estimate. -/
theorem BLDC_Update_Vbatt (T : List Nat) (d : Driver) :
    (BLDC_Update T d).Vbatt = d.Vbatt := by
  rcases hs : d.BLDC_State with _ | _ | _
  · rw [BLDC_Update_off T d hs]; rfl
  · unfold BLDC_Update
    simp only [hs, emit_proj, set_dutycycle_proj, apply_ite Driver.Vbatt, ite_self]
  · exact (BLDC_Update_on_fields T d hs).2.2.2.2.1

/-- A run of updates with no sampler tick in between is a run of updates that
all find the battery-voltage estimate where it was. -/
theorem run_updates_eq (T : List Nat) (n : Nat) (d : Driver) (hv : d.Vbatt < 65536) :
    run T (List.replicate n Event.Update) d
      = BLDC_Update_run T (List.replicate n d.Vbatt) d := by
  induction n generalizing d with
  | zero => rfl
  | succ n ih =>
    have e : ({ d with Vbatt := d.Vbatt % 65536 } : Driver) = d := by
      rw [Nat.mod_eq_of_lt hv]
    have hv' : (BLDC_Update T d).Vbatt < 65536 := by rw [BLDC_Update_Vbatt]; exact hv
    rw [List.replicate_succ, List.replicate_succ, run_cons, BLDC_Update_run_cons, e]
    show run T (List.replicate n Event.Update) (BLDC_Update T d) = _
    rw [ih (BLDC_Update T d) hv', BLDC_Update_Vbatt]

/-- From Off: an Off update, the start command and 1569 updates leave the
state On with the idle duty cycle. -/
theorem BLDC_Update_run_ramp_to_on (T : List Nat) (d : Driver) (hOff : d.BLDC_State = BLDC_OFF)
    (vs : List Nat) (v : Nat) (hlen : vs.length = 1568) :
    (BLDC_Update_run T (vs ++ [v]) (BLDC_Spd_inc (BLDC_Update T d))).BLDC_State = BLDC_ON ∧
    (BLDC_Update_run T (vs ++ [v]) (BLDC_Spd_inc (BLDC_Update T d))).global_uDC
      = PWM_DC_IDLE := by
  have h1 := BLDC_Spd_inc_after_off_update T d hOff
  have key := BLDC_Update_run_rampup T vs (BLDC_Spd_inc (BLDC_Update T d)) h1.1
    (by rw [h1.2]; decide)
    (by rw [h1.2, hlen]; decide)
  rw [h1.2, hlen] at key
  have hP : (BLDC_Update_run T vs (BLDC_Spd_inc (BLDC_Update T d))).BLDC_OL_comm_tm
      = BLDC_OL_TM_HI_SPD := by rw [key.2.1]; decide
  have hdone := BLDC_Update_rampup_done T
    { BLDC_Update_run T vs (BLDC_Spd_inc (BLDC_Update T d)) with Vbatt := v % 65536 }
    key.1 (le_of_eq hP)
  constructor
  · rw [BLDC_Update_run_append, BLDC_Update_run_single, hdone]
    rfl
  · rw [BLDC_Update_run_append, BLDC_Update_run_single, hdone]
    rfl

/-- In state On, `n` duty-plus commands add `n` to the duty cycle as long as
the guard of `inc_dutycycle` is not reached. -/
theorem run_plus_on (T : List Nat) (n : Nat) (d : Driver) (hOn : d.BLDC_State = BLDC_ON)
    (h : d.global_uDC + n ≤ 0xFFFE) :
    (run T (List.replicate n Event.PWMDC_Plus) d).BLDC_State = BLDC_ON ∧
    (run T (List.replicate n Event.PWMDC_Plus) d).global_uDC = d.global_uDC + n := by
  induction n generalizing d with
  | zero => exact ⟨hOn, rfl⟩
  | succ n ih =>
    have f := BLDC_PWMDC_Plus_fields d
    rw [hOn] at f
    simp only [reduceCtorEq, if_false, if_true] at f
    have hlt : d.global_uDC < 0xFFFE := by omega
    rw [if_pos hlt, Nat.mod_eq_of_lt (by omega)] at f
    rw [List.replicate_succ, run_cons]
    have key := ih (BLDC_PWMDC_Plus d).1 f.1 (by rw [f.2.1]; omega)
    show (run T (List.replicate n Event.PWMDC_Plus) (BLDC_PWMDC_Plus d).1).BLDC_State = BLDC_ON ∧
      (run T (List.replicate n Event.PWMDC_Plus) (BLDC_PWMDC_Plus d).1).global_uDC
        = d.global_uDC + (n + 1)
    rw [key.1, key.2, f.2.1]
    exact ⟨rfl, by omega⟩

/-- C18, as stated, fails on the code: from power-up, an Off update, the
start command, the 1569 updates of the ramp and 221 duty-plus commands leave
the duty cycle at 251, above the PWM period of 250 counts. -/
theorem duty_exceeds_pwm_period_counterexample :
    (run OL_Timing_old (start_then_plus 221) power_up).BLDC_State = BLDC_ON ∧
    (run OL_Timing_old (start_then_plus 221) power_up).global_uDC = 251 ∧
    TIM2_PWM_PD < (run OL_Timing_old (start_then_plus 221) power_up).global_uDC := by
  have e0 : run OL_Timing_old [Event.Update, Event.Spd_inc] power_up
      = BLDC_Spd_inc (BLDC_Update OL_Timing_old power_up) := rfl
  have hv : (BLDC_Spd_inc (BLDC_Update OL_Timing_old power_up)).Vbatt < 65536 := by decide
  have e1 := run_updates_eq OL_Timing_old 1569
    (BLDC_Spd_inc (BLDC_Update OL_Timing_old power_up)) hv
  have er : List.replicate 1569 (BLDC_Spd_inc (BLDC_Update OL_Timing_old power_up)).Vbatt
      = List.replicate 1568 (BLDC_Spd_inc (BLDC_Update OL_Timing_old power_up)).Vbatt
        ++ [(BLDC_Spd_inc (BLDC_Update OL_Timing_old power_up)).Vbatt] :=
    List.replicate_succ' 1568 _
  have hon := BLDC_Update_run_ramp_to_on OL_Timing_old power_up rfl
    (List.replicate 1568 (BLDC_Spd_inc (BLDC_Update OL_Timing_old power_up)).Vbatt)
    (BLDC_Spd_inc (BLDC_Update OL_Timing_old power_up)).Vbatt (List.length_replicate _ _)
  rw [← er, ← e1] at hon
  have hplus := run_plus_on OL_Timing_old 221
    (run OL_Timing_old (List.replicate 1569 Event.Update)
      (BLDC_Spd_inc (BLDC_Update OL_Timing_old power_up))) hon.1
    (by rw [hon.2]; decide)
  rw [hon.2] at hplus
  have e : run OL_Timing_old (start_then_plus 221) power_up
      = run OL_Timing_old (List.replicate 221 Event.PWMDC_Plus)
          (run OL_Timing_old (List.replicate 1569 Event.Update)
            (BLDC_Spd_inc (BLDC_Update OL_Timing_old power_up))) := by
    unfold start_then_plus
    rw [run_append, run_append, e0]
  rw [e, hplus.1, hplus.2]
  decide

/-- C18 (amended): in every state reachable from power-up through the public
control surface and the two interrupt handlers, the duty cycle lies in
`0 .. 0xFFFE`, the rollover guard of `inc_dutycycle`; the driver does not
bound it by the PWM period. -/
theorem duty_cycle_reachable_bound (T : List Nat) (es : List Event) :
    0 ≤ (run T es power_up).global_uDC ∧ (run T es power_up).global_uDC ≤ 0xFFFE :=
  ⟨Nat.zero_le _, (reachable_duty_invariant T es).2⟩

/-! ## The end of the ramp -/

/-- C21: an update in state RampUp with the period at or below the high-speed
threshold `0x03C0` makes the state On, sets the system voltage to the latest
battery-voltage estimate, clears the manual-mode flag, sets the duty cycle to
the idle duty value, and leaves the period and the fault bucket unchanged. -/
theorem BLDC_Update_rampup_to_on (T : List Nat) (d : Driver)
    (h : d.BLDC_State = BLDC_RAMPUP) (hP : d.BLDC_OL_comm_tm ≤ BLDC_OL_TM_HI_SPD) :
    (BLDC_Update T d).BLDC_State = BLDC_ON ∧
    (BLDC_Update T d).Vsystem = d.Vbatt ∧
    (BLDC_Update T d).Manual_Mode = 0 ∧
    (BLDC_Update T d).global_uDC = PWM_DC_IDLE ∧
    (BLDC_Update T d).BLDC_OL_comm_tm = d.BLDC_OL_comm_tm ∧
    (BLDC_Update T d).vsys_fault_bucket = d.vsys_fault_bucket := by
  rw [BLDC_Update_rampup_done T d h hP]
  exact ⟨rfl, rfl, rfl, rfl, rfl, rfl⟩

/-- At the threshold, with the battery estimate `0x300` and the manual-mode
flag set: the state becomes On, the system voltage `0x300`, the flag 0 and
the duty cycle 30. -/
theorem BLDC_Update_rampup_to_on_witness :
    (BLDC_Update OL_Timing_old
      { rampup_state 0x03C0 with Vbatt := 0x300, Manual_Mode := 1 }).BLDC_State = BLDC_ON ∧
    (BLDC_Update OL_Timing_old
      { rampup_state 0x03C0 with Vbatt := 0x300, Manual_Mode := 1 }).Vsystem = 0x300 ∧
    (BLDC_Update OL_Timing_old
      { rampup_state 0x03C0 with Vbatt := 0x300, Manual_Mode := 1 }).Manual_Mode = 0 ∧
    (BLDC_Update OL_Timing_old
      { rampup_state 0x03C0 with Vbatt := 0x300, Manual_Mode := 1 }).global_uDC = 30 :=
  ⟨(BLDC_Update_rampup_to_on OL_Timing_old
      { rampup_state 0x03C0 with Vbatt := 0x300, Manual_Mode := 1 } rfl (by decide)).1,
   (BLDC_Update_rampup_to_on OL_Timing_old
      { rampup_state 0x03C0 with Vbatt := 0x300, Manual_Mode := 1 } rfl (by decide)).2.1,
   (BLDC_Update_rampup_to_on OL_Timing_old
      { rampup_state 0x03C0 with Vbatt := 0x300, Manual_Mode := 1 } rfl (by decide)).2.2.1,
   (BLDC_Update_rampup_to_on OL_Timing_old
      { rampup_state 0x03C0 with Vbatt := 0x300, Manual_Mode := 1 } rfl
      (by decide)).2.2.2.1.trans (by decide)⟩

/-! ## The correction is skipped -/

/-- When the manual-mode flag is set or the duty cycle is outside the table,
the timing correction writes nothing. -/
theorem timing_correction_skip (T : List Nat) (d : Driver)
    (h : d.Manual_Mode ≠ 0 ∨ OL_TIMING_TBL_SIZE T ≤ d.global_uDC) :
    timing_correction T d = d := by
  have hc : ¬ (0 = d.Manual_Mode ∧ d.global_uDC < OL_TIMING_TBL_SIZE T) := by
    rintro ⟨h1, h2⟩
    rcases h with h | h
    · exact h h1.symm
    · omega
  unfold timing_correction
  rw [if_neg hc]

/-- An update in state On whose table test fails (the manual-mode flag is set,
or the duty cycle the update tests, the one its fault check leaves, is at or
beyond the size of the timing table): `Table_value` and the period are not
written and the timer is re-armed with the retained period. -/
theorem BLDC_Update_on_skip (T : List Nat) (d : Driver) (hOn : d.BLDC_State = BLDC_ON)
    (h : d.Manual_Mode ≠ 0 ∨ OL_TIMING_TBL_SIZE T ≤ (fault_check d).global_uDC) :
    (BLDC_Update T d).BLDC_OL_comm_tm = d.BLDC_OL_comm_tm ∧
    (BLDC_Update T d).Table_value = d.Table_value ∧
    (BLDC_Update T d).hw = d.hw ++ [HwOp.TIM3_setup d.BLDC_OL_comm_tm] ∧
    (BLDC_Update T d).global_uDC = (fault_check d).global_uDC ∧
    ((BLDC_Update T d).vsys_fault_bucket ≠ 0 → (fault_check d).global_uDC = d.global_uDC) := by
  have hfM : (fault_check d).Manual_Mode = d.Manual_Mode := by simp only [fault_check_proj]
  have hfP : (fault_check d).BLDC_OL_comm_tm = d.BLDC_OL_comm_tm := by
    simp only [fault_check_proj]
  have hfT : (fault_check d).Table_value = d.Table_value := by simp only [fault_check_proj]
  have hfh : (fault_check d).hw = d.hw := by simp only [fault_check_proj]
  have hskip := timing_correction_skip T (fault_check d) (by rw [hfM]; exact h)
  have f := BLDC_Update_on_fields T d hOn
  have e := BLDC_Update_on T d hOn
  rw [hskip] at e
  refine ⟨?_, ?_, ?_, f.2.2.2.2.2.2.2, ?_⟩
  · rw [e]; exact hfP
  · rw [e]; exact hfT
  · rw [e]
    show (fault_check d).hw ++ [HwOp.TIM3_setup (fault_check d).BLDC_OL_comm_tm] = _
    rw [hfh, hfP]
  · intro hb
    rw [← f.2.2.2.2.2.2.2, f.2.2.2.1, if_neg (fun e0 => hb e0.symm)]

/-! ## The period at the start of a ramp -/

/-- C23 on the code: the period is reset to the low-speed value only by an
update that runs in state Off, not on entering Off.  A start command issued
at power-up before any update leaves the state RampUp with the period 0, and
the first RampUp update goes straight to On.  After an Off update, a start,
two ramp updates, a stop and a start with no update in between, the ramp
begins with the period `0x0FFC`; and a commanded duty of 12 in state On
(stop and start in one call) leaves the state RampUp with the running period
`0x3AC`. -/
theorem ramp_start_period_not_reset :
    ((run OL_Timing_old [Event.Spd_inc] power_up).BLDC_State = BLDC_RAMPUP ∧
      (run OL_Timing_old [Event.Spd_inc] power_up).BLDC_OL_comm_tm = 0 ∧
      (run OL_Timing_old [Event.Spd_inc, Event.Update] power_up).BLDC_State = BLDC_ON) ∧
    ((run OL_Timing_old [Event.Update, Event.Spd_inc, Event.Update, Event.Update]
        power_up).BLDC_State = BLDC_RAMPUP ∧
      (run OL_Timing_old [Event.Update, Event.Spd_inc, Event.Update, Event.Update, Event.Stop]
        power_up).BLDC_State = BLDC_OFF ∧
      (run OL_Timing_old
        [Event.Update, Event.Spd_inc, Event.Update, Event.Update, Event.Stop, Event.Spd_inc]
        power_up).BLDC_State = BLDC_RAMPUP ∧
      (run OL_Timing_old
        [Event.Update, Event.Spd_inc, Event.Update, Event.Update, Event.Stop, Event.Spd_inc]
        power_up).BLDC_OL_comm_tm = 0x0FFC) ∧
    ((run OL_Timing_old [Event.PWMDC_Set 12]
        (on_state 0x3AC 30 128 0x300 0x300)).BLDC_State = BLDC_RAMPUP ∧
      (run OL_Timing_old [Event.PWMDC_Set 12]
        (on_state 0x3AC 30 128 0x300 0x300)).BLDC_OL_comm_tm = 0x3AC) := by
  decide

/-! ## What the switching sequence does to each phase -/

/-- The kinds of the calls of `comm_switch` do not depend on the duty cycle. -/
theorem comm_switch_ops_kinds (prev next : BLDC_COMM_STEP_t) (u : Nat) :
    (comm_switch_ops prev next u).map op_kind = (comm_switch_ops prev next 0).map op_kind := by
  simp only [comm_switch_ops, List.map_append, apply_ite (List.map op_kind),
    List.map_cons, List.map_nil, op_kind]

/-- Every PWM enable of `comm_switch` carries the current duty cycle. -/
theorem comm_switch_ops_duty (prev next : BLDC_COMM_STEP_t) (u : Nat) :
    (comm_switch_ops prev next u).all (op_duty_ok u) = true := by
  simp only [comm_switch_ops, List.all_append, apply_ite (fun l => List.all l (op_duty_ok u)),
    List.all_cons, List.all_nil, op_duty_ok, beq_self_eq_true, Bool.and_self, ite_self]

/-- The calls of `comm_switch` are what the call adds to the trace. -/
theorem comm_switch_emitted (t : Nat) (d : Driver) :
    emitted d (comm_switch t d)
      = comm_switch_ops (Commutation_Steps_at d.prev_bldc_step) (Commutation_Steps_at t)
          d.global_uDC := by
  unfold emitted
  simp only [comm_switch_proj, List.drop_left]

theorem op_count_comm_switch_ops (k : OpKind) (X : Phase) (prev next : BLDC_COMM_STEP_t)
    (u : Nat) :
    op_count k X (comm_switch_ops prev next u) = op_count k X (comm_switch_ops prev next 0) := by
  unfold op_count
  rw [comm_switch_ops_kinds]

/-- The calls of `comm_switch` on each phase, for every pair of sectors of the
table: a PWM disable exactly on a phase that was driven high and floats now, a
half-bridge deassert exactly on the phase that floats now, an output-low
exactly on the phase driven low now, a PWM enable exactly on the phase driven
high now, a half-bridge enable exactly on the two driven phases. -/
theorem comm_switch_counts_table :
    ∀ p < 6, ∀ t < 6, ∀ X ∈ [Phase.A, Phase.B, Phase.C],
      op_count OpKind.pwm_disable X
          (comm_switch_ops (Commutation_Steps_at p) (Commutation_Steps_at t) 0)
        = (if phase_state (Commutation_Steps_at p) X = DC_OUTP_HI ∧
              is_floating (phase_state (Commutation_Steps_at t) X) = true then 1 else 0) ∧
      op_count OpKind.hb_deassert X
          (comm_switch_ops (Commutation_Steps_at p) (Commutation_Steps_at t) 0)
        = (if is_floating (phase_state (Commutation_Steps_at t) X) = true then 1 else 0) ∧
      op_count OpKind.outp_lo X
          (comm_switch_ops (Commutation_Steps_at p) (Commutation_Steps_at t) 0)
        = (if phase_state (Commutation_Steps_at t) X = DC_OUTP_LO then 1 else 0) ∧
      op_count OpKind.pwm_enable X
          (comm_switch_ops (Commutation_Steps_at p) (Commutation_Steps_at t) 0)
        = (if phase_state (Commutation_Steps_at t) X = DC_OUTP_HI then 1 else 0) ∧
      op_count OpKind.hb_enable X
          (comm_switch_ops (Commutation_Steps_at p) (Commutation_Steps_at t) 0)
        = (if phase_state (Commutation_Steps_at t) X = DC_OUTP_LO ∨
              phase_state (Commutation_Steps_at t) X = DC_OUTP_HI then 1 else 0) := by
  decide

/-- For every pair of sectors of the table `comm_switch` makes exactly one
half-bridge deassert, one output-low and one PWM enable. -/
theorem comm_switch_totals_table :
    ∀ p < 6, ∀ t < 6,
      kind_count OpKind.hb_deassert
          (comm_switch_ops (Commutation_Steps_at p) (Commutation_Steps_at t) 0) = 1 ∧
      kind_count OpKind.outp_lo
          (comm_switch_ops (Commutation_Steps_at p) (Commutation_Steps_at t) 0) = 1 ∧
      kind_count OpKind.pwm_enable
          (comm_switch_ops (Commutation_Steps_at p) (Commutation_Steps_at t) 0) = 1 := by
  decide

theorem Phase_mem_all (X : Phase) : X ∈ [Phase.A, Phase.B, Phase.C] := by
  cases X <;> decide

theorem kind_count_comm_switch_ops (k : OpKind) (prev next : BLDC_COMM_STEP_t) (u : Nat) :
    kind_count k (comm_switch_ops prev next u) = kind_count k (comm_switch_ops prev next 0) := by
  unfold kind_count
  rw [op_count_comm_switch_ops k Phase.A, op_count_comm_switch_ops k Phase.B,
    op_count_comm_switch_ops k Phase.C]

/-- C24: for every previous sector `p` and target sector `t` in 0..5 and every
phase `X`, `comm_switch(t)` (a) disables the PWM channel of `X` if and only
if `X` was driven high in `p` and floats in `t`; (b) deasserts the
half-bridge enable of exactly one phase, the phase floating in `t`; (c)
asserts output-low on exactly the phase driven low in `t`; (d) enables PWM,
with the current duty cycle, on exactly the phase driven high in `t`; it
enables the half-bridge on exactly these two driven phases; and afterwards
the remembered previous sector is `t` and the duty cycle is unchanged. -/
theorem comm_switch_effect (p t : Nat) (hp : p < 6) (ht : t < 6) (d : Driver)
    (hprev : d.prev_bldc_step = p) (X : Phase) :
    op_count OpKind.pwm_disable X (emitted d (comm_switch t d))
      = (if phase_state (Commutation_Steps_at p) X = DC_OUTP_HI ∧
            is_floating (phase_state (Commutation_Steps_at t) X) = true then 1 else 0) ∧
    (op_count OpKind.hb_deassert X (emitted d (comm_switch t d))
        = (if is_floating (phase_state (Commutation_Steps_at t) X) = true then 1 else 0) ∧
      kind_count OpKind.hb_deassert (emitted d (comm_switch t d)) = 1) ∧
    (op_count OpKind.outp_lo X (emitted d (comm_switch t d))
        = (if phase_state (Commutation_Steps_at t) X = DC_OUTP_LO then 1 else 0) ∧
      kind_count OpKind.outp_lo (emitted d (comm_switch t d)) = 1) ∧
    (op_count OpKind.pwm_enable X (emitted d (comm_switch t d))
        = (if phase_state (Commutation_Steps_at t) X = DC_OUTP_HI then 1 else 0) ∧
      kind_count OpKind.pwm_enable (emitted d (comm_switch t d)) = 1 ∧
      (emitted d (comm_switch t d)).all (op_duty_ok d.global_uDC) = true) ∧
    op_count OpKind.hb_enable X (emitted d (comm_switch t d))
      = (if phase_state (Commutation_Steps_at t) X = DC_OUTP_LO ∨
            phase_state (Commutation_Steps_at t) X = DC_OUTP_HI then 1 else 0) ∧
    (comm_switch t d).prev_bldc_step = t ∧
    (comm_switch t d).global_uDC = d.global_uDC := by
  have hc := comm_switch_counts_table p hp t ht X (Phase_mem_all X)
  have ht3 := comm_switch_totals_table p hp t ht
  rw [comm_switch_emitted, hprev]
  simp only [op_count_comm_switch_ops _ _ _ _ d.global_uDC,
    kind_count_comm_switch_ops _ _ _ d.global_uDC]
  exact ⟨hc.1, ⟨hc.2.1, ht3.1⟩, ⟨hc.2.2.1, ht3.2.1⟩,
    ⟨hc.2.2.2.1, ht3.2.2, comm_switch_ops_duty _ _ _⟩, hc.2.2.2.2, rfl, rfl⟩

/-- From sector 1 to sector 2 with duty cycle 30: phase A was driven high and
floats now, so its PWM channel is disabled once and its half-bridge is
deasserted; the remembered sector becomes 2. -/
theorem comm_switch_effect_witness :
    op_count OpKind.pwm_disable Phase.A
      (emitted (switching_state 1 30) (comm_switch 2 (switching_state 1 30))) = 1 ∧
    op_count OpKind.hb_deassert Phase.A
      (emitted (switching_state 1 30) (comm_switch 2 (switching_state 1 30))) = 1 ∧
    (comm_switch 2 (switching_state 1 30)).prev_bldc_step = 2 :=
  ⟨(comm_switch_effect 1 2 (by decide) (by decide) (switching_state 1 30) rfl Phase.A).1.trans
      (by decide),
   (comm_switch_effect 1 2 (by decide) (by decide) (switching_state 1 30) rfl
      Phase.A).2.1.1.trans (by decide),
   (comm_switch_effect 1 2 (by decide) (by decide) (switching_state 1 30) rfl
      Phase.A).2.2.2.2.2.1⟩

/-- C25, as stated, fails on the code.  From sector 0 to sector 1 phase A is
driven high in both, yet `comm_switch` issues its PWM enable again; from
sector 1 to sector 2 phase C is driven low in both, yet `comm_switch` issues
its output-low again. -/
theorem comm_switch_redrives_counterexample :
    (phase_state (Commutation_Steps_at 0) Phase.A = DC_OUTP_HI ∧
      phase_state (Commutation_Steps_at ((0 + 1) % 6)) Phase.A = DC_OUTP_HI ∧
      HwOp.PWM_PhA_Enable 30
        ∈ emitted (switching_state 0 30) (comm_switch ((0 + 1) % 6) (switching_state 0 30)) ∧
      op_count OpKind.pwm_enable Phase.A
        (emitted (switching_state 0 30) (comm_switch ((0 + 1) % 6) (switching_state 0 30)))
          = 1) ∧
    (phase_state (Commutation_Steps_at 1) Phase.C = DC_OUTP_LO ∧
      phase_state (Commutation_Steps_at ((1 + 1) % 6)) Phase.C = DC_OUTP_LO ∧
      HwOp.PWM_PhC_OUTP_LO
        ∈ emitted (switching_state 1 30) (comm_switch ((1 + 1) % 6) (switching_state 1 30)) ∧
      op_count OpKind.outp_lo Phase.C
        (emitted (switching_state 1 30) (comm_switch ((1 + 1) % 6) (switching_state 1 30)))
          = 1) := by
  decide

/-- C25 (amended): for every pair of consecutive sectors `(p, (p+1) mod 6)`,
`comm_switch` issues the driven-low assertion and the PWM enable for exactly
the phase that is driven low, respectively driven high, in the target sector,
whether or not the phase was already in that state in `p`: a phase that is
driven high (or driven low) in both sectors receives the PWM enable (or the
output-low) again, and a phase that is not driven high (low) in the target
receives none. -/
theorem comm_switch_redrives (p : Nat) (hp : p < 6) (d : Driver)
    (hprev : d.prev_bldc_step = p) (X : Phase) :
    op_count OpKind.pwm_enable X (emitted d (comm_switch ((p + 1) % 6) d))
      = (if phase_state (Commutation_Steps_at ((p + 1) % 6)) X = DC_OUTP_HI then 1 else 0) ∧
    op_count OpKind.outp_lo X (emitted d (comm_switch ((p + 1) % 6) d))
      = (if phase_state (Commutation_Steps_at ((p + 1) % 6)) X = DC_OUTP_LO then 1 else 0) ∧
    (phase_state (Commutation_Steps_at p) X = DC_OUTP_HI →
      phase_state (Commutation_Steps_at ((p + 1) % 6)) X = DC_OUTP_HI →
      op_count OpKind.pwm_enable X (emitted d (comm_switch ((p + 1) % 6) d)) = 1) ∧
    (phase_state (Commutation_Steps_at p) X = DC_OUTP_LO →
      phase_state (Commutation_Steps_at ((p + 1) % 6)) X = DC_OUTP_LO →
      op_count OpKind.outp_lo X (emitted d (comm_switch ((p + 1) % 6) d)) = 1) := by
  have ht : (p + 1) % 6 < 6 := Nat.mod_lt _ (by decide)
  have hc := comm_switch_counts_table p hp ((p + 1) % 6) ht X (Phase_mem_all X)
  rw [comm_switch_emitted, hprev]
  simp only [op_count_comm_switch_ops _ _ _ _ d.global_uDC]
  refine ⟨hc.2.2.2.1, hc.2.2.1, fun _ h2 => ?_, fun _ h2 => ?_⟩
  · rw [hc.2.2.2.1, if_pos h2]
  · rw [hc.2.2.1, if_pos h2]

/-- From sector 2 to sector 3 phase B is driven high in both and receives the
PWM enable; phase A enters driven-low and receives the output-low. -/
theorem comm_switch_redrives_witness :
    op_count OpKind.pwm_enable Phase.B
      (emitted (switching_state 2 30) (comm_switch ((2 + 1) % 6) (switching_state 2 30))) = 1 ∧
    op_count OpKind.outp_lo Phase.A
      (emitted (switching_state 2 30) (comm_switch ((2 + 1) % 6) (switching_state 2 30))) = 1 :=
  ⟨(comm_switch_redrives 2 (by decide) (switching_state 2 30) rfl Phase.B).2.2.1
      (by decide) (by decide),
   (comm_switch_redrives 2 (by decide) (switching_state 2 30) rfl Phase.A).2.1.trans
      (by decide)⟩

/-! ## The sampler, tick by tick -/

/-- The sampler in state Off: four calls put the outputs in the idle posture,
no variable is written. -/
theorem BLDC_Step_off (d : Driver) (hOff : d.BLDC_State = BLDC_OFF) :
    BLDC_Step d =
      emit HwOp.TIM1_CtrlPWMOutputs_DISABLE
        (emit (HwOp.GPIOG_ODR_clear 1)
          (emit (HwOp.GPIOC_ODR_clear 7) (emit (HwOp.GPIOC_ODR_clear 5) d))) := by
  have h' : ¬ (BLDC_OFF ≠ d.BLDC_State) := fun c => c hOff.symm
  unfold BLDC_Step
  rw [if_neg h']

/-- What the qualification at the fourth tick writes. -/
theorem qualify_samples_fields (p : BLDC_PWM_STATE_t) (d : Driver) :
    (qualify_samples p d).Back_EMF_Falling_4
      = (if DC_OUTP_FLOAT_F = p then d.Back_EMF_15304560 else d.Back_EMF_Falling_4) ∧
    (qualify_samples p d).Back_EMF_Falling_Int_PhX
      = (if DC_OUTP_FLOAT_F = p
          then toInt16 ((d.Back_EMF_15304560.s1 + d.Back_EMF_15304560.s2) % 65536)
          else d.Back_EMF_Falling_Int_PhX) ∧
    (qualify_samples p d).Vbatt = (if DC_OUTP_HI = p then GET_ADC d else d.Vbatt) := by
  unfold qualify_samples
  cases p <;> simp

/-- The sampler while not Off, on a tick of index 0, 1 or 2: one slot of the
working buffer and the tick counter are written, nothing else. -/
theorem BLDC_Step_sample (d : Driver) (hOn : d.BLDC_State ≠ BLDC_OFF)
    (hi : d.bldc_step_modul % 4 < 3) :
    BLDC_Step d =
      { d with
        Back_EMF_15304560 :=
          (if d.bldc_step_modul % 4 = 0 then
            { d.Back_EMF_15304560 with s0 := GET_BACK_EMF_ADC d }
          else if d.bldc_step_modul % 4 = 1 then
            { d.Back_EMF_15304560 with s1 := GET_BACK_EMF_ADC d }
          else { d.Back_EMF_15304560 with s2 := GET_BACK_EMF_ADC d })
        bldc_step_modul := (d.bldc_step_modul + 1) % 256 } := by
  have h' : BLDC_OFF ≠ d.BLDC_State := fun e => hOn e.symm
  unfold BLDC_Step
  simp only [h', ne_eq, not_false_eq_true, if_true, TIM3_RATE_MODULUS]
  by_cases h0 : d.bldc_step_modul % 4 = 0
  · simp only [h0, if_true]
  · by_cases h1 : d.bldc_step_modul % 4 = 1
    · simp only [h1, if_true, (by decide : ¬ (1 : Nat) = 0), if_false]
    · have h2 : d.bldc_step_modul % 4 = 2 := by omega
      simp only [h2, if_true, (by decide : ¬ (2 : Nat) = 0), (by decide : ¬ (2 : Nat) = 1),
        if_false]

/-- The sampler while not Off, on a tick of index 3: the fourth slot is
stored, the samples are qualified on the phase-A state of the sector held in
`comm_step`, `comm_switch` is called with that same sector, and `comm_step`
advances. -/
theorem BLDC_Step_switch (d : Driver) (hOn : d.BLDC_State ≠ BLDC_OFF)
    (h3 : d.bldc_step_modul % 4 = 3) :
    (BLDC_Step d).Back_EMF_15304560 = { d.Back_EMF_15304560 with s3 := GET_BACK_EMF_ADC d } ∧
    (BLDC_Step d).Back_EMF_Falling_4
      = (if DC_OUTP_FLOAT_F = (Commutation_Steps_at d.comm_step).phA
          then { d.Back_EMF_15304560 with s3 := GET_BACK_EMF_ADC d }
          else d.Back_EMF_Falling_4) ∧
    (BLDC_Step d).Back_EMF_Falling_Int_PhX
      = (if DC_OUTP_FLOAT_F = (Commutation_Steps_at d.comm_step).phA
          then toInt16 ((d.Back_EMF_15304560.s1 + d.Back_EMF_15304560.s2) % 65536)
          else d.Back_EMF_Falling_Int_PhX) ∧
    (BLDC_Step d).Vbatt
      = (if DC_OUTP_HI = (Commutation_Steps_at d.comm_step).phA then d._ADC_Global
          else d.Vbatt) ∧
    (BLDC_Step d).prev_bldc_step = d.comm_step % 256 ∧
    (BLDC_Step d).comm_step = (d.comm_step + 1) % 6 ∧
    (BLDC_Step d).hw
      = d.hw ++ comm_switch_ops (Commutation_Steps_at d.prev_bldc_step)
          (Commutation_Steps_at (d.comm_step % 256)) d.global_uDC := by
  have h' : BLDC_OFF ≠ d.BLDC_State := fun e => hOn e.symm
  unfold BLDC_Step
  simp only [h', ne_eq, not_false_eq_true, if_true, TIM3_RATE_MODULUS, N_CSTEPS, h3,
    (by decide : ¬ (3 : Nat) = 0), (by decide : ¬ (3 : Nat) = 1), (by decide : ¬ (3 : Nat) = 2),
    if_false, comm_switch_proj, qualify_samples_proj, qualify_samples_fields, GET_ADC, and_self]

/-- C26: for every `BLDC_Step` call while the motor is Off, the three phase
half-bridge enable lines are driven low (bits 5 and 7 of port C, bit 1 of
port G) and the master PWM output is disabled; the phase switching engine is
not invoked (no call on a phase, remembered sector unchanged); and the
sector, the working and the qualified sample buffer, the zero-crossing
integral and the battery-voltage estimate are unchanged. -/
theorem BLDC_Step_off_idle (d : Driver) (hOff : d.BLDC_State = BLDC_OFF) :
    emitted d (BLDC_Step d)
      = [HwOp.GPIOC_ODR_clear 5, HwOp.GPIOC_ODR_clear 7, HwOp.GPIOG_ODR_clear 1,
          HwOp.TIM1_CtrlPWMOutputs_DISABLE] ∧
    (BLDC_Step d).hw
      = d.hw ++ [HwOp.GPIOC_ODR_clear 5, HwOp.GPIOC_ODR_clear 7, HwOp.GPIOG_ODR_clear 1,
          HwOp.TIM1_CtrlPWMOutputs_DISABLE] ∧
    (∀ (k : OpKind) (X : Phase), op_count k X (emitted d (BLDC_Step d)) = 0) ∧
    (BLDC_Step d).prev_bldc_step = d.prev_bldc_step ∧
    (BLDC_Step d).comm_step = d.comm_step ∧
    (BLDC_Step d).Back_EMF_15304560 = d.Back_EMF_15304560 ∧
    (BLDC_Step d).Back_EMF_Falling_4 = d.Back_EMF_Falling_4 ∧
    (BLDC_Step d).Back_EMF_Falling_Int_PhX = d.Back_EMF_Falling_Int_PhX ∧
    (BLDC_Step d).Vbatt = d.Vbatt := by
  have hhw : (BLDC_Step d).hw
      = d.hw ++ [HwOp.GPIOC_ODR_clear 5, HwOp.GPIOC_ODR_clear 7, HwOp.GPIOG_ODR_clear 1,
          HwOp.TIM1_CtrlPWMOutputs_DISABLE] := by
    rw [BLDC_Step_off d hOff]
    simp only [emit_proj, List.append_assoc, List.singleton_append, List.cons_append,
      List.nil_append]
  have hem : emitted d (BLDC_Step d)
      = [HwOp.GPIOC_ODR_clear 5, HwOp.GPIOC_ODR_clear 7, HwOp.GPIOG_ODR_clear 1,
          HwOp.TIM1_CtrlPWMOutputs_DISABLE] := by
    unfold emitted
    rw [hhw, List.drop_left]
  refine ⟨hem, hhw, ?_, ?_⟩
  · intro k X
    rw [hem]
    cases k <;> cases X <;> decide
  · rw [BLDC_Step_off d hOff]
    simp only [emit_proj, and_self]

/-- At power-up the sampler only emits the four idle-posture calls. -/
theorem BLDC_Step_off_idle_witness :
    (BLDC_Step power_up).hw
      = [HwOp.GPIOC_ODR_clear 5, HwOp.GPIOC_ODR_clear 7, HwOp.GPIOG_ODR_clear 1,
          HwOp.TIM1_CtrlPWMOutputs_DISABLE] ∧
    (BLDC_Step power_up).comm_step = 0 :=
  ⟨(BLDC_Step_off_idle power_up rfl).2.1, (BLDC_Step_off_idle power_up rfl).2.2.2.2.1⟩

/-- C27, as stated, fails on the code: at power-up (state Off, tick counter
0) a `BLDC_Step` call leaves the tick counter at 0, not at `(0 + 1) mod 256`. -/
theorem tick_counter_off_counterexample :
    power_up.BLDC_State = BLDC_OFF ∧
    power_up.bldc_step_modul = 0 ∧
    (BLDC_Step power_up).bldc_step_modul = 0 ∧
    (BLDC_Step power_up).bldc_step_modul ≠ (power_up.bldc_step_modul + 1) % 256 := by
  decide

/-- C27 (amended): the sampler's tick counter increments on every `BLDC_Step`
call made while the motor is not Off: for every counter value `c`, after the
call the counter is `(c + 1)` modulo its 8-bit width; a call made while the
motor is Off leaves the counter unchanged. -/
theorem tick_counter_increments_when_running (d : Driver) :
    (d.BLDC_State ≠ BLDC_OFF →
      (BLDC_Step d).bldc_step_modul = (d.bldc_step_modul + 1) % 256) ∧
    (d.BLDC_State = BLDC_OFF → (BLDC_Step d).bldc_step_modul = d.bldc_step_modul) := by
  refine ⟨fun h => (BLDC_Step_on d h).1, fun h => ?_⟩
  rw [BLDC_Step_off d h]
  simp only [emit_proj]

/-- A running driver with the counter at 254 and at 255 (rollover), and the
driver at power-up. -/
theorem tick_counter_increments_when_running_witness :
    (BLDC_Step stepping_state).bldc_step_modul = 255 ∧
    (BLDC_Step (BLDC_Step stepping_state)).bldc_step_modul = 0 ∧
    (BLDC_Step power_up).bldc_step_modul = 0 :=
  ⟨((tick_counter_increments_when_running stepping_state).1 (by decide)).trans (by decide),
   ((tick_counter_increments_when_running (BLDC_Step stepping_state)).1 (by decide)).trans
      (by decide),
   (tick_counter_increments_when_running power_up).2 rfl⟩

/-- C28: for every `BLDC_Step` call while not Off, with `index` the tick
counter mod 4: the working-buffer slot `index` becomes the raw ADC value minus
`0x01FD` reduced modulo `2^16` and the other three slots are unchanged; and
when `index` is 0, 1 or 2 the sector, the qualified buffer, the zero-crossing
integral and the battery-voltage estimate are unchanged and the phase
switching engine is not invoked (the only other variable written is the tick
counter). -/
theorem BLDC_Step_stores_sample (d : Driver) (hOn : d.BLDC_State ≠ BLDC_OFF) :
    ((GET_BACK_EMF_ADC d : Int) = ((d._ADC_Global : Int) - 0x01FD) % 65536) ∧
    (d.bldc_step_modul % 4 = 0 →
      (BLDC_Step d).Back_EMF_15304560
        = { d.Back_EMF_15304560 with s0 := GET_BACK_EMF_ADC d }) ∧
    (d.bldc_step_modul % 4 = 1 →
      (BLDC_Step d).Back_EMF_15304560
        = { d.Back_EMF_15304560 with s1 := GET_BACK_EMF_ADC d }) ∧
    (d.bldc_step_modul % 4 = 2 →
      (BLDC_Step d).Back_EMF_15304560
        = { d.Back_EMF_15304560 with s2 := GET_BACK_EMF_ADC d }) ∧
    (d.bldc_step_modul % 4 = 3 →
      (BLDC_Step d).Back_EMF_15304560
        = { d.Back_EMF_15304560 with s3 := GET_BACK_EMF_ADC d }) ∧
    (d.bldc_step_modul % 4 < 3 →
      (BLDC_Step d).comm_step = d.comm_step ∧
      (BLDC_Step d).Back_EMF_Falling_4 = d.Back_EMF_Falling_4 ∧
      (BLDC_Step d).Back_EMF_Falling_Int_PhX = d.Back_EMF_Falling_Int_PhX ∧
      (BLDC_Step d).Vbatt = d.Vbatt ∧
      (BLDC_Step d).prev_bldc_step = d.prev_bldc_step ∧
      (BLDC_Step d).hw = d.hw ∧
      BLDC_Step d =
        { d with
          Back_EMF_15304560 := (BLDC_Step d).Back_EMF_15304560
          bldc_step_modul := (d.bldc_step_modul + 1) % 256 }) := by
  refine ⟨?_, fun h => ?_, fun h => ?_, fun h => ?_, fun h => ?_, fun h => ?_⟩
  · unfold GET_BACK_EMF_ADC DC_HALF_REF
    omega
  · rw [BLDC_Step_sample d hOn (by omega)]
    simp only [h, if_true]
  · rw [BLDC_Step_sample d hOn (by omega)]
    simp only [h, (by decide : ¬ (1 : Nat) = 0), if_false, if_true]
  · rw [BLDC_Step_sample d hOn (by omega)]
    simp only [h, (by decide : ¬ (2 : Nat) = 0), (by decide : ¬ (2 : Nat) = 1), if_false]
  · exact (BLDC_Step_switch d hOn h).1
  · rw [BLDC_Step_sample d hOn h]
    exact ⟨rfl, rfl, rfl, rfl, rfl, rfl, rfl⟩

/-- Two ticks of a running driver with the ADC at 600: slot 2 (counter 254)
becomes `600 - 509 = 91`, the sector stays 5. -/
theorem BLDC_Step_stores_sample_witness :
    (BLDC_Step (bemf_samp_get 600 stepping_state)).Back_EMF_15304560 = ⟨0, 0, 91, 0⟩ ∧
    (BLDC_Step (bemf_samp_get 600 stepping_state)).comm_step = 5 :=
  ⟨((BLDC_Step_stores_sample (bemf_samp_get 600 stepping_state) (by decide)).2.2.2.1
      (by decide)).trans (by decide),
   ((BLDC_Step_stores_sample (bemf_samp_get 600 stepping_state) (by decide)).2.2.2.2.2
      (by decide)).1.trans (by decide)⟩

/-- C29: for every `BLDC_Step` call while not Off at tick index 3, depending
on the inspected phase-A drive state (that of the sector held in
`comm_step`): if floating-falling, the qualified buffer becomes a copy of all
four working-buffer slots, the fourth sample just stored included, and the
zero-crossing integral becomes the sum of the qualified slots 1 and 2 (as the
16-bit arithmetic of the target computes it), the battery-voltage estimate
being unchanged; if driven-high, the battery-voltage estimate becomes the raw
ADC value and the qualified buffer and the integral are unchanged; in every
other case (floating-rising, driven-low) none of the three changes. -/
theorem BLDC_Step_qualifies (d : Driver) (hOn : d.BLDC_State ≠ BLDC_OFF)
    (h3 : d.bldc_step_modul % 4 = 3) :
    (BLDC_Step d).Back_EMF_15304560 = { d.Back_EMF_15304560 with s3 := GET_BACK_EMF_ADC d } ∧
    ((Commutation_Steps_at d.comm_step).phA = DC_OUTP_FLOAT_F →
      (BLDC_Step d).Back_EMF_Falling_4 = (BLDC_Step d).Back_EMF_15304560 ∧
      (BLDC_Step d).Back_EMF_Falling_Int_PhX
        = toInt16 (((BLDC_Step d).Back_EMF_Falling_4.s1
            + (BLDC_Step d).Back_EMF_Falling_4.s2) % 65536) ∧
      ((BLDC_Step d).Back_EMF_Falling_4.s1 + (BLDC_Step d).Back_EMF_Falling_4.s2 < 32768 →
        (BLDC_Step d).Back_EMF_Falling_Int_PhX
          = (((BLDC_Step d).Back_EMF_Falling_4.s1
              + (BLDC_Step d).Back_EMF_Falling_4.s2 : Nat) : Int)) ∧
      (BLDC_Step d).Vbatt = d.Vbatt) ∧
    ((Commutation_Steps_at d.comm_step).phA = DC_OUTP_HI →
      (BLDC_Step d).Vbatt = d._ADC_Global ∧
      (BLDC_Step d).Back_EMF_Falling_4 = d.Back_EMF_Falling_4 ∧
      (BLDC_Step d).Back_EMF_Falling_Int_PhX = d.Back_EMF_Falling_Int_PhX) ∧
    ((Commutation_Steps_at d.comm_step).phA ≠ DC_OUTP_FLOAT_F →
      (Commutation_Steps_at d.comm_step).phA ≠ DC_OUTP_HI →
      (BLDC_Step d).Vbatt = d.Vbatt ∧
      (BLDC_Step d).Back_EMF_Falling_4 = d.Back_EMF_Falling_4 ∧
      (BLDC_Step d).Back_EMF_Falling_Int_PhX = d.Back_EMF_Falling_Int_PhX) := by
  have f := BLDC_Step_switch d hOn h3
  refine ⟨f.1, fun hF => ?_, fun hH => ?_, fun hnF hnH => ?_⟩
  · rw [f.2.1, f.2.2.1, f.2.2.2.1, f.1, hF]
    simp only [if_true, reduceCtorEq, if_false, true_and, and_true]
    intro hlt
    unfold toInt16
    rw [if_pos (by omega)]
    congr 1
    omega
  · rw [f.2.1, f.2.2.1, f.2.2.2.1, hH]
    simp only [if_true, reduceCtorEq, if_false, and_self]
  · have nF : ¬ DC_OUTP_FLOAT_F = (Commutation_Steps_at d.comm_step).phA := fun e => hnF e.symm
    have nH : ¬ DC_OUTP_HI = (Commutation_Steps_at d.comm_step).phA := fun e => hnH e.symm
    rw [f.2.1, f.2.2.1, f.2.2.2.1]
    simp only [nF, nH, if_false, and_self]

/-- The last tick of a sector with `comm_step` at 2 (phase A floating-falling
in the table) and the ADC at 600: the four samples are copied to the qualified
buffer and the integral is `92 + 93`. -/
theorem BLDC_Step_qualifies_witness :
    (BLDC_Step last_tick_state).Back_EMF_Falling_4 = ⟨91, 92, 93, 91⟩ ∧
    (BLDC_Step last_tick_state).Back_EMF_Falling_Int_PhX = 185 :=
  ⟨((BLDC_Step_qualifies last_tick_state (by decide) (by decide)).2.1 (by decide)).1.trans
      (by decide),
   ((BLDC_Step_qualifies last_tick_state (by decide) (by decide)).2.1
      (by decide)).2.1.trans (by decide)⟩

/-- C30 on the code: at a tick of index 3 the sampler inspects the phase-A
state of the sector held in `comm_step` and then calls `comm_switch` with that
same sector, not with its successor.  In `last_tick_state` the outputs are in
sector 1 (phase A driven high), `comm_step` is 2: the state inspected is the
floating-falling of sector 2, the samples are qualified as a falling
waveform, and the target of `comm_switch` is 2 (the remembered sector after
the call), not 3.  The same in a run from power-up: after the start command
and 11 ticks the engine is in sector 1 and `comm_step` is 2, and the twelfth
tick switches to sector 2. -/
theorem BLDC_Step_switch_target_is_inspected_sector :
    (last_tick_state.BLDC_State ≠ BLDC_OFF ∧
      last_tick_state.bldc_step_modul % 4 = 3 ∧
      last_tick_state.prev_bldc_step = 1 ∧
      (Commutation_Steps_at last_tick_state.prev_bldc_step).phA = DC_OUTP_HI ∧
      last_tick_state.comm_step = 2 ∧
      (Commutation_Steps_at last_tick_state.comm_step).phA = DC_OUTP_FLOAT_F ∧
      (BLDC_Step last_tick_state).Back_EMF_Falling_4 = ⟨91, 92, 93, 91⟩ ∧
      (BLDC_Step last_tick_state).prev_bldc_step = 2 ∧
      (BLDC_Step last_tick_state).prev_bldc_step ≠ (last_tick_state.comm_step + 1) % 6 ∧
      (BLDC_Step last_tick_state).comm_step = 3) ∧
    ((BLDC_Step_ticks (List.replicate 11 600) (BLDC_Spd_inc power_up)).prev_bldc_step = 1 ∧
      (BLDC_Step_ticks (List.replicate 11 600) (BLDC_Spd_inc power_up)).comm_step = 2 ∧
      (BLDC_Step_ticks (List.replicate 11 600) (BLDC_Spd_inc power_up)).bldc_step_modul % 4
        = 3 ∧
      (BLDC_Step_ticks (List.replicate 12 600) (BLDC_Spd_inc power_up)).prev_bldc_step = 2 ∧
      (BLDC_Step_ticks (List.replicate 12 600) (BLDC_Spd_inc power_up)).Back_EMF_Falling_4
        = ⟨91, 91, 91, 91⟩) := by
  decide

/-! ## The moving average of the system voltage -/

/-- C31: for every update in state On and all 16-bit values of the
battery-voltage estimate `Vb` and the system voltage `Vs`, the new system
voltage is `floor(Vb/2) + floor(Vs/2)`, a sum that stays below `2^16`; it is
at most `max Vb Vs` and at least `min Vb Vs - 1`, and it is below the
shutdown threshold whenever both `Vb` and `Vs` are. -/
theorem BLDC_Update_on_moving_average (T : List Nat) (d : Driver)
    (hOn : d.BLDC_State = BLDC_ON) (hVb : d.Vbatt < 65536) (hVs : d.Vsystem < 65536) :
    (BLDC_Update T d).Vsystem = d.Vbatt / 2 + d.Vsystem / 2 ∧
    d.Vbatt / 2 + d.Vsystem / 2 < 65536 ∧
    (BLDC_Update T d).Vsystem ≤ max d.Vbatt d.Vsystem ∧
    ((min d.Vbatt d.Vsystem : Nat) : Int) - 1 ≤ ((BLDC_Update T d).Vsystem : Int) ∧
    (d.Vbatt < V_SHUTDOWN_THR → d.Vsystem < V_SHUTDOWN_THR →
      (BLDC_Update T d).Vsystem < V_SHUTDOWN_THR) := by
  have hlt : d.Vbatt / 2 + d.Vsystem / 2 < 65536 := by omega
  have hV : (BLDC_Update T d).Vsystem = d.Vbatt / 2 + d.Vsystem / 2 := by
    rw [(BLDC_Update_on_fields T d hOn).2.1, Nat.mod_eq_of_lt hlt]
  rw [hV]
  unfold V_SHUTDOWN_THR
  refine ⟨rfl, hlt, ?_, ?_, ?_⟩
  · omega
  · omega
  · omega

/-- Both voltages at `0xFFFF`: the sum `0x7FFF + 0x7FFF` does not overflow;
with `Vb = 5`, `Vs = 7` the new value is `5 = min - 0`, with `Vb = Vs = 0x2BF`
it is `0x2BE`, one below the minimum and below the threshold. -/
theorem BLDC_Update_on_moving_average_witness :
    (BLDC_Update OL_Timing_old (on_state 0x3AC 30 128 0xFFFF 0xFFFF)).Vsystem = 0xFFFE ∧
    (BLDC_Update OL_Timing_old (on_state 0x3AC 30 128 5 7)).Vsystem = 5 ∧
    (BLDC_Update OL_Timing_old (on_state 0x3AC 30 128 0x2BF 0x2BF)).Vsystem = 0x2BE :=
  ⟨(BLDC_Update_on_moving_average OL_Timing_old (on_state 0x3AC 30 128 0xFFFF 0xFFFF) rfl
      (by decide) (by decide)).1.trans (by decide),
   (BLDC_Update_on_moving_average OL_Timing_old (on_state 0x3AC 30 128 5 7) rfl
      (by decide) (by decide)).1.trans (by decide),
   (BLDC_Update_on_moving_average OL_Timing_old (on_state 0x3AC 30 128 0x2BF 0x2BF) rfl
      (by decide) (by decide)).1.trans (by decide)⟩

/-! ## The manual speed steps in state On -/

/-- The manual speed steps in state On: period and manual-mode flag. -/
theorem BLDC_Spd_on (d : Driver) (hOn : d.BLDC_State = BLDC_ON) :
    (BLDC_Spd_inc d).BLDC_OL_comm_tm
      = (if d.BLDC_OL_comm_tm > BLDC_OL_TM_MANUAL_HI_LIM
          then (d.BLDC_OL_comm_tm + 65536 - 1) % 65536 else d.BLDC_OL_comm_tm) ∧
    (BLDC_Spd_inc d).Manual_Mode
      = (if d.BLDC_OL_comm_tm > BLDC_OL_TM_MANUAL_HI_LIM then 1 else d.Manual_Mode) ∧
    (BLDC_Spd_dec d).BLDC_OL_comm_tm
      = (if d.BLDC_OL_comm_tm < 0xFFFF
          then (d.BLDC_OL_comm_tm + 1) % 65536 else d.BLDC_OL_comm_tm) ∧
    (BLDC_Spd_dec d).Manual_Mode
      = (if d.BLDC_OL_comm_tm < 0xFFFF then 1 else d.Manual_Mode) := by
  unfold BLDC_Spd_dec BLDC_Spd_inc
  simp only [hOn, reduceCtorEq, if_false, true_and, apply_ite Driver.BLDC_OL_comm_tm,
    apply_ite Driver.Manual_Mode, and_self]

/-- C32: in state On, for every 16-bit period `P`: `BLDC_Spd_inc` decrements
the period by 1 and sets the manual-mode flag if `P` is above the manual
high-speed limit `0x006F`, and otherwise changes neither; `BLDC_Spd_dec`
increments the period by 1 and sets the flag if `P` is below `0xFFFF`, and
otherwise changes neither; so the period never wraps and a period at or above
`0x006F` is never taken below it; neither command changes the duty cycle or
the run state. -/
theorem BLDC_Spd_manual_step (d : Driver) (hOn : d.BLDC_State = BLDC_ON)
    (hP : d.BLDC_OL_comm_tm < 65536) :
    (0x006F < d.BLDC_OL_comm_tm →
      (BLDC_Spd_inc d).BLDC_OL_comm_tm + 1 = d.BLDC_OL_comm_tm ∧
      (BLDC_Spd_inc d).Manual_Mode = 1) ∧
    (d.BLDC_OL_comm_tm ≤ 0x006F →
      (BLDC_Spd_inc d).BLDC_OL_comm_tm = d.BLDC_OL_comm_tm ∧
      (BLDC_Spd_inc d).Manual_Mode = d.Manual_Mode) ∧
    (d.BLDC_OL_comm_tm < 0xFFFF →
      (BLDC_Spd_dec d).BLDC_OL_comm_tm = d.BLDC_OL_comm_tm + 1 ∧
      (BLDC_Spd_dec d).Manual_Mode = 1) ∧
    (d.BLDC_OL_comm_tm = 0xFFFF →
      (BLDC_Spd_dec d).BLDC_OL_comm_tm = d.BLDC_OL_comm_tm ∧
      (BLDC_Spd_dec d).Manual_Mode = d.Manual_Mode) ∧
    (0x006F ≤ d.BLDC_OL_comm_tm → 0x006F ≤ (BLDC_Spd_inc d).BLDC_OL_comm_tm) ∧
    (BLDC_Spd_inc d).BLDC_OL_comm_tm ≤ d.BLDC_OL_comm_tm ∧
    d.BLDC_OL_comm_tm ≤ (BLDC_Spd_dec d).BLDC_OL_comm_tm ∧
    (BLDC_Spd_dec d).BLDC_OL_comm_tm < 65536 ∧
    (BLDC_Spd_inc d).global_uDC = d.global_uDC ∧
    (BLDC_Spd_dec d).global_uDC = d.global_uDC ∧
    (BLDC_Spd_inc d).BLDC_State = BLDC_ON ∧
    (BLDC_Spd_dec d).BLDC_State = BLDC_ON := by
  have f := BLDC_Spd_on d hOn
  have g := BLDC_Spd_fields d
  rw [f.1, f.2.1, f.2.2.1, f.2.2.2, g.1, g.2.1, g.2.2.1, g.2.2.2, hOn]
  unfold BLDC_OL_TM_MANUAL_HI_LIM LUDICROUS_SPEED
  simp only [reduceCtorEq, if_false, and_true, true_and]
  refine ⟨fun h => ?_, fun h => ?_, fun h => ?_, fun h => ?_, fun h => ?_, ?_, ?_, ?_⟩
  · rw [if_pos h, if_pos h]; exact ⟨by omega, rfl⟩
  · rw [if_neg (by omega), if_neg (by omega)]; exact ⟨rfl, rfl⟩
  · rw [if_pos h, if_pos h]; exact ⟨by omega, rfl⟩
  · rw [if_neg (by omega), if_neg (by omega)]; exact ⟨rfl, rfl⟩
  · split_ifs <;> omega
  · split_ifs <;> omega
  · split_ifs <;> omega
  · split_ifs <;> omega

/-- At the limit `0x006F` the faster step changes nothing, one above it the
period becomes `0x006F`; at `0xFFFF` the slower step changes nothing, one
below it the period becomes `0xFFFF`. -/
theorem BLDC_Spd_manual_step_witness :
    (BLDC_Spd_inc (on_state 0x006F 30 128 0x300 0x300)).BLDC_OL_comm_tm = 0x006F ∧
    (BLDC_Spd_inc (on_state 0x0070 30 128 0x300 0x300)).BLDC_OL_comm_tm + 1 = 0x0070 ∧
    (BLDC_Spd_dec (on_state 0xFFFF 30 128 0x300 0x300)).BLDC_OL_comm_tm = 0xFFFF ∧
    (BLDC_Spd_dec (on_state 0xFFFE 30 128 0x300 0x300)).BLDC_OL_comm_tm = 0xFFFE + 1 :=
  ⟨((BLDC_Spd_manual_step (on_state 0x006F 30 128 0x300 0x300) rfl (by decide)).2.1
      (by decide)).1.trans (by decide),
   ((BLDC_Spd_manual_step (on_state 0x0070 30 128 0x300 0x300) rfl (by decide)).1
      (by decide)).1.trans (by decide),
   ((BLDC_Spd_manual_step (on_state 0xFFFF 30 128 0x300 0x300) rfl (by decide)).2.2.2.1
      (by decide)).1.trans (by decide),
   ((BLDC_Spd_manual_step (on_state 0xFFFE 30 128 0x300 0x300) rfl (by decide)).2.2.1
      (by decide)).1.trans (by decide)⟩

/-! ## The duty cycle in state Off -/

/-- C34: in every state reachable from power-up under any interleaving of the
entry points (ADC latch, `BLDC_Step`, `BLDC_Update`, `BLDC_Stop`,
`BLDC_PWMDC_Plus/Minus/Set`, `BLDC_Spd_inc/dec`), whenever the run state is
Off the duty cycle is 0. -/
theorem duty_zero_when_off (T : List Nat) (es : List Event)
    (hOff : (run T es power_up).BLDC_State = BLDC_OFF) :
    (run T es power_up).global_uDC = 0 :=
  (reachable_duty_invariant T es).1 hOff

/-- A start, an update of the ramp that sets the ramp duty, and a stop: the
driver is Off again and the duty cycle is 0. -/
theorem duty_zero_when_off_witness :
    (run OL_Timing_old [Event.Update, Event.Spd_inc, Event.Update] power_up).global_uDC = 35 ∧
    (run OL_Timing_old [Event.Update, Event.Spd_inc, Event.Update, Event.Stop]
      power_up).BLDC_State = BLDC_OFF ∧
    (run OL_Timing_old [Event.Update, Event.Spd_inc, Event.Update, Event.Stop]
      power_up).global_uDC = 0 :=
  ⟨by decide, by decide,
   duty_zero_when_off OL_Timing_old [Event.Update, Event.Spd_inc, Event.Update, Event.Stop]
    (by decide)⟩

/-! ## Operator commands during the ramp -/

/-- The manual speed steps outside state On and Off: only `Log_Level` is
written. -/
theorem BLDC_Spd_rampup (d : Driver) (hR : d.BLDC_State = BLDC_RAMPUP) :
    BLDC_Spd_inc d = { d with Log_Level := 1 } ∧
    BLDC_Spd_dec d = { d with Log_Level := 255 } := by
  unfold BLDC_Spd_dec BLDC_Spd_inc
  simp only [hR, reduceCtorEq, if_false, false_and, and_self]

/-- C39: while the run state is RampUp, `BLDC_PWMDC_Plus`, `BLDC_PWMDC_Minus`,
`BLDC_Spd_inc`, `BLDC_Spd_dec`, and `BLDC_PWMDC_Set` with any commanded value
of `0x10` or more all leave the run state, the duty cycle, the period, the
manual-mode flag and the fault bucket unchanged; Plus and Minus return the
unchanged duty cycle.  (Plus, Minus and Set leave every variable unchanged;
the two speed steps write `Log_Level` only.) -/
theorem rampup_commands_frame (d : Driver) (hR : d.BLDC_State = BLDC_RAMPUP)
    (dc : Nat) (hdc : 0x10 ≤ dc) :
    BLDC_PWMDC_Plus d = (d, d.global_uDC) ∧
    BLDC_PWMDC_Minus d = (d, d.global_uDC) ∧
    BLDC_PWMDC_Set dc d = d ∧
    ((BLDC_Spd_inc d).BLDC_State = BLDC_RAMPUP ∧
      (BLDC_Spd_inc d).global_uDC = d.global_uDC ∧
      (BLDC_Spd_inc d).BLDC_OL_comm_tm = d.BLDC_OL_comm_tm ∧
      (BLDC_Spd_inc d).Manual_Mode = d.Manual_Mode ∧
      (BLDC_Spd_inc d).vsys_fault_bucket = d.vsys_fault_bucket) ∧
    ((BLDC_Spd_dec d).BLDC_State = BLDC_RAMPUP ∧
      (BLDC_Spd_dec d).global_uDC = d.global_uDC ∧
      (BLDC_Spd_dec d).BLDC_OL_comm_tm = d.BLDC_OL_comm_tm ∧
      (BLDC_Spd_dec d).Manual_Mode = d.Manual_Mode ∧
      (BLDC_Spd_dec d).vsys_fault_bucket = d.vsys_fault_bucket) := by
  have hs := BLDC_Spd_rampup d hR
  have h1 : ¬ dc < 0x10 := by omega
  refine ⟨?_, ?_, ?_, ?_, ?_⟩
  · unfold BLDC_PWMDC_Plus
    simp only [hR, reduceCtorEq, if_false]
  · unfold BLDC_PWMDC_Minus
    simp only [hR, reduceCtorEq, if_false]
  · unfold BLDC_PWMDC_Set
    simp only [h1, hR, reduceCtorEq, if_false]
  · rw [hs.1]; exact ⟨hR, rfl, rfl, rfl, rfl⟩
  · rw [hs.2]; exact ⟨hR, rfl, rfl, rfl, rfl⟩

/-- In the ramp at period `0x0800` with the ramp duty 35: a commanded duty of
`0x40`, the duty-plus command and the faster step leave the duty cycle 35 and
the period `0x0800`. -/
theorem rampup_commands_frame_witness :
    (BLDC_PWMDC_Set 0x40 ramping_state).global_uDC = 35 ∧
    (BLDC_PWMDC_Plus ramping_state).2 = 35 ∧
    (BLDC_Spd_inc ramping_state).BLDC_OL_comm_tm = 0x0800 :=
  ⟨(congrArg Driver.global_uDC
      (rampup_commands_frame ramping_state rfl 0x40 (by decide)).2.2.1).trans (by decide),
   (congrArg Prod.snd (rampup_commands_frame ramping_state rfl 0x40 (by decide)).1).trans
      (by decide),
   (rampup_commands_frame ramping_state rfl 0x40 (by decide)).2.2.2.1.2.2.1.trans
      (by decide)⟩

/-! ## Convergence of the throttle tracking -/

/-- One call of `BLDC_PWMDC_Set(c)` in state On with `0x1d < c ≤ 0xFFFE` and
the duty cycle at most `0xFFFE`: the state stays On and the duty cycle moves
one unit towards `c`. -/
theorem BLDC_PWMDC_Set_on_step (c : Nat) (d : Driver) (hOn : d.BLDC_State = BLDC_ON)
    (hc : 0x1d < c) (hcu : c ≤ 0xFFFE) (hd : d.global_uDC ≤ 0xFFFE) :
    (BLDC_PWMDC_Set c d).BLDC_State = BLDC_ON ∧
    (BLDC_PWMDC_Set c d).global_uDC
      = (if d.global_uDC < c then d.global_uDC + 1
        else if d.global_uDC > c then d.global_uDC - 1 else d.global_uDC) := by
  have f := BLDC_PWMDC_Set_from c d (by omega)
  rw [f.1, f.2.1, hOn]
  simp only [reduceCtorEq, if_false, true_and]
  rw [if_pos (show c > 0x1d from hc)]
  split_ifs <;> omega

/-- The duty cycle after `n` calls of `BLDC_PWMDC_Set(c)` in state On. -/
theorem BLDC_PWMDC_Set_iterate (c : Nat) (hc : 0x1d < c) (hcu : c ≤ 0xFFFE) (n : Nat) :
    ∀ d : Driver, d.BLDC_State = BLDC_ON → d.global_uDC ≤ 0xFFFE →
      (Nat.iterate (BLDC_PWMDC_Set c) n d).BLDC_State = BLDC_ON ∧
      (Nat.iterate (BLDC_PWMDC_Set c) n d).global_uDC
        = (if d.global_uDC ≤ c then min c (d.global_uDC + n) else max c (d.global_uDC - n)) := by
  induction n with
  | zero =>
    intro d hOn hd
    refine ⟨hOn, ?_⟩
    show d.global_uDC = _
    split_ifs <;> omega
  | succ n ih =>
    intro d hOn hd
    have s := BLDC_PWMDC_Set_on_step c d hOn hc hcu hd
    have hd1 : (BLDC_PWMDC_Set c d).global_uDC ≤ 0xFFFE := by
      rw [s.2]; split_ifs <;> omega
    have i := ih (BLDC_PWMDC_Set c d) s.1 hd1
    rw [Function.iterate_succ_apply]
    refine ⟨i.1, ?_⟩
    rw [i.2, s.2]
    split_ifs <;> omega

/-- C36: in state On, for every commanded value `c` with `0x1d < c ≤ 0xFFFE`
held fixed and every starting duty cycle `d ≤ 0xFFFE`: after `n` calls of
`BLDC_PWMDC_Set(c)` with `n` at most the distance `|c - d|` the distance has
become `|c - d| - n`; after exactly `|c - d|` calls the duty cycle equals `c`;
after every larger number of calls it still equals `c`; and a call made at
the target changes no variable of the driver. -/
theorem BLDC_PWMDC_Set_converges (c : Nat) (d : Driver) (hOn : d.BLDC_State = BLDC_ON)
    (hc : 0x1d < c) (hcu : c ≤ 0xFFFE) (hd : d.global_uDC ≤ 0xFFFE) :
    (∀ n, n ≤ (c - d.global_uDC) + (d.global_uDC - c) →
      (c - (Nat.iterate (BLDC_PWMDC_Set c) n d).global_uDC)
        + ((Nat.iterate (BLDC_PWMDC_Set c) n d).global_uDC - c)
        = (c - d.global_uDC) + (d.global_uDC - c) - n) ∧
    (Nat.iterate (BLDC_PWMDC_Set c) ((c - d.global_uDC) + (d.global_uDC - c)) d).global_uDC
      = c ∧
    (∀ n, (c - d.global_uDC) + (d.global_uDC - c) ≤ n →
      (Nat.iterate (BLDC_PWMDC_Set c) n d).global_uDC = c) ∧
    (∀ n, (Nat.iterate (BLDC_PWMDC_Set c) n d).BLDC_State = BLDC_ON) ∧
    (d.global_uDC = c → BLDC_PWMDC_Set c d = d) := by
  have it := fun n => BLDC_PWMDC_Set_iterate c hc hcu n d hOn hd
  refine ⟨fun n hn => ?_, ?_, fun n hn => ?_, fun n => (it n).1, fun e => ?_⟩
  · rw [(it n).2]
    split_ifs <;> omega
  · rw [(it _).2]
    split_ifs <;> omega
  · rw [(it n).2]
    split_ifs <;> omega
  · have h1 : ¬ c < 0x10 := by omega
    have h2 : ¬ c < c := by omega
    unfold BLDC_PWMDC_Set
    simp only [h1, hOn, e, h2, reduceCtorEq, if_false, if_true, gt_iff_lt, hc]

/-- From the idle duty 30 to the commanded 33: three calls reach 33, a fourth
leaves it there; from 40 down to 33 the distance after two calls is 5. -/
theorem BLDC_PWMDC_Set_converges_witness :
    (Nat.iterate (BLDC_PWMDC_Set 33) 3 (on_state 0x3AC 30 128 0x300 0x300)).global_uDC = 33 ∧
    (Nat.iterate (BLDC_PWMDC_Set 33) 4 (on_state 0x3AC 30 128 0x300 0x300)).global_uDC = 33 ∧
    (33 - (Nat.iterate (BLDC_PWMDC_Set 33) 2 (on_state 0x3AC 40 128 0x300 0x300)).global_uDC)
      + ((Nat.iterate (BLDC_PWMDC_Set 33) 2 (on_state 0x3AC 40 128 0x300 0x300)).global_uDC
        - 33) = 5 :=
  ⟨(BLDC_PWMDC_Set_converges 33 (on_state 0x3AC 30 128 0x300 0x300) rfl (by decide)
      (by decide) (by decide)).2.1,
   (BLDC_PWMDC_Set_converges 33 (on_state 0x3AC 30 128 0x300 0x300) rfl (by decide)
      (by decide) (by decide)).2.2.1 4 (by simp [on_state, power_up]),
   (BLDC_PWMDC_Set_converges 33 (on_state 0x3AC 40 128 0x300 0x300) rfl (by decide)
      (by decide) (by decide)).1 2 (by simp [on_state, power_up])⟩

/-! ## The zero-crossing integral as a signed sum -/

/-- One tick at index 0, 1 or 2 (ADC latch, then `BLDC_Step`): run state,
tick counter, sector, and the two middle slots of the working buffer. -/
theorem tick_sample (a : Nat) (d : Driver) (hOn : d.BLDC_State ≠ BLDC_OFF)
    (hi : d.bldc_step_modul % 4 < 3) :
    (BLDC_Step (bemf_samp_get a d)).BLDC_State = d.BLDC_State ∧
    (BLDC_Step (bemf_samp_get a d)).bldc_step_modul = (d.bldc_step_modul + 1) % 256 ∧
    (BLDC_Step (bemf_samp_get a d)).comm_step = d.comm_step ∧
    (BLDC_Step (bemf_samp_get a d)).Back_EMF_15304560.s1
      = (if d.bldc_step_modul % 4 = 1 then (a % 65536 + 65536 - DC_HALF_REF) % 65536
        else d.Back_EMF_15304560.s1) ∧
    (BLDC_Step (bemf_samp_get a d)).Back_EMF_15304560.s2
      = (if d.bldc_step_modul % 4 = 2 then (a % 65536 + 65536 - DC_HALF_REF) % 65536
        else d.Back_EMF_15304560.s2) := by
  have hS : (bemf_samp_get a d).BLDC_State = d.BLDC_State := by simp only [bemf_samp_get_proj]
  have hm : (bemf_samp_get a d).bldc_step_modul = d.bldc_step_modul := by
    simp only [bemf_samp_get_proj]
  have hc : (bemf_samp_get a d).comm_step = d.comm_step := by simp only [bemf_samp_get_proj]
  have hB : (bemf_samp_get a d).Back_EMF_15304560 = d.Back_EMF_15304560 := by
    simp only [bemf_samp_get_proj]
  have hA : (bemf_samp_get a d)._ADC_Global = a % 65536 := by simp only [bemf_samp_get_proj]
  have hg : GET_BACK_EMF_ADC (bemf_samp_get a d) = (a % 65536 + 65536 - DC_HALF_REF) % 65536 := by
    unfold GET_BACK_EMF_ADC
    rw [hA]
  have e := BLDC_Step_sample (bemf_samp_get a d) (by rw [hS]; exact hOn) (by rw [hm]; exact hi)
  rw [hm, hB, hg] at e
  rw [e]
  refine ⟨hS, rfl, hc, ?_, ?_⟩
  · show (ite _ _ _ : Samples4).s1 = _
    split_ifs <;> first | omega | rfl
  · show (ite _ _ _ : Samples4).s2 = _
    split_ifs <;> first | omega | rfl

/-- The 16-bit sum of two stored samples, read as the `int` of the target, is
the signed sum of the two deltas for readings in the 10-bit range. -/
theorem sample_sum_signed (a1 a2 : Nat) (h1 : a1 ≤ 1023) (h2 : a2 ≤ 1023) :
    toInt16 (((a1 % 65536 + 65536 - DC_HALF_REF) % 65536
        + (a2 % 65536 + 65536 - DC_HALF_REF) % 65536) % 65536)
      = ((a1 : Int) - 509) + ((a2 : Int) - 509) := by
  unfold toInt16 DC_HALF_REF
  split_ifs <;> omega

/-- C38: with `int` 16 bits wide, for all raw ADC readings `a1` and `a2` in
the 10-bit range `0..1023` latched at tick indices 1 and 2 of a sector that is
qualified as floating-falling (any readings `a0`, `a3` at indices 0 and 3),
the zero-crossing integral stored at the fourth tick is the signed value
`(a1 - 509) + (a2 - 509)`, also when a reading is below the half-bus
reference and its stored unsigned sample has wrapped. -/
theorem zero_crossing_integral_signed (a0 a1 a2 a3 : Nat) (d : Driver)
    (hOn : d.BLDC_State ≠ BLDC_OFF) (h0 : d.bldc_step_modul % 4 = 0)
    (hF : (Commutation_Steps_at d.comm_step).phA = DC_OUTP_FLOAT_F)
    (h1 : a1 ≤ 1023) (h2 : a2 ≤ 1023) :
    (BLDC_Step_ticks [a0, a1, a2, a3] d).Back_EMF_Falling_Int_PhX
      = ((a1 : Int) - 509) + ((a2 : Int) - 509) ∧
    (BLDC_Step_ticks [a0, a1, a2, a3] d).Back_EMF_Falling_4.s1
      = (a1 + 65536 - 509) % 65536 ∧
    (BLDC_Step_ticks [a0, a1, a2, a3] d).Back_EMF_Falling_4.s2
      = (a2 + 65536 - 509) % 65536 := by
  simp only [BLDC_Step_ticks, List.foldl]
  have t1 := tick_sample a0 d hOn (by omega)
  generalize BLDC_Step (bemf_samp_get a0 d) = d1 at t1 ⊢
  have t2 := tick_sample a1 d1 (by rw [t1.1]; exact hOn) (by rw [t1.2.1]; omega)
  generalize BLDC_Step (bemf_samp_get a1 d1) = d2 at t2 ⊢
  have m2 : d2.bldc_step_modul % 4 = 2 := by rw [t2.2.1, t1.2.1]; omega
  have t3 := tick_sample a2 d2 (by rw [t2.1, t1.1]; exact hOn) (by omega)
  generalize BLDC_Step (bemf_samp_get a2 d2) = d3 at t3 ⊢
  have m3 : d3.bldc_step_modul % 4 = 3 := by rw [t3.2.1]; omega
  have hS : (bemf_samp_get a3 d3).BLDC_State = d3.BLDC_State := by
    simp only [bemf_samp_get_proj]
  have hm : (bemf_samp_get a3 d3).bldc_step_modul = d3.bldc_step_modul := by
    simp only [bemf_samp_get_proj]
  have hc : (bemf_samp_get a3 d3).comm_step = d3.comm_step := by simp only [bemf_samp_get_proj]
  have hB : (bemf_samp_get a3 d3).Back_EMF_15304560 = d3.Back_EMF_15304560 := by
    simp only [bemf_samp_get_proj]
  have f := BLDC_Step_switch (bemf_samp_get a3 d3) (by rw [hS, t3.1, t2.1, t1.1]; exact hOn)
    (by rw [hm]; exact m3)
  have hF3 : (Commutation_Steps_at (bemf_samp_get a3 d3).comm_step).phA = DC_OUTP_FLOAT_F := by
    rw [hc, t3.2.2.1, t2.2.2.1, t1.2.2.1]; exact hF
  have s1 : d3.Back_EMF_15304560.s1 = (a1 % 65536 + 65536 - DC_HALF_REF) % 65536 := by
    rw [t3.2.2.2.1, if_neg (by omega), t2.2.2.2.1, if_pos (by rw [t1.2.1]; omega)]
  have s2 : d3.Back_EMF_15304560.s2 = (a2 % 65536 + 65536 - DC_HALF_REF) % 65536 := by
    rw [t3.2.2.2.2, if_pos m2]
  rw [f.2.1, f.2.2.1, hF3, hB, s1, s2]
  simp only [if_true]
  refine ⟨sample_sum_signed a1 a2 h1 h2, ?_, ?_⟩
  · show d3.Back_EMF_15304560.s1 = _
    rw [s1]; unfold DC_HALF_REF; omega
  · show d3.Back_EMF_15304560.s2 = _
    rw [s2]; unfold DC_HALF_REF; omega

/-- A sector that starts with `comm_step` at 2 (phase A floating-falling in
the table): readings 700 and 100 at indices 1 and 2 give the integral
`191 - 409 = -218`, the second sample being stored wrapped as 65127. -/
theorem zero_crossing_integral_signed_witness :
    (BLDC_Step_ticks [600, 700, 100, 600] falling_sector_state).Back_EMF_Falling_Int_PhX
      = -218 ∧
    (BLDC_Step_ticks [600, 700, 100, 600] falling_sector_state).Back_EMF_Falling_4.s2
      = 65127 :=
  ⟨(zero_crossing_integral_signed 600 700 100 600 falling_sector_state (by decide)
      (by decide) (by decide) (by decide) (by decide)).1.trans (by decide),
   (zero_crossing_integral_signed 600 700 100 600 falling_sector_state (by decide)
      (by decide) (by decide) (by decide) (by decide)).2.2.trans (by decide)⟩

/-! ## The sectors of the sampler and of the switching engine -/

/-- Only `BLDC_Step` writes the sampler's sector and the sector remembered by
the switching engine. -/
theorem commands_keep_sectors (T : List Nat) (d : Driver) (dc a : Nat) :
    ((BLDC_Update T d).comm_step = d.comm_step ∧
      (BLDC_Update T d).prev_bldc_step = d.prev_bldc_step) ∧
    ((BLDC_PWMDC_Plus d).1.comm_step = d.comm_step ∧
      (BLDC_PWMDC_Plus d).1.prev_bldc_step = d.prev_bldc_step) ∧
    ((BLDC_PWMDC_Minus d).1.comm_step = d.comm_step ∧
      (BLDC_PWMDC_Minus d).1.prev_bldc_step = d.prev_bldc_step) ∧
    ((BLDC_PWMDC_Set dc d).comm_step = d.comm_step ∧
      (BLDC_PWMDC_Set dc d).prev_bldc_step = d.prev_bldc_step) ∧
    ((BLDC_Spd_dec d).comm_step = d.comm_step ∧
      (BLDC_Spd_dec d).prev_bldc_step = d.prev_bldc_step) ∧
    ((BLDC_Spd_inc d).comm_step = d.comm_step ∧
      (BLDC_Spd_inc d).prev_bldc_step = d.prev_bldc_step) ∧
    ((bemf_samp_get a d).comm_step = d.comm_step ∧
      (bemf_samp_get a d).prev_bldc_step = d.prev_bldc_step) := by
  have st := BLDC_Stop_fields
  refine ⟨?_, ?_, ?_, ?_, ?_, ?_, ?_⟩
  · rcases hs : d.BLDC_State with _ | _ | _
    · rw [BLDC_Update_off T d hs]; exact ⟨rfl, rfl⟩
    · unfold BLDC_Update
      simp only [hs, emit_proj, set_dutycycle_proj, apply_ite Driver.comm_step,
        apply_ite Driver.prev_bldc_step, ite_self, and_self]
    · rw [BLDC_Update_on T d hs]
      simp only [emit_proj, timing_correction_proj, fault_check_proj, and_self]
  · unfold BLDC_PWMDC_Plus
    simp only [emit_proj, inc_dutycycle_proj, apply_ite Prod.fst, apply_ite Driver.comm_step,
      apply_ite Driver.prev_bldc_step, ite_self, and_self]
  · unfold BLDC_PWMDC_Minus
    simp only [emit_proj, dec_dutycycle_proj, apply_ite Prod.fst, apply_ite Driver.comm_step,
      apply_ite Driver.prev_bldc_step, ite_self, and_self]
  · unfold BLDC_PWMDC_Set
    simp only [emit_proj, inc_dutycycle_proj, dec_dutycycle_proj, (st _).2.2.2.2.1,
      (st _).2.2.2.2.2.1, apply_ite Driver.comm_step, apply_ite Driver.prev_bldc_step,
      ite_self, and_self]
  · unfold BLDC_Spd_dec
    simp only [emit_proj, apply_ite Driver.comm_step, apply_ite Driver.prev_bldc_step,
      ite_self, and_self]
  · unfold BLDC_Spd_inc
    simp only [emit_proj, apply_ite Driver.comm_step, apply_ite Driver.prev_bldc_step,
      ite_self, and_self]
  · simp only [bemf_samp_get_proj, and_self]

/-- The sectors after `BLDC_Step`: advanced at a tick of index 3 while not
Off, unchanged otherwise. -/
theorem BLDC_Step_sectors (d : Driver) :
    (d.BLDC_State ≠ BLDC_OFF ∧ d.bldc_step_modul % 4 = 3 →
      (BLDC_Step d).comm_step = (d.comm_step + 1) % 6 ∧
      (BLDC_Step d).prev_bldc_step = d.comm_step % 256) ∧
    (¬ (d.BLDC_State ≠ BLDC_OFF ∧ d.bldc_step_modul % 4 = 3) →
      (BLDC_Step d).comm_step = d.comm_step ∧
      (BLDC_Step d).prev_bldc_step = d.prev_bldc_step) := by
  refine ⟨fun h => ?_, fun h => ?_⟩
  · have f := BLDC_Step_switch d h.1 h.2
    exact ⟨f.2.2.2.2.2.1, f.2.2.2.2.1⟩
  · by_cases hOff : d.BLDC_State = BLDC_OFF
    · rw [BLDC_Step_off d hOff]
      simp only [emit_proj, and_self]
    · have hi : d.bldc_step_modul % 4 < 3 := by
        have : ¬ d.bldc_step_modul % 4 = 3 := fun h3 => h ⟨hOff, h3⟩
        omega
      rw [BLDC_Step_sample d hOff hi]
      exact ⟨rfl, rfl⟩

/-- The sector invariant depends on the two sectors only. -/
theorem sector_invariant_of_eq (d e : Driver) (hc : e.comm_step = d.comm_step)
    (hp : e.prev_bldc_step = d.prev_bldc_step) (h : sector_invariant d) :
    sector_invariant e := by
  unfold sector_invariant at h ⊢
  rw [hc, hp]; exact h

/-- Every entry point keeps the sector invariant. -/
theorem Event_apply_sector_invariant (T : List Nat) (e : Event) (d : Driver)
    (h : sector_invariant d) : sector_invariant (Event.apply T e d) := by
  have k := commands_keep_sectors T d
  have ks := BLDC_Stop_fields d
  cases e with
  | Adc a => exact sector_invariant_of_eq d _ (k 0 a).2.2.2.2.2.2.1 (k 0 a).2.2.2.2.2.2.2 h
  | Step =>
    show sector_invariant (BLDC_Step d)
    by_cases hsw : d.BLDC_State ≠ BLDC_OFF ∧ d.bldc_step_modul % 4 = 3
    · unfold sector_invariant at h ⊢
      rw [((BLDC_Step_sectors d).1 hsw).1, ((BLDC_Step_sectors d).1 hsw).2]
      right
      omega
    · exact sector_invariant_of_eq d _ ((BLDC_Step_sectors d).2 hsw).1
        ((BLDC_Step_sectors d).2 hsw).2 h
  | Update => exact sector_invariant_of_eq d _ (k 0 0).1.1 (k 0 0).1.2 h
  | Stop => exact sector_invariant_of_eq d _ ks.2.2.2.2.1 ks.2.2.2.2.2.1 h
  | PWMDC_Plus => exact sector_invariant_of_eq d _ (k 0 0).2.1.1 (k 0 0).2.1.2 h
  | PWMDC_Minus => exact sector_invariant_of_eq d _ (k 0 0).2.2.1.1 (k 0 0).2.2.1.2 h
  | PWMDC_Set dc =>
    exact sector_invariant_of_eq d _ (k (dc % 65536) 0).2.2.2.1.1 (k (dc % 65536) 0).2.2.2.1.2 h
  | Spd_dec => exact sector_invariant_of_eq d _ (k 0 0).2.2.2.2.1.1 (k 0 0).2.2.2.2.1.2 h
  | Spd_inc => exact sector_invariant_of_eq d _ (k 0 0).2.2.2.2.2.1.1 (k 0 0).2.2.2.2.2.1.2 h

/-- The sector invariant along a run. -/
theorem run_sector_invariant (T : List Nat) (es : List Event) :
    ∀ d : Driver, sector_invariant d → sector_invariant (run T es d) := by
  induction es with
  | nil => intro d h; exact h
  | cons e es ih =>
    intro d h
    rw [run_cons]
    exact ih _ (Event_apply_sector_invariant T e d h)

/-- The sector invariant in every state reachable from power-up. -/
theorem reachable_sector_invariant (T : List Nat) (es : List Event) :
    sector_invariant (run T es power_up) :=
  run_sector_invariant T es power_up (Or.inl ⟨rfl, rfl⟩)

/-- Every entry point keeps the sector the successor of the remembered one. -/
theorem Event_apply_sector_successor (T : List Nat) (e : Event) (d : Driver)
    (h : d.prev_bldc_step < 6 ∧ d.comm_step = (d.prev_bldc_step + 1) % 6) :
    (Event.apply T e d).prev_bldc_step < 6 ∧
    (Event.apply T e d).comm_step = ((Event.apply T e d).prev_bldc_step + 1) % 6 := by
  have k := commands_keep_sectors T d
  have ks := BLDC_Stop_fields d
  have keep : ∀ e : Driver, e.comm_step = d.comm_step → e.prev_bldc_step = d.prev_bldc_step →
      e.prev_bldc_step < 6 ∧ e.comm_step = (e.prev_bldc_step + 1) % 6 := by
    intro e hc hp
    rw [hc, hp]; exact h
  cases e with
  | Adc a => exact keep _ (k 0 a).2.2.2.2.2.2.1 (k 0 a).2.2.2.2.2.2.2
  | Step =>
    show (BLDC_Step d).prev_bldc_step < 6 ∧
      (BLDC_Step d).comm_step = ((BLDC_Step d).prev_bldc_step + 1) % 6
    by_cases hsw : d.BLDC_State ≠ BLDC_OFF ∧ d.bldc_step_modul % 4 = 3
    · rw [((BLDC_Step_sectors d).1 hsw).1, ((BLDC_Step_sectors d).1 hsw).2]
      omega
    · exact keep _ ((BLDC_Step_sectors d).2 hsw).1 ((BLDC_Step_sectors d).2 hsw).2
  | Update => exact keep _ (k 0 0).1.1 (k 0 0).1.2
  | Stop => exact keep _ ks.2.2.2.2.1 ks.2.2.2.2.2.1
  | PWMDC_Plus => exact keep _ (k 0 0).2.1.1 (k 0 0).2.1.2
  | PWMDC_Minus => exact keep _ (k 0 0).2.2.1.1 (k 0 0).2.2.1.2
  | PWMDC_Set dc =>
    exact keep _ (k (dc % 65536) 0).2.2.2.1.1 (k (dc % 65536) 0).2.2.2.1.2
  | Spd_dec => exact keep _ (k 0 0).2.2.2.2.1.1 (k 0 0).2.2.2.2.1.2
  | Spd_inc => exact keep _ (k 0 0).2.2.2.2.2.1.1 (k 0 0).2.2.2.2.2.1.2

/-- Once the sector is the successor of the remembered one it stays so. -/
theorem run_sector_successor (T : List Nat) (es : List Event) :
    ∀ d : Driver, d.prev_bldc_step < 6 ∧ d.comm_step = (d.prev_bldc_step + 1) % 6 →
      (run T es d).prev_bldc_step < 6 ∧
      (run T es d).comm_step = ((run T es d).prev_bldc_step + 1) % 6 := by
  induction es with
  | nil => intro d h; exact h
  | cons e es ih =>
    intro d h
    rw [run_cons]
    exact ih _ (Event_apply_sector_successor T e d h)

/-- In `Commutation_Steps` no phase is driven high in one sector and driven
low in the cyclically next one, or the reverse; nor in one and the same
sector. -/
theorem Commutation_Steps_no_reversal :
    ∀ p, p < 6 → ∀ X ∈ [Phase.A, Phase.B, Phase.C],
      (¬ (phase_state (Commutation_Steps_at p) X = DC_OUTP_HI ∧
          phase_state (Commutation_Steps_at ((p + 1) % 6)) X = DC_OUTP_LO) ∧
        ¬ (phase_state (Commutation_Steps_at p) X = DC_OUTP_LO ∧
          phase_state (Commutation_Steps_at ((p + 1) % 6)) X = DC_OUTP_HI)) ∧
      (¬ (phase_state (Commutation_Steps_at p) X = DC_OUTP_HI ∧
          phase_state (Commutation_Steps_at p) X = DC_OUTP_LO)) := by
  decide

/-- C37: in every run of the entry points from power-up (ticks of the
sampler with any stops, restarts and other commands in between), at a tick
that calls `comm_switch` (not Off, index 3): the call switches from the
remembered sector to the sampler's sector, and no phase is driven high in
the one and driven low in the other, or the reverse; and in every state after
such a tick, so at every `comm_switch` call after the first, the sampler's
sector, which is the target of the call, is the cyclic successor of the
remembered previous sector.  In `Commutation_Steps` no phase is driven high
in one sector and driven low in the cyclically next one, or the reverse. -/
theorem comm_switch_never_reverses (T : List Nat) (es : List Event)
    (hOn : (run T es power_up).BLDC_State ≠ BLDC_OFF)
    (h3 : (run T es power_up).bldc_step_modul % 4 = 3) :
    (BLDC_Step (run T es power_up)).hw
      = (run T es power_up).hw
        ++ comm_switch_ops (Commutation_Steps_at (run T es power_up).prev_bldc_step)
            (Commutation_Steps_at ((run T es power_up).comm_step % 256))
            (run T es power_up).global_uDC ∧
    (∀ X : Phase,
      ¬ (phase_state (Commutation_Steps_at (run T es power_up).prev_bldc_step) X = DC_OUTP_HI ∧
          phase_state (Commutation_Steps_at ((run T es power_up).comm_step % 256)) X
            = DC_OUTP_LO) ∧
      ¬ (phase_state (Commutation_Steps_at (run T es power_up).prev_bldc_step) X = DC_OUTP_LO ∧
          phase_state (Commutation_Steps_at ((run T es power_up).comm_step % 256)) X
            = DC_OUTP_HI)) ∧
    (∀ fs : List Event,
      (run T fs (BLDC_Step (run T es power_up))).prev_bldc_step < 6 ∧
      (run T fs (BLDC_Step (run T es power_up))).comm_step % 256
        = ((run T fs (BLDC_Step (run T es power_up))).prev_bldc_step + 1) % 6) ∧
    (∀ p, p < 6 → ∀ X : Phase,
      ¬ (phase_state (Commutation_Steps_at p) X = DC_OUTP_HI ∧
          phase_state (Commutation_Steps_at ((p + 1) % 6)) X = DC_OUTP_LO) ∧
      ¬ (phase_state (Commutation_Steps_at p) X = DC_OUTP_LO ∧
          phase_state (Commutation_Steps_at ((p + 1) % 6)) X = DC_OUTP_HI)) := by
  have inv := reachable_sector_invariant T es
  have sw := BLDC_Step_sectors (run T es power_up)
  have f := BLDC_Step_switch (run T es power_up) hOn h3
  generalize run T es power_up = d at inv sw f hOn h3 ⊢
  unfold sector_invariant at inv
  refine ⟨f.2.2.2.2.2.2, fun X => ?_, fun fs => ?_, fun p hp X =>
    (Commutation_Steps_no_reversal p hp X (Phase_mem_all X)).1⟩
  · rcases inv with inv | inv
    · rw [inv.1, inv.2]
      have t := (Commutation_Steps_no_reversal 0 (by decide) X (Phase_mem_all X)).2
      exact ⟨t, fun c => t ⟨c.2, c.1⟩⟩
    · have e : d.comm_step % 256 = (d.prev_bldc_step + 1) % 6 := by omega
      rw [e]
      exact (Commutation_Steps_no_reversal d.prev_bldc_step inv.1 X (Phase_mem_all X)).1
  · have s1 := (sw.1 ⟨hOn, h3⟩)
    have j : (BLDC_Step d).prev_bldc_step < 6 ∧
        (BLDC_Step d).comm_step = ((BLDC_Step d).prev_bldc_step + 1) % 6 := by
      rw [s1.1, s1.2]
      rcases inv with inv | inv <;> omega
    have r := run_sector_successor T fs (BLDC_Step d) j
    exact ⟨r.1, by omega⟩

/-- The start command and three ticks from power-up bring the sampler to its
first switching tick; the fourth tick calls `comm_switch` from sector 0 to
sector 0, and after it and four more ticks the remembered sector is 1 and the
sampler's sector 2. -/
theorem comm_switch_never_reverses_witness :
    (BLDC_Step (run OL_Timing_old
        [Event.Spd_inc, Event.Step, Event.Step, Event.Step] power_up)).prev_bldc_step = 0 ∧
    (run OL_Timing_old [Event.Step, Event.Step, Event.Step, Event.Step]
      (BLDC_Step (run OL_Timing_old
        [Event.Spd_inc, Event.Step, Event.Step, Event.Step] power_up))).prev_bldc_step = 1 ∧
    (run OL_Timing_old [Event.Step, Event.Step, Event.Step, Event.Step]
      (BLDC_Step (run OL_Timing_old
        [Event.Spd_inc, Event.Step, Event.Step, Event.Step] power_up))).comm_step % 256
      = (1 + 1) % 6 :=
  ⟨by decide, by decide,
   ((comm_switch_never_reverses OL_Timing_old
      [Event.Spd_inc, Event.Step, Event.Step, Event.Step] (by decide) (by decide)).2.2.1
      [Event.Step, Event.Step, Event.Step, Event.Step]).2.trans (by decide)⟩

/-! ## Convergence of the unit-step correction -/

/-- One update in state On with the manual-mode flag clear, the fault
detector not tripping and a non-zero table entry within `2^15` of the period:
the run state, the flag and the duty cycle are kept and the period moves one
unit towards the table entry. -/
theorem BLDC_Update_on_towards_table (T : List Nat) (d : Driver)
    (hOn : d.BLDC_State = BLDC_ON) (hM : d.Manual_Mode = 0)
    (hI : d.global_uDC < OL_TIMING_TBL_SIZE T) (hE : OL_Timing_at T d.global_uDC ≠ 0)
    (hP : d.BLDC_OL_comm_tm < 65536)
    (hclose : (OL_Timing_at T d.global_uDC - d.BLDC_OL_comm_tm)
      + (d.BLDC_OL_comm_tm - OL_Timing_at T d.global_uDC) < 32768)
    (hnt : (BLDC_Update T d).vsys_fault_bucket ≠ 0) :
    (BLDC_Update T d).BLDC_State = BLDC_ON ∧
    (BLDC_Update T d).Manual_Mode = 0 ∧
    (BLDC_Update T d).global_uDC = d.global_uDC ∧
    (BLDC_Update T d).BLDC_OL_comm_tm
      = (if d.BLDC_OL_comm_tm < OL_Timing_at T d.global_uDC then d.BLDC_OL_comm_tm + 1
        else if d.BLDC_OL_comm_tm > OL_Timing_at T d.global_uDC then d.BLDC_OL_comm_tm - 1
        else d.BLDC_OL_comm_tm) := by
  have f := BLDC_Update_on_fields T d hOn
  have hu : (BLDC_Update T d).global_uDC = d.global_uDC := by
    rw [f.2.2.2.1, if_neg (fun e0 => hnt e0.symm)]
  have hfu : (fault_check d).global_uDC = d.global_uDC := by
    rw [← f.2.2.2.2.2.2.2]; exact hu
  have hfM : (fault_check d).Manual_Mode = 0 := by
    have : (fault_check d).Manual_Mode = d.Manual_Mode := by simp only [fault_check_proj]
    rw [this]; exact hM
  have hfP : (fault_check d).BLDC_OL_comm_tm = d.BLDC_OL_comm_tm := by
    simp only [fault_check_proj]
  have t := timing_correction_period T (fault_check d) hfM (by rw [hfu]; exact hI)
    (by rw [hfP]; exact hP)
  rw [hfu, hfP] at t
  refine ⟨f.1, by rw [f.2.2.2.2.2.1]; exact hM, hu, ?_⟩
  rw [f.2.2.2.2.2.2.1]
  exact t.1 hE (by omega) (by omega)

/-- The period after a run of updates in state On in which the fault detector
does not trip. -/
theorem BLDC_Update_run_towards_table (T : List Nat) (u : Nat) (hI : u < OL_TIMING_TBL_SIZE T)
    (hE : OL_Timing_at T u ≠ 0) (vs : List Nat) :
    ∀ d : Driver, d.BLDC_State = BLDC_ON → d.Manual_Mode = 0 → d.global_uDC = u →
      d.BLDC_OL_comm_tm < 65536 →
      (OL_Timing_at T u - d.BLDC_OL_comm_tm) + (d.BLDC_OL_comm_tm - OL_Timing_at T u) < 32768 →
      not_tripping T vs d = true →
      (BLDC_Update_run T vs d).BLDC_State = BLDC_ON ∧
      (BLDC_Update_run T vs d).Manual_Mode = 0 ∧
      (BLDC_Update_run T vs d).global_uDC = u ∧
      (BLDC_Update_run T vs d).BLDC_OL_comm_tm
        = (if d.BLDC_OL_comm_tm ≤ OL_Timing_at T u
            then min (OL_Timing_at T u) (d.BLDC_OL_comm_tm + vs.length)
            else max (OL_Timing_at T u) (d.BLDC_OL_comm_tm - vs.length)) := by
  have hE16 : OL_Timing_at T u < 65536 := Nat.mod_lt _ (by decide)
  induction vs with
  | nil =>
    intro d hOn hM hu _ _ _
    refine ⟨hOn, hM, hu, ?_⟩
    show d.BLDC_OL_comm_tm = _
    rw [List.length_nil]
    split_ifs <;> omega
  | cons v vs ih =>
    intro d hOn hM hu hP hclose hnt
    rw [not_tripping, Bool.and_eq_true, decide_eq_true_eq] at hnt
    have s := BLDC_Update_on_towards_table T { d with Vbatt := v % 65536 } hOn hM
      (by rw [← hu] at hI; exact hI) (by rw [← hu] at hE; exact hE) hP
      (by rw [← hu] at hclose; exact hclose) hnt.1
    have su : (BLDC_Update T { d with Vbatt := v % 65536 }).global_uDC = u := by
      rw [s.2.2.1]; exact hu
    have sP : (BLDC_Update T { d with Vbatt := v % 65536 }).BLDC_OL_comm_tm
        = (if d.BLDC_OL_comm_tm < OL_Timing_at T u then d.BLDC_OL_comm_tm + 1
          else if d.BLDC_OL_comm_tm > OL_Timing_at T u then d.BLDC_OL_comm_tm - 1
          else d.BLDC_OL_comm_tm) := by
      rw [s.2.2.2]
      show (if d.BLDC_OL_comm_tm < OL_Timing_at T d.global_uDC then _ else _) = _
      rw [hu]
    have i := ih (BLDC_Update T { d with Vbatt := v % 65536 }) s.1 s.2.1 su
      (by rw [sP]; split_ifs <;> omega) (by rw [sP]; split_ifs <;> omega) hnt.2
    rw [BLDC_Update_run_cons]
    refine ⟨i.1, i.2.1, i.2.2.1, ?_⟩
    rw [i.2.2.2, sP, List.length_cons]
    split_ifs <;> omega

/-- C35: in state On with the manual-mode flag clear, the fault detector not
tripping, and the duty cycle at a value `d` inside the table whose entry `E`
is not 0, for every 16-bit starting period `P` with `|E - P| < 2^15`: the
updates keep the duty cycle; after `n` updates with `n` at most `|E - P|` the
distance of the period to `E` is `|E - P| - n`, so it decreases by exactly 1
on each update until it is 0; and after `|E - P|` updates or more the period
equals `E`. -/
theorem unit_step_correction_converges (T : List Nat) (vs : List Nat) (d : Driver)
    (hOn : d.BLDC_State = BLDC_ON) (hM : d.Manual_Mode = 0)
    (hI : d.global_uDC < OL_TIMING_TBL_SIZE T) (hE : OL_Timing_at T d.global_uDC ≠ 0)
    (hP : d.BLDC_OL_comm_tm < 65536)
    (hclose : (OL_Timing_at T d.global_uDC - d.BLDC_OL_comm_tm)
      + (d.BLDC_OL_comm_tm - OL_Timing_at T d.global_uDC) < 32768)
    (hnt : not_tripping T vs d = true) :
    (BLDC_Update_run T vs d).BLDC_State = BLDC_ON ∧
    (BLDC_Update_run T vs d).global_uDC = d.global_uDC ∧
    (vs.length ≤ (OL_Timing_at T d.global_uDC - d.BLDC_OL_comm_tm)
        + (d.BLDC_OL_comm_tm - OL_Timing_at T d.global_uDC) →
      (OL_Timing_at T d.global_uDC - (BLDC_Update_run T vs d).BLDC_OL_comm_tm)
        + ((BLDC_Update_run T vs d).BLDC_OL_comm_tm - OL_Timing_at T d.global_uDC)
        = (OL_Timing_at T d.global_uDC - d.BLDC_OL_comm_tm)
          + (d.BLDC_OL_comm_tm - OL_Timing_at T d.global_uDC) - vs.length) ∧
    ((OL_Timing_at T d.global_uDC - d.BLDC_OL_comm_tm)
        + (d.BLDC_OL_comm_tm - OL_Timing_at T d.global_uDC) ≤ vs.length →
      (BLDC_Update_run T vs d).BLDC_OL_comm_tm = OL_Timing_at T d.global_uDC) := by
  have r := BLDC_Update_run_towards_table T d.global_uDC hI hE vs d hOn hM rfl hP hclose hnt
  refine ⟨r.1, r.2.2.1, fun h => ?_, fun h => ?_⟩
  · rw [r.2.2.2]
    split_ifs <;> omega
  · rw [r.2.2.2]
    split_ifs <;> omega

/-- With the old table, duty cycle 30 (entry `0x03AC`) and the period at
`0x03B0`: after two updates the period is `0x03AE`, after four it is the
entry, and after six it still is. -/
theorem unit_step_correction_converges_witness :
    (OL_Timing_at OL_Timing_old 30 - (BLDC_Update_run OL_Timing_old [0x300, 0x300]
        (on_state 0x3B0 30 128 0x300 0x300)).BLDC_OL_comm_tm)
      + ((BLDC_Update_run OL_Timing_old [0x300, 0x300]
        (on_state 0x3B0 30 128 0x300 0x300)).BLDC_OL_comm_tm - OL_Timing_at OL_Timing_old 30)
      = 2 ∧
    (BLDC_Update_run OL_Timing_old [0x300, 0x300, 0x300, 0x300]
      (on_state 0x3B0 30 128 0x300 0x300)).BLDC_OL_comm_tm = 0x03AC ∧
    (BLDC_Update_run OL_Timing_old [0x300, 0x300, 0x300, 0x300, 0x300, 0x300]
      (on_state 0x3B0 30 128 0x300 0x300)).BLDC_OL_comm_tm = 0x03AC :=
  ⟨((unit_step_correction_converges OL_Timing_old [0x300, 0x300]
      (on_state 0x3B0 30 128 0x300 0x300) rfl rfl (by decide) (by decide) (by decide)
      (by decide) (by decide)).2.2.1 (by decide)).trans (by decide),
   ((unit_step_correction_converges OL_Timing_old [0x300, 0x300, 0x300, 0x300]
      (on_state 0x3B0 30 128 0x300 0x300) rfl rfl (by decide) (by decide) (by decide)
      (by decide) (by decide)).2.2.2 (by decide)).trans (by decide),
   ((unit_step_correction_converges OL_Timing_old [0x300, 0x300, 0x300, 0x300, 0x300, 0x300]
      (on_state 0x3B0 30 128 0x300 0x300) rfl rfl (by decide) (by decide) (by decide)
      (by decide) (by decide)).2.2.2 (by decide)).trans (by decide)⟩

/-! ## Table accesses are in bounds -/

/-- A checked read of `Commutation_Steps` inside the table. -/
theorem Commutation_Steps_read (i : Nat) (h : i < 6) :
    Commutation_Steps[i]? = some (Commutation_Steps_at i) := by
  interval_cases i <;> rfl

/-- A checked read of the timing table inside the table. -/
theorem OL_Timing_read (T : List Nat) (i : Nat) (h : i < OL_TIMING_TBL_SIZE T) :
    T[i]? = some (T.getD i 0) := by
  unfold OL_TIMING_TBL_SIZE at h
  rw [List.getD_eq_getElem?_getD, List.getElem?_eq_getElem h]
  rfl

/-- With both sectors inside the table, the checked `comm_switch` is
`comm_switch`. -/
theorem comm_switch_checked_eq (t : Nat) (d : Driver) (hp : d.prev_bldc_step < 6)
    (ht : t < 6) : comm_switch_checked t d = some (comm_switch t d) := by
  unfold comm_switch_checked comm_switch
  rw [Commutation_Steps_read _ hp, Commutation_Steps_read _ ht]

/-- The checked timing correction is the timing correction: its guard keeps
the read inside the table. -/
theorem timing_correction_checked_eq (T : List Nat) (d : Driver) :
    timing_correction_checked T d = some (timing_correction T d) := by
  unfold timing_correction_checked timing_correction
  by_cases hg : 0 = d.Manual_Mode ∧ d.global_uDC < OL_TIMING_TBL_SIZE T
  · rw [if_pos hg, if_pos hg, OL_Timing_read T _ hg.2]
    show (if _ then some _ else some _) = some (if _ then _ else _)
    unfold OL_Timing_at
    split_ifs <;> rfl
  · rw [if_neg hg, if_neg hg]

/-- The checked state machine is the state machine, in every state. -/
theorem BLDC_Update_checked_eq (T : List Nat) (d : Driver) :
    BLDC_Update_checked T d = some (BLDC_Update T d) := by
  rcases hs : d.BLDC_State with _ | _ | _
  · unfold BLDC_Update_checked
    simp only [hs]
  · unfold BLDC_Update_checked
    simp only [hs]
  · rw [BLDC_Update_on T d hs]
    unfold BLDC_Update_checked
    simp only [hs, timing_correction_checked_eq]

/-- With both sectors inside the table, the checked sampler is the sampler. -/
theorem BLDC_Step_checked_eq (d : Driver) (hc : d.comm_step < 6) (hp : d.prev_bldc_step < 6) :
    BLDC_Step_checked d = some (BLDC_Step d) := by
  by_cases hOff : d.BLDC_State = BLDC_OFF
  · unfold BLDC_Step_checked
    rw [if_neg (fun h => h hOff.symm)]
  · have hne : BLDC_OFF ≠ d.BLDC_State := fun h => hOff h.symm
    have hq : (qualify_samples (Commutation_Steps_at d.comm_step).phA
        { d with Back_EMF_15304560 :=
          { d.Back_EMF_15304560 with s3 := GET_BACK_EMF_ADC d } }).prev_bldc_step < 6 := by
      simp only [qualify_samples_proj]; exact hp
    have hq2 : (qualify_samples (Commutation_Steps_at d.comm_step).phA
        { d with Back_EMF_15304560 :=
          { d.Back_EMF_15304560 with s3 := GET_BACK_EMF_ADC d } }).comm_step % 256 < 6 := by
      simp only [qualify_samples_proj]; omega
    have hsw := comm_switch_checked_eq _ _ hq hq2
    unfold BLDC_Step_checked BLDC_Step
    rw [if_pos hne, if_pos hne, Commutation_Steps_read _ hc]
    have h4 : d.bldc_step_modul % TIM3_RATE_MODULUS < 4 := Nat.mod_lt _ (by decide)
    by_cases h0 : d.bldc_step_modul % TIM3_RATE_MODULUS = 0
    · simp only [h0, if_true]
    · by_cases h1 : d.bldc_step_modul % TIM3_RATE_MODULUS = 1
      · simp only [h1, if_true, (by decide : ¬ (1 : Nat) = 0), if_false]
      · by_cases h2 : d.bldc_step_modul % TIM3_RATE_MODULUS = 2
        · simp only [h2, if_true, (by decide : ¬ (2 : Nat) = 0), (by decide : ¬ (2 : Nat) = 1),
            if_false]
        · have h3 : d.bldc_step_modul % TIM3_RATE_MODULUS = 3 := by omega
          simp only [h3, if_true, (by decide : ¬ (3 : Nat) = 0), (by decide : ¬ (3 : Nat) = 1),
            (by decide : ¬ (3 : Nat) = 2), if_false, hsw]

/-- C33: every operation is total, and in every state reachable from
power-up each table access made by `BLDC_Update`, `BLDC_Step` and
`comm_switch` is in bounds: the sampler's sector and the sector remembered by
the switching engine are in `0..5`, so the bounds-checked `BLDC_Step` and the
bounds-checked `comm_switch` (for every target in `0..5`) return the result of
the unchecked functions; and the bounds-checked `BLDC_Update` returns the
result of `BLDC_Update`, the timing table being read only when the duty cycle
is below the table size. -/
theorem table_accesses_in_bounds (T : List Nat) (es : List Event) :
    (run T es power_up).comm_step < 6 ∧
    (run T es power_up).prev_bldc_step < 6 ∧
    BLDC_Step_checked (run T es power_up) = some (BLDC_Step (run T es power_up)) ∧
    (∀ t, t < 6 →
      comm_switch_checked t (run T es power_up) = some (comm_switch t (run T es power_up))) ∧
    BLDC_Update_checked T (run T es power_up) = some (BLDC_Update T (run T es power_up)) ∧
    (timing_correction_checked T (fault_check (run T es power_up))
      = some (timing_correction T (fault_check (run T es power_up)))) ∧
    (∀ i, OL_TIMING_TBL_SIZE T ≤ i → T[i]? = none) ∧
    (∀ i, 6 ≤ i → Commutation_Steps[i]? = none) := by
  have inv := reachable_sector_invariant T es
  generalize run T es power_up = d at inv ⊢
  unfold sector_invariant at inv
  have hc : d.comm_step < 6 := by rcases inv with inv | inv <;> omega
  have hp : d.prev_bldc_step < 6 := by rcases inv with inv | inv <;> omega
  refine ⟨hc, hp, BLDC_Step_checked_eq d hc hp, fun t ht => comm_switch_checked_eq t d hp ht,
    BLDC_Update_checked_eq T d, timing_correction_checked_eq T _, fun i hi => ?_, fun i hi => ?_⟩
  · exact List.getElem?_eq_none hi
  · exact List.getElem?_eq_none hi

/-- After the start command and eight ticks the sampler's sector is 2 and the
checked sampler returns the sampler's result; with a sector outside the table
the checked sampler and the checked `comm_switch` return `none`. -/
theorem table_accesses_in_bounds_witness :
    (run OL_Timing_old
      [Event.Spd_inc, Event.Step, Event.Step, Event.Step, Event.Step, Event.Step, Event.Step,
        Event.Step, Event.Step] power_up).comm_step = 2 ∧
    BLDC_Step_checked (run OL_Timing_old
      [Event.Spd_inc, Event.Step, Event.Step, Event.Step, Event.Step, Event.Step, Event.Step,
        Event.Step, Event.Step] power_up)
      = some (BLDC_Step (run OL_Timing_old
        [Event.Spd_inc, Event.Step, Event.Step, Event.Step, Event.Step, Event.Step, Event.Step,
          Event.Step, Event.Step] power_up)) ∧
    BLDC_Step_checked { stepping_state with comm_step := 6 } = none ∧
    comm_switch_checked 6 stepping_state = none :=
  ⟨by decide,
   (table_accesses_in_bounds OL_Timing_old
      [Event.Spd_inc, Event.Step, Event.Step, Event.Step, Event.Step, Event.Step, Event.Step,
        Event.Step, Event.Step]).2.2.1,
   by decide, by decide⟩

/-! ## A regular start, followed through the entry points -/

/-- The duty-plus command writes nothing but the run state, the duty cycle
and the trace. -/
theorem BLDC_PWMDC_Plus_frame (d : Driver) :
    (BLDC_PWMDC_Plus d).1.BLDC_OL_comm_tm = d.BLDC_OL_comm_tm ∧
    (BLDC_PWMDC_Plus d).1.Manual_Mode = d.Manual_Mode ∧
    (BLDC_PWMDC_Plus d).1.vsys_fault_bucket = d.vsys_fault_bucket ∧
    (BLDC_PWMDC_Plus d).1.Vbatt = d.Vbatt ∧
    (BLDC_PWMDC_Plus d).1.Vsystem = d.Vsystem := by
  unfold BLDC_PWMDC_Plus
  simp only [emit_proj, inc_dutycycle_proj, apply_ite Prod.fst,
    apply_ite Driver.BLDC_OL_comm_tm, apply_ite Driver.Manual_Mode,
    apply_ite Driver.vsys_fault_bucket, apply_ite Driver.Vbatt, apply_ite Driver.Vsystem,
    ite_self, and_self]

/-- A run of duty-plus commands leaves the period, the manual-mode flag, the
fault bucket and the two voltages alone. -/
theorem run_plus_frame (T : List Nat) (n : Nat) :
    ∀ d : Driver,
      (run T (List.replicate n Event.PWMDC_Plus) d).BLDC_OL_comm_tm = d.BLDC_OL_comm_tm ∧
      (run T (List.replicate n Event.PWMDC_Plus) d).Manual_Mode = d.Manual_Mode ∧
      (run T (List.replicate n Event.PWMDC_Plus) d).vsys_fault_bucket = d.vsys_fault_bucket ∧
      (run T (List.replicate n Event.PWMDC_Plus) d).Vbatt = d.Vbatt ∧
      (run T (List.replicate n Event.PWMDC_Plus) d).Vsystem = d.Vsystem := by
  induction n with
  | zero => intro d; exact ⟨rfl, rfl, rfl, rfl, rfl⟩
  | succ n ih =>
    intro d
    have f := BLDC_PWMDC_Plus_frame d
    have k := ih (BLDC_PWMDC_Plus d).1
    rw [List.replicate_succ, run_cons]
    show (run T (List.replicate n Event.PWMDC_Plus) (BLDC_PWMDC_Plus d).1).BLDC_OL_comm_tm = _ ∧
      (run T (List.replicate n Event.PWMDC_Plus) (BLDC_PWMDC_Plus d).1).Manual_Mode = _ ∧
      (run T (List.replicate n Event.PWMDC_Plus) (BLDC_PWMDC_Plus d).1).vsys_fault_bucket = _ ∧
      (run T (List.replicate n Event.PWMDC_Plus) (BLDC_PWMDC_Plus d).1).Vbatt = _ ∧
      (run T (List.replicate n Event.PWMDC_Plus) (BLDC_PWMDC_Plus d).1).Vsystem = _
    rw [k.1, k.2.1, k.2.2.1, k.2.2.2.1, k.2.2.2.2]
    exact f

/-- The updates of the ramp, from a period `2 n` above the high-speed
threshold: after `n` updates the state is still RampUp, the period is the
threshold, and the fault bucket and the battery-voltage estimate are as
before. -/
theorem run_ramp_updates (T : List Nat) (n : Nat) :
    ∀ d : Driver, d.BLDC_State = BLDC_RAMPUP →
      d.BLDC_OL_comm_tm = BLDC_OL_TM_HI_SPD + 2 * n → d.BLDC_OL_comm_tm < 65536 →
      (run T (List.replicate n Event.Update) d).BLDC_State = BLDC_RAMPUP ∧
      (run T (List.replicate n Event.Update) d).BLDC_OL_comm_tm = BLDC_OL_TM_HI_SPD ∧
      (run T (List.replicate n Event.Update) d).vsys_fault_bucket = d.vsys_fault_bucket ∧
      (run T (List.replicate n Event.Update) d).Vbatt = d.Vbatt := by
  induction n with
  | zero => intro d h hP _; exact ⟨h, hP, rfl, rfl⟩
  | succ n ih =>
    intro d h hP hP16
    have e := BLDC_Update_rampup T d h (by omega) hP16
    have k := ih (BLDC_Update T d) (by rw [e]; exact h)
      (by rw [e]; show d.BLDC_OL_comm_tm - BLDC_ONE_RAMP_UNIT = _; unfold BLDC_ONE_RAMP_UNIT; omega)
      (by rw [e]; show d.BLDC_OL_comm_tm - BLDC_ONE_RAMP_UNIT < _; omega)
    rw [List.replicate_succ, run_cons]
    show (run T (List.replicate n Event.Update) (BLDC_Update T d)).BLDC_State = _ ∧
      (run T (List.replicate n Event.Update) (BLDC_Update T d)).BLDC_OL_comm_tm = _ ∧
      (run T (List.replicate n Event.Update) (BLDC_Update T d)).vsys_fault_bucket = _ ∧
      (run T (List.replicate n Event.Update) (BLDC_Update T d)).Vbatt = _
    rw [k.1, k.2.1, k.2.2.1, k.2.2.2, e]
    exact ⟨rfl, rfl, rfl, rfl⟩

/-- The last update of a ramp: from RampUp with the period at the high-speed
threshold to On, with the idle duty cycle, the manual-mode flag clear and the
system voltage seeded from the battery-voltage estimate. -/
theorem BLDC_Update_ramp_end (T : List Nat) (d : Driver) (h : d.BLDC_State = BLDC_RAMPUP)
    (hP : d.BLDC_OL_comm_tm = BLDC_OL_TM_HI_SPD) :
    (BLDC_Update T d).BLDC_State = BLDC_ON ∧
    (BLDC_Update T d).global_uDC = PWM_DC_IDLE ∧
    (BLDC_Update T d).BLDC_OL_comm_tm = BLDC_OL_TM_HI_SPD ∧
    (BLDC_Update T d).Manual_Mode = 0 ∧
    (BLDC_Update T d).vsys_fault_bucket = d.vsys_fault_bucket ∧
    (BLDC_Update T d).Vbatt = d.Vbatt ∧
    (BLDC_Update T d).Vsystem = d.Vbatt := by
  rw [BLDC_Update_rampup_done T d h (le_of_eq hP)]
  exact ⟨rfl, rfl, hP, rfl, rfl, rfl, rfl⟩

/-- The start of a run from power-up: after an Off update and the start
command the state is RampUp, the period is the low-speed start value, the
fault bucket is full and the battery-voltage estimate is 0. -/
theorem start_from_power_up (T : List Nat) :
    (BLDC_Spd_inc (BLDC_Update T power_up)).BLDC_State = BLDC_RAMPUP ∧
    (BLDC_Spd_inc (BLDC_Update T power_up)).BLDC_OL_comm_tm = BLDC_OL_TM_HI_SPD + 2 * 1568 ∧
    (BLDC_Spd_inc (BLDC_Update T power_up)).vsys_fault_bucket = FAULT_BUCKET_INI ∧
    (BLDC_Spd_inc (BLDC_Update T power_up)).Vbatt = 0 := by
  rw [BLDC_Update_off T power_up rfl]
  decide

/-- The events of a regular start followed by `n` duty-plus commands, as
nested runs. -/
theorem run_start_then_plus_eq (T : List Nat) (n : Nat) :
    run T (start_then_plus n) power_up
      = run T (List.replicate n Event.PWMDC_Plus)
          (BLDC_Update T (run T (List.replicate 1568 Event.Update)
            (BLDC_Spd_inc (BLDC_Update T power_up)))) := by
  have e0 : run T [Event.Update, Event.Spd_inc] power_up
      = BLDC_Spd_inc (BLDC_Update T power_up) := rfl
  have e1 : ∀ x : Driver, run T [Event.Update] x = BLDC_Update T x := fun _ => rfl
  have er : List.replicate 1569 Event.Update
      = List.replicate 1568 Event.Update ++ [Event.Update] := List.replicate_succ' 1568 _
  unfold start_then_plus
  rw [run_append, run_append, e0, er, run_append, e1]

/-- A regular start from power-up (an Off update, the start command, the 1569
updates of the ramp) followed by `n` duty-plus commands: the state is On, the
duty cycle is the idle duty plus `n`, the period is the high-speed threshold,
the manual-mode flag is clear, the fault bucket is full and both voltages are
0 (no sampler tick has run). -/
theorem run_start_then_plus (T : List Nat) (n : Nat) (hn : PWM_DC_IDLE + n ≤ 0xFFFE) :
    (run T (start_then_plus n) power_up).BLDC_State = BLDC_ON ∧
    (run T (start_then_plus n) power_up).global_uDC = PWM_DC_IDLE + n ∧
    (run T (start_then_plus n) power_up).BLDC_OL_comm_tm = BLDC_OL_TM_HI_SPD ∧
    (run T (start_then_plus n) power_up).Manual_Mode = 0 ∧
    (run T (start_then_plus n) power_up).vsys_fault_bucket = FAULT_BUCKET_INI ∧
    (run T (start_then_plus n) power_up).Vbatt = 0 ∧
    (run T (start_then_plus n) power_up).Vsystem = 0 := by
  have s := start_from_power_up T
  have r := run_ramp_updates T 1568 (BLDC_Spd_inc (BLDC_Update T power_up)) s.1 s.2.1
    (by rw [s.2.1]; decide)
  have o := BLDC_Update_ramp_end T _ r.1 r.2.1
  have p := run_plus_on T n _ o.1 (by rw [o.2.1]; exact hn)
  have q := run_plus_frame T n
    (BLDC_Update T (run T (List.replicate 1568 Event.Update)
      (BLDC_Spd_inc (BLDC_Update T power_up))))
  rw [run_start_then_plus_eq]
  refine ⟨p.1, ?_, ?_, ?_, ?_, ?_, ?_⟩
  · rw [p.2, o.2.1]
  · rw [q.1, o.2.2.1]
  · rw [q.2.1, o.2.2.2.1]
  · rw [q.2.2.1, o.2.2.2.2.1, r.2.2.1, s.2.2.1]
  · rw [q.2.2.2.1, o.2.2.2.2.2.1, r.2.2.2, s.2.2.2]
  · rw [q.2.2.2.2, o.2.2.2.2.2.2, r.2.2.2, s.2.2.2]

/-- Updates in state On that find both voltages at 0, fewer than the bucket
holds: each takes one unit from the bucket and leaves the state, the duty
cycle, the manual-mode flag and the voltages as they are; and the period too
when the flag is set or the duty cycle is at or beyond the size of the
timing table. -/
theorem run_drain (T : List Nat) (n : Nat) :
    ∀ d : Driver, d.BLDC_State = BLDC_ON → d.Vbatt = 0 → d.Vsystem = 0 →
      (n : Int) < d.vsys_fault_bucket →
      (run T (List.replicate n Event.Update) d).BLDC_State = BLDC_ON ∧
      (run T (List.replicate n Event.Update) d).Vbatt = 0 ∧
      (run T (List.replicate n Event.Update) d).Vsystem = 0 ∧
      (run T (List.replicate n Event.Update) d).vsys_fault_bucket
        = d.vsys_fault_bucket - (n : Int) ∧
      (run T (List.replicate n Event.Update) d).global_uDC = d.global_uDC ∧
      (run T (List.replicate n Event.Update) d).Manual_Mode = d.Manual_Mode ∧
      (d.Manual_Mode ≠ 0 ∨ OL_TIMING_TBL_SIZE T ≤ d.global_uDC →
        (run T (List.replicate n Event.Update) d).BLDC_OL_comm_tm = d.BLDC_OL_comm_tm) := by
  induction n with
  | zero =>
    intro d hOn hVb hVs _
    refine ⟨hOn, hVb, hVs, ?_, rfl, rfl, fun _ => rfl⟩
    show d.vsys_fault_bucket = d.vsys_fault_bucket - ((0 : Nat) : Int)
    omega
  | succ n ih =>
    intro d hOn hVb hVs hb
    push_cast at hb
    have f := BLDC_Update_on_fields T d hOn
    have v : (BLDC_Update T d).Vsystem = 0 := by rw [f.2.1, hVb, hVs]
    have b : (BLDC_Update T d).vsys_fault_bucket = d.vsys_fault_bucket - 1 := by
      rw [f.2.2.1, v, if_pos (by decide), if_pos (by omega)]
    have u : (BLDC_Update T d).global_uDC = d.global_uDC := by
      rw [f.2.2.2.1, b, if_neg (by omega)]
    have m : (BLDC_Update T d).Manual_Mode = d.Manual_Mode := f.2.2.2.2.2.1
    have vb : (BLDC_Update T d).Vbatt = 0 := by rw [f.2.2.2.2.1]; exact hVb
    have k := ih (BLDC_Update T d) f.1 vb v (by rw [b]; omega)
    rw [List.replicate_succ, run_cons]
    show (run T (List.replicate n Event.Update) (BLDC_Update T d)).BLDC_State = _ ∧
      (run T (List.replicate n Event.Update) (BLDC_Update T d)).Vbatt = _ ∧
      (run T (List.replicate n Event.Update) (BLDC_Update T d)).Vsystem = _ ∧
      (run T (List.replicate n Event.Update) (BLDC_Update T d)).vsys_fault_bucket = _ ∧
      (run T (List.replicate n Event.Update) (BLDC_Update T d)).global_uDC = _ ∧
      (run T (List.replicate n Event.Update) (BLDC_Update T d)).Manual_Mode = _ ∧
      (_ → (run T (List.replicate n Event.Update) (BLDC_Update T d)).BLDC_OL_comm_tm = _)
    refine ⟨k.1, k.2.1, k.2.2.1, ?_, ?_, ?_, fun hg => ?_⟩
    · rw [k.2.2.2.1, b]; push_cast; omega
    · rw [k.2.2.2.2.1, u]
    · rw [k.2.2.2.2.2.1, m]
    · have sk := BLDC_Update_on_skip T d hOn
        (by rw [← f.2.2.2.2.2.2.2, u]; exact hg)
      rw [k.2.2.2.2.2.2 (by rw [m, u]; exact hg), sk.1]

/-- The lookup variable after the timing correction. -/
theorem timing_correction_Table_value (T : List Nat) (d : Driver) :
    (timing_correction T d).Table_value
      = (if 0 = d.Manual_Mode ∧ d.global_uDC < OL_TIMING_TBL_SIZE T
          then OL_Timing_at T d.global_uDC else d.Table_value) := by
  unfold timing_correction
  simp only
  split_ifs <;> rfl

/-- An update in state On in which the fault bucket is 0 after the fault
check, the manual-mode flag being clear and the table not empty: the duty
cycle is forced to 0 and the table is read at index 0. -/
theorem BLDC_Update_on_trip (T : List Nat) (d : Driver) (hOn : d.BLDC_State = BLDC_ON)
    (hM : d.Manual_Mode = 0) (hz : (BLDC_Update T d).vsys_fault_bucket = 0)
    (h0 : 0 < OL_TIMING_TBL_SIZE T) :
    (BLDC_Update T d).global_uDC = 0 ∧
    (BLDC_Update T d).Table_value = OL_Timing_at T 0 ∧
    (fault_check d).global_uDC = 0 := by
  have f := BLDC_Update_on_fields T d hOn
  have u : (BLDC_Update T d).global_uDC = 0 := by rw [f.2.2.2.1, hz]; rfl
  have fu : (fault_check d).global_uDC = 0 := by rw [← f.2.2.2.2.2.2.2]; exact u
  have fM : (fault_check d).Manual_Mode = 0 := by
    have : (fault_check d).Manual_Mode = d.Manual_Mode := by simp only [fault_check_proj]
    rw [this]; exact hM
  refine ⟨u, ?_, fu⟩
  rw [BLDC_Update_on T d hOn]
  have e : (emit (HwOp.TIM3_setup (timing_correction T (fault_check d)).BLDC_OL_comm_tm)
      (timing_correction T (fault_check d))).Table_value
      = (timing_correction T (fault_check d)).Table_value := by simp only [emit_proj]
  rw [e, timing_correction_Table_value, fM, fu, if_pos ⟨rfl, h0⟩]

/-! ## The duty-cycle helpers on the values the driver reaches -/

/-- C17: for every duty cycle the driver can have (in every state reachable
from power-up through the entry points, where the duty cycle lies in
`[0, 0xFFFE]`), `inc_dutycycle` and `dec_dutycycle` never produce a value
outside `[0, 0xFFFE]` and never wrap: `inc` adds exactly 1 below the guard
and is the identity at the guard, `dec` subtracts exactly 1 above 0 and is
the identity at 0, so repeated calls at either boundary are idempotent. -/
theorem inc_dec_dutycycle_bounded (T : List Nat) (es : List Event) :
    (run T es power_up).global_uDC ≤ 0xFFFE ∧
    (inc_dutycycle (run T es power_up)).global_uDC ≤ 0xFFFE ∧
    (dec_dutycycle (run T es power_up)).global_uDC ≤ 0xFFFE ∧
    ((run T es power_up).global_uDC ≤ (inc_dutycycle (run T es power_up)).global_uDC ∧
      (dec_dutycycle (run T es power_up)).global_uDC ≤ (run T es power_up).global_uDC) ∧
    ((run T es power_up).global_uDC < 0xFFFE →
      (inc_dutycycle (run T es power_up)).global_uDC = (run T es power_up).global_uDC + 1) ∧
    ((run T es power_up).global_uDC = 0xFFFE →
      inc_dutycycle (run T es power_up) = run T es power_up) ∧
    (0 < (run T es power_up).global_uDC →
      (dec_dutycycle (run T es power_up)).global_uDC = (run T es power_up).global_uDC - 1) ∧
    ((run T es power_up).global_uDC = 0 →
      dec_dutycycle (run T es power_up) = run T es power_up) ∧
    ((run T es power_up).global_uDC = 0xFFFE →
      inc_dutycycle (inc_dutycycle (run T es power_up)) = inc_dutycycle (run T es power_up)) ∧
    ((run T es power_up).global_uDC = 0 →
      dec_dutycycle (dec_dutycycle (run T es power_up)) = dec_dutycycle (run T es power_up)) :=
  ⟨(reachable_duty_invariant T es).2,
    inc_dec_dutycycle_saturate (run T es power_up) (reachable_duty_invariant T es).2⟩

/-- After a regular start and 65504 duty-plus commands the duty cycle is at
the guard `0xFFFE`, and `inc_dutycycle` leaves the driver as it is; at
power-up the duty cycle is 0 and `dec_dutycycle` leaves the driver as it is;
in the ramp (duty cycle 35) `inc` gives 36 and `dec` gives 34. -/
theorem inc_dec_dutycycle_bounded_witness :
    (run OL_Timing_old (start_then_plus 65504) power_up).global_uDC = 0xFFFE ∧
    inc_dutycycle (run OL_Timing_old (start_then_plus 65504) power_up)
      = run OL_Timing_old (start_then_plus 65504) power_up ∧
    dec_dutycycle (run OL_Timing_old [] power_up) = run OL_Timing_old [] power_up ∧
    (inc_dutycycle (run OL_Timing_old [Event.Update, Event.Spd_inc, Event.Update]
      power_up)).global_uDC = 36 ∧
    (dec_dutycycle (run OL_Timing_old [Event.Update, Event.Spd_inc, Event.Update]
      power_up)).global_uDC = 34 :=
  ⟨(run_start_then_plus OL_Timing_old 65504 (by decide)).2.1,
   (inc_dec_dutycycle_bounded OL_Timing_old (start_then_plus 65504)).2.2.2.2.2.1
      (run_start_then_plus OL_Timing_old 65504 (by decide)).2.1,
   (inc_dec_dutycycle_bounded OL_Timing_old []).2.2.2.2.2.2.2.1 rfl,
   ((inc_dec_dutycycle_bounded OL_Timing_old
      [Event.Update, Event.Spd_inc, Event.Update]).2.2.2.2.1 (by decide)).trans (by decide),
   ((inc_dec_dutycycle_bounded OL_Timing_old
      [Event.Update, Event.Spd_inc, Event.Update]).2.2.2.2.2.2.1 (by decide)).trans
      (by decide)⟩

/-! ## The table test comes after the fault check -/

set_option maxRecDepth 8192 in
/-- The size of the modelled timing table and its entry at index 0. -/
theorem OL_Timing_model_facts :
    OL_TIMING_TBL_SIZE OL_Timing_model = 251 ∧ OL_Timing_at OL_Timing_model 0 = 4150 :=
  ⟨rfl, rfl⟩

/-- The driver at its last update before the trip: reached from power-up, in
state On with the manual-mode flag clear, the duty cycle 251 at the size of
the table, the period 960, one unit in the bucket and both voltages 0. -/
theorem tripping_state_fields :
    tripping_state.BLDC_State = BLDC_ON ∧
    tripping_state.Manual_Mode = 0 ∧
    tripping_state.global_uDC = 251 ∧
    tripping_state.BLDC_OL_comm_tm = 960 ∧
    tripping_state.vsys_fault_bucket = 1 ∧
    tripping_state.Vbatt = 0 ∧
    tripping_state.Vsystem = 0 := by
  have s := run_start_then_plus OL_Timing_model 221 (by decide)
  have d := run_drain OL_Timing_model 127 (run OL_Timing_model (start_then_plus 221) power_up)
    s.1 s.2.2.2.2.2.1 s.2.2.2.2.2.2 (by rw [s.2.2.2.2.1]; decide)
  unfold tripping_state
  rw [run_append]
  refine ⟨d.1, ?_, ?_, ?_, ?_, d.2.1, d.2.2.1⟩
  · rw [d.2.2.2.2.2.1, s.2.2.2.1]
  · rw [d.2.2.2.2.1, s.2.1]; decide
  · rw [d.2.2.2.2.2.2 (Or.inr (by rw [s.2.1, OL_Timing_model_facts.1]; decide)), s.2.2.1]; decide
  · rw [d.2.2.2.1, s.2.2.2.2.1]; decide

/-- C22, as stated, fails on the code.  `tripping_state` is reached from
power-up by a regular start, 221 duty-plus commands and 127 updates: the
state is On, the manual-mode flag is clear, and the duty cycle 251 is at the
size of the timing table `OL_Timing_model`.  In the next update the fault
bucket reaches 0, the duty cycle is forced to 0 before the table test, the
table is read at index 0 (`Table_value` becomes 4150) and the period moves
from 960 to 961. -/
theorem BLDC_Update_lookup_after_trip_counterexample :
    tripping_state.BLDC_State = BLDC_ON ∧
    tripping_state.Manual_Mode = 0 ∧
    tripping_state.global_uDC = 251 ∧
    OL_TIMING_TBL_SIZE OL_Timing_model ≤ tripping_state.global_uDC ∧
    tripping_state.BLDC_OL_comm_tm = 960 ∧
    (BLDC_Update OL_Timing_model tripping_state).vsys_fault_bucket = 0 ∧
    (BLDC_Update OL_Timing_model tripping_state).global_uDC = 0 ∧
    (BLDC_Update OL_Timing_model tripping_state).Table_value = 4150 ∧
    (BLDC_Update OL_Timing_model tripping_state).BLDC_OL_comm_tm = 961 ∧
    (BLDC_Update OL_Timing_model tripping_state).BLDC_OL_comm_tm
      ≠ tripping_state.BLDC_OL_comm_tm := by
  have t := tripping_state_fields
  have f := BLDC_Update_on_fields OL_Timing_model tripping_state t.1
  have v : (BLDC_Update OL_Timing_model tripping_state).Vsystem = 0 := by
    rw [f.2.1, t.2.2.2.2.2.1, t.2.2.2.2.2.2]
  have b : (BLDC_Update OL_Timing_model tripping_state).vsys_fault_bucket = 0 := by
    rw [f.2.2.1, v, t.2.2.2.2.1]; decide
  have tr := BLDC_Update_on_trip OL_Timing_model tripping_state t.1 t.2.1 b
    (by rw [OL_Timing_model_facts.1]; decide)
  have fM : (fault_check tripping_state).Manual_Mode = 0 := by
    have : (fault_check tripping_state).Manual_Mode = tripping_state.Manual_Mode := by
      simp only [fault_check_proj]
    rw [this]; exact t.2.1
  have fP : (fault_check tripping_state).BLDC_OL_comm_tm = 960 := by
    have : (fault_check tripping_state).BLDC_OL_comm_tm = tripping_state.BLDC_OL_comm_tm := by
      simp only [fault_check_proj]
    rw [this]; exact t.2.2.2.1
  have tc := timing_correction_period OL_Timing_model (fault_check tripping_state) fM
    (by rw [tr.2.2, OL_Timing_model_facts.1]; decide) (by rw [fP]; decide)
  rw [tr.2.2, fP, OL_Timing_model_facts.2] at tc
  have p : (BLDC_Update OL_Timing_model tripping_state).BLDC_OL_comm_tm = 961 := by
    rw [f.2.2.2.2.2.2.1, tc.1 (by decide) (by decide) (by decide)]
    decide
  refine ⟨t.1, t.2.1, t.2.2.1, ?_, t.2.2.2.1, b, tr.1, ?_, p, ?_⟩
  · rw [t.2.2.1, OL_Timing_model_facts.1]
  · rw [tr.2.1, OL_Timing_model_facts.2]
  · rw [p, t.2.2.2.1]; decide

/-- C22 (amended): for every update in state On in which the manual-mode flag
is set, or in which the duty cycle is at or beyond the size of the timing
table and the fault bucket is not 0 after the update's fault check, no table
lookup is made (`Table_value` is not written), the period is left unchanged,
the timer is re-armed with the retained value and the duty cycle is left as
it was if the bucket is not 0.  In an update in which the fault bucket is 0
after the fault check, the duty cycle is forced to 0 before the table test;
so with the manual-mode flag clear and a table that is not empty the table is
read at index 0, whatever the duty cycle was at the call. -/
theorem BLDC_Update_on_no_lookup (T : List Nat) (d : Driver) (hOn : d.BLDC_State = BLDC_ON) :
    ((d.Manual_Mode ≠ 0 ∨
        (OL_TIMING_TBL_SIZE T ≤ d.global_uDC ∧ (BLDC_Update T d).vsys_fault_bucket ≠ 0)) →
      (BLDC_Update T d).BLDC_OL_comm_tm = d.BLDC_OL_comm_tm ∧
      (BLDC_Update T d).Table_value = d.Table_value ∧
      (BLDC_Update T d).hw = d.hw ++ [HwOp.TIM3_setup d.BLDC_OL_comm_tm] ∧
      ((BLDC_Update T d).vsys_fault_bucket ≠ 0 →
        (BLDC_Update T d).global_uDC = d.global_uDC)) ∧
    (d.Manual_Mode = 0 → (BLDC_Update T d).vsys_fault_bucket = 0 →
      0 < OL_TIMING_TBL_SIZE T →
      (BLDC_Update T d).global_uDC = 0 ∧
      (BLDC_Update T d).Table_value = OL_Timing_at T 0) := by
  have f := BLDC_Update_on_fields T d hOn
  refine ⟨fun h => ?_, fun hM hz h0 => ?_⟩
  · have hu : (BLDC_Update T d).vsys_fault_bucket ≠ 0 →
        (BLDC_Update T d).global_uDC = d.global_uDC := by
      intro hb
      rw [f.2.2.2.1, if_neg (fun e0 => hb e0.symm)]
    have hg : d.Manual_Mode ≠ 0 ∨ OL_TIMING_TBL_SIZE T ≤ (fault_check d).global_uDC := by
      rcases h with h | h
      · exact Or.inl h
      · right
        rw [← f.2.2.2.2.2.2.2, hu h.2]
        exact h.1
    have sk := BLDC_Update_on_skip T d hOn hg
    exact ⟨sk.1, sk.2.1, sk.2.2.1, hu⟩
  · have tr := BLDC_Update_on_trip T d hOn hM hz h0
    exact ⟨tr.1, tr.2.1⟩

/-- With the manual-mode flag set (period `0x400`, duty cycle 30 inside the
old table) and with the duty cycle 200 beyond the old table and a full
bucket, the period stays `0x400`; with the bucket at 1 and both voltages low,
the duty cycle 200 is forced to 0 and the old table is read at index 0. -/
theorem BLDC_Update_on_no_lookup_witness :
    (BLDC_Update OL_Timing_old
      { on_state 0x400 30 128 0x300 0x300 with Manual_Mode := 1 }).BLDC_OL_comm_tm = 0x400 ∧
    (BLDC_Update OL_Timing_old (on_state 0x400 200 128 0x300 0x300)).BLDC_OL_comm_tm = 0x400 ∧
    (BLDC_Update OL_Timing_old
      { on_state 0x400 200 1 0x100 0x100 with Table_value := 0x03AC }).Table_value = 0 :=
  ⟨((BLDC_Update_on_no_lookup OL_Timing_old
      { on_state 0x400 30 128 0x300 0x300 with Manual_Mode := 1 } rfl).1
      (Or.inl (by decide))).1,
   ((BLDC_Update_on_no_lookup OL_Timing_old (on_state 0x400 200 128 0x300 0x300) rfl).1
      (Or.inr ⟨by decide, by decide⟩)).1,
   ((BLDC_Update_on_no_lookup OL_Timing_old
      { on_state 0x400 200 1 0x100 0x100 with Table_value := 0x03AC } rfl).2
      (by decide) (by decide) (by decide)).2.trans (by decide)⟩

/-! ## The fault is not latched -/

/-- The driver after a regular start and 128 updates with both voltages at 0:
the state is On, the fault bucket is 0 and the duty cycle has been forced to
0. -/
theorem tripped_state_fields :
    tripped_state.BLDC_State = BLDC_ON ∧
    tripped_state.vsys_fault_bucket = 0 ∧
    tripped_state.global_uDC = 0 := by
  have s := run_start_then_plus OL_Timing_old 0 (by decide)
  have d := run_drain OL_Timing_old 127 (run OL_Timing_old (start_then_plus 0) power_up)
    s.1 s.2.2.2.2.2.1 s.2.2.2.2.2.2 (by rw [s.2.2.2.2.1]; decide)
  have er : List.replicate 128 Event.Update
      = List.replicate 127 Event.Update ++ [Event.Update] := List.replicate_succ' 127 _
  have e1 : ∀ x : Driver, run OL_Timing_old [Event.Update] x = BLDC_Update OL_Timing_old x :=
    fun _ => rfl
  have f := BLDC_Update_on_fields OL_Timing_old _ d.1
  have v := f.2.1
  rw [d.2.1, d.2.2.1] at v
  have b := f.2.2.1
  rw [v, d.2.2.2.1, s.2.2.2.2.1] at b
  have b0 : (BLDC_Update OL_Timing_old (run OL_Timing_old (List.replicate 127 Event.Update)
      (run OL_Timing_old (start_then_plus 0) power_up))).vsys_fault_bucket = 0 := by
    rw [b]; decide
  unfold tripped_state
  rw [run_append, er, run_append, e1]
  refine ⟨f.1, b0, ?_⟩
  rw [f.2.2.2.1, b0]
  rfl

/-- C8 on the code: the fault is not latched.  `tripped_state` is reached
from power-up by a regular start and 128 updates that find the voltages at 0:
the motor is On, the bucket has reached 0 and the duty cycle has been forced
to 0.  Without any stop, the duty-plus command makes the duty cycle 1, and so
does a commanded duty of `0x40`.  The same from `faulted_state`, where the
voltage then recovers: after an update, a duty-plus and another update the
duty cycle is still 1 and the state On. -/
theorem duty_raised_after_fault_without_stop :
    (tripped_state.BLDC_State = BLDC_ON ∧
      tripped_state.vsys_fault_bucket = 0 ∧
      tripped_state.global_uDC = 0 ∧
      (run OL_Timing_old [Event.PWMDC_Plus] tripped_state).global_uDC = 1 ∧
      (run OL_Timing_old [Event.PWMDC_Plus] tripped_state).BLDC_State = BLDC_ON ∧
      (run OL_Timing_old [Event.PWMDC_Set 0x40] tripped_state).global_uDC = 1 ∧
      (run OL_Timing_old [Event.PWMDC_Set 0x40] tripped_state).BLDC_State = BLDC_ON) ∧
    (faulted_state.BLDC_State = BLDC_ON ∧
      faulted_state.vsys_fault_bucket = 0 ∧
      faulted_state.global_uDC = 0 ∧
      (run OL_Timing_old [Event.PWMDC_Plus] faulted_state).global_uDC = 1 ∧
      (run OL_Timing_old [Event.PWMDC_Set 0x40] faulted_state).global_uDC = 1 ∧
      (run OL_Timing_old [Event.Update, Event.PWMDC_Plus, Event.Update]
        faulted_state).global_uDC = 1 ∧
      (run OL_Timing_old [Event.Update, Event.PWMDC_Plus, Event.Update]
        faulted_state).BLDC_State = BLDC_ON) := by
  have t := tripped_state_fields
  have p := BLDC_PWMDC_Plus_fields tripped_state
  have q := BLDC_PWMDC_Set_from 0x40 tripped_state (by decide)
  rw [t.1, t.2.2] at p q
  have e1 : ∀ x : Driver, run OL_Timing_old [Event.PWMDC_Plus] x = (BLDC_PWMDC_Plus x).1 :=
    fun _ => rfl
  have e2 : ∀ x : Driver, run OL_Timing_old [Event.PWMDC_Set 0x40] x = BLDC_PWMDC_Set 0x40 x :=
    fun _ => rfl
  rw [e1, e2]
  refine ⟨⟨t.1, t.2.1, t.2.2, ?_, ?_, ?_, ?_⟩, by decide⟩
  · rw [p.2.1]; decide
  · rw [p.1]; decide
  · rw [q.2.1]; decide
  · rw [q.1]; decide

end BLDC
